import Mathlib

/-!
# Interaction and moderation handlers of the video platform

A shallow embedding of the Express handlers of `server/src/server.js`

* `POST /api/interactions/like`      (server.js 1210-1324)
* `POST /api/interactions/comment`   (server.js 1326-1356)
* `POST /api/interactions/reply`     (server.js 1359-1507)
* `POST /api/interactions/subscribe` (server.js 1510-1577)
* `POST /api/interactions/rate`      (server.js 1579-1654)
* `GET /api/videos/:id`              (server.js 996-1206)
* `adminAuth` and `POST /api/admin/videos/:id/approve`, `/reject`, `/unpublish`
  (server.js 112-138, 531-591)
* `POST /api/auth/register`, `POST /api/admin/register`, `POST /promote-to-super`,
  `PUT /api/admin/users/:id`, `DELETE /api/admin/admins/:id`
  (server.js 294-347, 199-244, 141-196, 645-669, 718-753)

of the middleware of `middleware/auth.js` with the PATCH routes of
`routes/videoRoutes.js`, and of `uploadVideo`, `getPremiumVideos`,
`getTrendingVideos`, `approveVideo` and `rejectVideo` of
`controllers/videoController.js`, over an explicit relational store (and, for
the upload, the paths of the files on the disk).  A handler is a pure function from the store
and the request body to the new store and the response.  Request bodies hold
JavaScript values, so the JavaScript coercions the handlers rely on
(truthiness, `parseInt`, the `<` / `>` comparison of a value with a number) are
embedded as well.

Numbers are exact rationals: IEEE-754 rounding is not modelled.  Prisma `Int`
columns are unbounded integers.  The verification of a token is the work of
the token library: a header comes with the outcome of `jwt.verify`.
-/

namespace Soldout

/-! ## JavaScript values and coercions -/

/-- A value of a parsed request body.  `undefined` is an absent field.  `obj s`
is an array or a plain object whose `ToString` is `s` (`[5]` is `obj "5"`,
`{}` is `obj "[object Object]"`). -/
inductive JsVal where
  | undefined
  | null
  | bool (b : Bool)
  | num (q : ℚ)
  | str (s : String)
  | obj (toStr : String)
  deriving DecidableEq

/-- A JavaScript number: `NaN`, a finite value, or an infinity. -/
inductive JsNum where
  | nan
  | fin (q : ℚ)
  | posInf
  | negInf
  deriving DecidableEq

/-- The JavaScript `a < b` on numbers: false as soon as one side is `NaN`. -/
def JsNum.lt : JsNum → JsNum → Bool
  | .fin a, .fin b => decide (a < b)
  | .fin _, .posInf => true
  | .negInf, .fin _ => true
  | .negInf, .posInf => true
  | _, _ => false

/-- Unary minus on JavaScript numbers. -/
def JsNum.neg : JsNum → JsNum
  | .nan => .nan
  | .fin q => .fin (-q)
  | .posInf => .negInf
  | .negInf => .posInf

/-- ECMAScript `ToBoolean` (what `!x`, `x || y` and `if (x)` look at). -/
def JsVal.truthy : JsVal → Bool
  | .undefined => false
  | .null => false
  | .bool b => b
  | .num q => decide (q ≠ 0)
  | .str s => decide (s.toList ≠ [])
  | .obj _ => true

/-- ECMAScript `StrWhiteSpaceChar`: white space and line terminators. -/
def isStrWhiteSpaceChar (c : Char) : Bool :=
  let n := c.toNat
  n == 0x09 || n == 0x0A || n == 0x0B || n == 0x0C || n == 0x0D || n == 0x20 ||
  n == 0xA0 || n == 0x1680 || (0x2000 ≤ n && n ≤ 0x200A) || n == 0x2028 ||
  n == 0x2029 || n == 0x202F || n == 0x205F || n == 0x3000 || n == 0xFEFF

/-- The value of a character as a digit (`0-9`, `a-z`, `A-Z`), if it is one. -/
def digitOf (c : Char) : Option Nat :=
  let n := c.toNat
  if 48 ≤ n ∧ n ≤ 57 then some (n - 48)
  else if 97 ≤ n ∧ n ≤ 122 then some (n - 87)
  else if 65 ≤ n ∧ n ≤ 90 then some (n - 55)
  else none

/-- Is `c` a digit of the given radix? -/
def isRadixDigit (radix : Nat) (c : Char) : Bool :=
  match digitOf c with
  | some d => decide (d < radix)
  | none => false

/-- The number a string of radix digits denotes. -/
def digitsValue (radix : Nat) (cs : List Char) : Nat :=
  cs.foldl (fun acc c => acc * radix + (digitOf c).getD 0) 0

/-- `parseInt(string)` with no radix argument (ECMAScript 19.2.5): skip leading
white space, read a sign, read `0x`/`0X` as radix 16 and anything else as radix
10, take the longest run of digits; `none` is `NaN`. -/
def parseIntChars (cs : List Char) : Option Int :=
  let s := cs.dropWhile isStrWhiteSpaceChar
  let neg := decide (s.head? = some '-')
  let s := if s.head? = some '-' ∨ s.head? = some '+' then s.tail else s
  let hex := decide (s.take 2 = ['0', 'x'] ∨ s.take 2 = ['0', 'X'])
  let radix := if hex then 16 else 10
  let s := if hex then s.drop 2 else s
  let z := s.takeWhile (isRadixDigit radix)
  if z = [] then none
  else some (if neg then -(digitsValue radix z : Int) else (digitsValue radix z : Int))

/-- `parseInt(x)` for a number `x`, which goes through `ToString(x)`: the
truncation of `x` when `ToString` uses plain decimal notation
(`1e-6 ≤ |x| < 1e21`, or `x = 0`), and otherwise the signed leading digit of
the exponent notation (`parseInt(1e21)` is `1`). -/
def parseIntNum (q : ℚ) : Int :=
  let a := |q|
  let sgn : Int := if q < 0 then -1 else 1
  if a = 0 then 0
  else if a * 10 ^ 6 < 1 then
    sgn * ⌊a * 10 ^ Nat.clog 10 ⌈1 / a⌉.toNat⌋
  else if a < 10 ^ 21 then sgn * ⌊a⌋
  else sgn * ((⌊a⌋.toNat / 10 ^ Nat.log 10 ⌊a⌋.toNat : Nat) : Int)

/-- JavaScript `parseInt(x)`; `none` is `NaN`. -/
def parseInt : JsVal → Option Int
  | .undefined => none
  | .null => none
  | .bool _ => none
  | .num q => some (parseIntNum q)
  | .str s => parseIntChars s.toList
  | .obj s => parseIntChars s.toList

/-- Strip `StrWhiteSpaceChar`s from both ends. -/
def trimWs (cs : List Char) : List Char :=
  ((cs.dropWhile isStrWhiteSpaceChar).reverse.dropWhile isStrWhiteSpaceChar).reverse

/-- A decimal digit. -/
def isDecDigit (c : Char) : Bool := isRadixDigit 10 c

/-- The mathematical value `m × 10^e`. -/
def scale10 (m : Nat) (e : Int) : ℚ :=
  if 0 ≤ e then (m : ℚ) * 10 ^ e.toNat else (m : ℚ) / 10 ^ (-e).toNat

/-- An optional `ExponentPart` that must reach the end of the string: its value
(0 when absent), or `none` when what is there is not an exponent part. -/
def parseExponent (cs : List Char) : Option Int :=
  match cs with
  | [] => some 0
  | c :: t =>
    if c = 'e' ∨ c = 'E' then
      let neg := decide (t.head? = some '-')
      let d := if t.head? = some '-' ∨ t.head? = some '+' then t.tail else t
      if d ≠ [] ∧ d.all isDecDigit = true then
        some (if neg then -(digitsValue 10 d : Int) else (digitsValue 10 d : Int))
      else none
    else none

/-- `StrUnsignedDecimalLiteral`: `Infinity`, or digits with an optional
fraction and an optional exponent. -/
def strUnsignedDecimal (cs : List Char) : JsNum :=
  if cs = "Infinity".toList then .posInf
  else
    let ip := cs.takeWhile isDecDigit
    let r1 := cs.dropWhile isDecDigit
    if r1.head? = some '.' then
      let fp := r1.tail.takeWhile isDecDigit
      let r2 := r1.tail.dropWhile isDecDigit
      if ip = [] ∧ fp = [] then .nan
      else
        match parseExponent r2 with
        | some e => .fin (scale10 (digitsValue 10 (ip ++ fp)) (e - fp.length))
        | none => .nan
    else if ip = [] then .nan
    else
      match parseExponent r1 with
      | some e => .fin (scale10 (digitsValue 10 ip) e)
      | none => .nan

/-- `NonDecimalIntegerLiteral`: `0x`, `0o` or `0b` (either case) followed by
at least one digit of that radix and nothing else. -/
def nonDecimalInteger (cs : List Char) : Option Nat :=
  match cs with
  | z :: p :: d =>
    let radix :=
      if p = 'x' ∨ p = 'X' then 16
      else if p = 'o' ∨ p = 'O' then 8
      else if p = 'b' ∨ p = 'B' then 2
      else 0
    if z = '0' ∧ d ≠ [] ∧ radix ≠ 0 ∧ d.all (isRadixDigit radix) = true then
      some (digitsValue radix d)
    else none
  | _ => none

/-- `StringToNumber` (ECMAScript 7.1.4.1.1): the empty or all-blank string is 0,
a `StrNumericLiteral` between optional white space is its value, anything else
is `NaN`. -/
def stringToNumber (cs : List Char) : JsNum :=
  let t := trimWs cs
  if t = [] then .fin 0
  else
    match nonDecimalInteger t with
    | some n => .fin n
    | none =>
      if t.head? = some '+' then strUnsignedDecimal t.tail
      else if t.head? = some '-' then (strUnsignedDecimal t.tail).neg
      else strUnsignedDecimal t

/-- ECMAScript `ToNumber`, which `value < 1` and `value > 10` apply to `value`. -/
def toNumber : JsVal → JsNum
  | .undefined => .nan
  | .null => .fin 0
  | .bool b => .fin (if b then 1 else 0)
  | .num q => .fin q
  | .str s => stringToNumber s.toList
  | .obj s => stringToNumber s.toList

/-- The result of `x ? parseInt(x) : null`: `null`, `NaN`, or an integer. -/
inductive IdArg where
  | null
  | nan
  | id (n : Int)
  deriving DecidableEq

/-- The expression `x ? parseInt(x) : null`. -/
def idArg (x : JsVal) : IdArg :=
  if x.truthy then
    match parseInt x with
    | some n => .id n
    | none => .nan
  else .null

/-- Prisma validates a nullable `Int` argument: `NaN` is refused (`none`),
`null` and integers pass. -/
def IdArg.check : IdArg → Option (Option Int)
  | .null => some none
  | .nan => none
  | .id n => some (some n)

/-- `Math.round`: the nearest integer, ties towards `+∞`. -/
def mathRound (x : ℚ) : Int := ⌊x + 1 / 2⌋

/-! ## The relational store -/

/-- The `Role` enum of a user. -/
inductive Role where
  | USER
  | ADMIN
  | SUPER_ADMIN
  deriving DecidableEq

/-- A `User` row (the columns the handlers below read). -/
structure User where
  id : Int
  role : Role := .USER
  isAdmin : Bool := false
  isBanned : Bool := false
  email : String := ""
  deriving DecidableEq

/-- The moderation status of a video. -/
inductive VideoStatus where
  | PENDING
  | APPROVED
  | REJECTED
  deriving DecidableEq

/-- A `Video` row; `userId` is the owner, the times are in milliseconds.  The
descriptive columns (title, genre, file references) and the columns the
database maintains by itself are left out. -/
structure Video where
  id : Int
  userId : Int
  status : VideoStatus := .PENDING
  views : Int := 0
  approvedAt : Option Int := none
  rejectedAt : Option Int := none
  rejectionReason : Option String := none
  createdAt : Int := 0
  deriving DecidableEq

/-- A `Comment` row. -/
structure Comment where
  id : Int
  text : String
  userId : Int
  videoId : Int
  deriving DecidableEq

/-- A `Reply` row: `commentId` is the root comment, `parentReplyId` the reply
it answers (null for a direct answer to a comment). -/
structure Reply where
  id : Int
  text : String
  userId : Int
  commentId : Option Int
  videoId : Int
  parentReplyId : Option Int
  deriving DecidableEq

/-- The `LikeType` enum. -/
inductive LikeType where
  | LIKE
  | DISLIKE
  deriving DecidableEq

/-- A `Like` row: three nullable foreign keys, one per kind of target. -/
structure Like where
  id : Int
  type : LikeType
  userId : Int
  videoId : Option Int
  commentId : Option Int
  replyId : Option Int
  deriving DecidableEq

/-- A `Rating` row. -/
structure Rating where
  id : Int
  value : Int
  userId : Int
  videoId : Int
  createdAt : Int
  updatedAt : Int
  deriving DecidableEq

/-- A `Subscription` row: `userId` is the subscriber, `creatorId` the creator
and `videoId` the video the request named. -/
structure Subscription where
  id : Int
  userId : Int
  creatorId : Int
  videoId : Int
  deriving DecidableEq

/-- An `AuditLog` row: `userId` is the acting admin, `targetUserId` the user
the action was done to. -/
structure AuditLog where
  action : String
  userId : Int
  targetUserId : Int
  deriving DecidableEq

/-- The datastore: one list of rows per table, in insertion order, and the
next value of each autoincrement key. -/
structure Store where
  users : List User := []
  videos : List Video := []
  comments : List Comment := []
  replies : List Reply := []
  likes : List Like := []
  ratings : List Rating := []
  commentSeq : Int := 1
  replySeq : Int := 1
  likeSeq : Int := 1
  ratingSeq : Int := 1
  subscriptions : List Subscription := []
  subscriptionSeq : Int := 1
  userSeq : Int := 1
  videoSeq : Int := 1
  auditLogs : List AuditLog := []

/-- Errors a Prisma call throws: a rejected argument
(`PrismaClientValidationError`, which has no `code`) or a known request error
with its `code`. -/
inductive PrismaError where
  | validation
  | P2002
  | P2003
  | P2025
  deriving DecidableEq

/-- `prisma.user.findUnique({ where: { id } })`. -/
def Store.findUser (s : Store) (id : Int) : Option User :=
  s.users.find? (fun u => decide (u.id = id))

/-- `prisma.video.findUnique({ where: { id } })`. -/
def Store.findVideo (s : Store) (id : Int) : Option Video :=
  s.videos.find? (fun v => decide (v.id = id))

/-- `prisma.comment.findUnique({ where: { id } })`. -/
def Store.findComment (s : Store) (id : Int) : Option Comment :=
  s.comments.find? (fun c => decide (c.id = id))

/-- `prisma.reply.findUnique({ where: { id } })`. -/
def Store.findReply (s : Store) (id : Int) : Option Reply :=
  s.replies.find? (fun r => decide (r.id = id))

/-- Modelled from the spec: the Prisma schema is not among the sources.  A
nullable foreign key is satisfied when it is null or names a row of the table
(`find` is the table's `findUnique`); the spec makes every Like, Reply and
Rating an edge between existing rows, and the handlers catch `P2003`. -/
def fkOk {α : Type} (find : Int → Option α) : Option Int → Bool
  | none => true
  | some id => (find id).isSome

/-! ## POST /api/interactions/like -/

/-- The body of a like request. -/
structure LikeBody where
  userId : JsVal := .undefined
  videoId : JsVal := .undefined
  commentId : JsVal := .undefined
  replyId : JsVal := .undefined
  isLiked : JsVal := .undefined
  type : JsVal := .undefined

/-- The answers of the like handler. -/
inductive LikeResp where
  /-- 400 `{ error: 'Missing required fields' }` -/
  | missingFields
  /-- 404 `{ error: 'TARGET_NOT_FOUND' }` -/
  | targetNotFound
  /-- 500 `{ error: 'LIKE_ERROR' }` -/
  | likeError
  /-- 200 `{ action, liked, likeCount, type }` -/
  | ok (action : String) (liked : Bool) (likeCount : Nat) (type : String)
  deriving DecidableEq

/-- The HTTP status of an answer. -/
def LikeResp.status : LikeResp → Nat
  | .missingFields => 400
  | .targetNotFound => 404
  | .likeError => 500
  | .ok _ _ _ _ => 200

/-- The `catch` block of the like handler (server.js 1309-1323). -/
def likeCatch : PrismaError → LikeResp
  | .P2003 => .targetNotFound
  | _ => .likeError

/-- Target resolution (server.js 1218-1240): the first of `commentId`,
`replyId`, `videoId` that is truthy is looked up; the result is
`(targetExists, targetType)`. -/
def resolveTarget (s : Store) (b : LikeBody) : Except PrismaError (Bool × String) :=
  if b.commentId.truthy then
    match parseInt b.commentId with
    | none => .error .validation
    | some id => .ok ((s.findComment id).isSome, "COMMENT")
  else if b.replyId.truthy then
    match parseInt b.replyId with
    | none => .error .validation
    | some id => .ok ((s.findReply id).isSome, "REPLY")
  else if b.videoId.truthy then
    match parseInt b.videoId with
    | none => .error .validation
    | some id => .ok ((s.findVideo id).isSome, "VIDEO")
  else .ok (false, "")

/-- The `where` filter `{ videoId, commentId, replyId }` of `prisma.like.count`;
a null in the filter matches a null column. -/
def likeOnTarget (v c r : Option Int) (l : Like) : Bool :=
  decide (l.videoId = v) && decide (l.commentId = c) && decide (l.replyId = r)

/-- The `where` filter `{ userId, videoId, commentId, replyId }` of
`prisma.like.findFirst`. -/
def likeOfUserOnTarget (u : Int) (v c r : Option Int) (l : Like) : Bool :=
  decide (l.userId = u) && likeOnTarget v c r l

/-- `prisma.like.count({ where: { videoId, commentId, replyId } })`. -/
def Store.countLikes (s : Store) (v c r : Option Int) : Nat :=
  (s.likes.filter (likeOnTarget v c r)).length

/-- `prisma.like.delete({ where: { id } })`. -/
def Store.deleteLike (s : Store) (id : Int) : Store :=
  { s with likes := s.likes.filter (fun l => decide (l.id ≠ id)) }

/-- The `LikeType` a value denotes, if any: what Prisma accepts for `type`. -/
def likeTypeOf : JsVal → Option LikeType
  | .str s => if s = "LIKE" then some .LIKE else if s = "DISLIKE" then some .DISLIKE else none
  | _ => none

/-- `prisma.like.create({ data: { type, userId, videoId, commentId, replyId } })`:
the arguments are validated, then the foreign keys are checked, then the row
gets the next id. -/
def Store.createLike (s : Store) (type : JsVal) (u : Int) (v c r : Option Int) :
    Except PrismaError Store :=
  match likeTypeOf type with
  | none => .error .validation
  | some t =>
    if (s.findUser u).isSome && fkOk s.findVideo v && fkOk s.findComment c
        && fkOk s.findReply r then
      .ok { s with
        likes := s.likes ++ [{ id := s.likeSeq, type := t, userId := u, videoId := v,
                               commentId := c, replyId := r }]
        likeSeq := s.likeSeq + 1 }
    else .error .P2003

/-- The arguments `parseInt(userId)`, `videoId ? parseInt(videoId) : null`, ...
of the like queries, as Prisma validates them (`none`: one of them is `NaN`). -/
def likeArgs (b : LikeBody) : Option (Int × Option Int × Option Int × Option Int) :=
  match parseInt b.userId with
  | none => none
  | some u =>
    match (idArg b.videoId).check with
    | none => none
    | some v =>
      match (idArg b.commentId).check with
      | none => none
      | some c =>
        match (idArg b.replyId).check with
        | none => none
        | some r => some (u, v, c, r)

/-- The like handler (server.js 1210-1324). -/
def likeHandler (s : Store) (b : LikeBody) : Store × LikeResp :=
  if !b.userId.truthy || (!b.videoId.truthy && !b.commentId.truthy && !b.replyId.truthy) then
    (s, .missingFields)
  else
    match resolveTarget s b with
    | .error e => (s, likeCatch e)
    | .ok (targetExists, targetType) =>
      if !targetExists then (s, .targetNotFound)
      else
        match likeArgs b with
        | none => (s, likeCatch .validation)
        | some (u, v, c, r) =>
          match s.likes.find? (likeOfUserOnTarget u v c r) with
          | some existingLike =>
            let s1 := s.deleteLike existingLike.id
            (s1, .ok "removed" false (s1.countLikes v c r) targetType)
          | none =>
            match s.createLike (if b.type.truthy then b.type else .str "LIKE") u v c r with
            | .error e => (s, likeCatch e)
            | .ok s1 => (s1, .ok "created" true (s1.countLikes v c r) targetType)

/-! ## POST /api/interactions/comment -/

/-- The body of a comment request. -/
structure CommentBody where
  text : JsVal := .undefined
  userId : JsVal := .undefined
  videoId : JsVal := .undefined

/-- The answers of the comment handler. -/
inductive CommentResp where
  /-- 400 `{ error: 'Missing required fields' }` -/
  | missingFields
  /-- 500 `{ error: 'Failed to create comment' }` -/
  | failed
  /-- 200 with the created comment -/
  | ok (comment : Comment)
  deriving DecidableEq

/-- The HTTP status of an answer. -/
def CommentResp.status : CommentResp → Nat
  | .missingFields => 400
  | .failed => 500
  | .ok _ => 200

/-- What Prisma accepts for a `String` column. -/
def stringOf : JsVal → Option String
  | .str s => some s
  | _ => none

/-- `prisma.comment.create({ data: { text, userId, videoId } })`. -/
def Store.createComment (s : Store) (text : JsVal) (u v : Option Int) :
    Except PrismaError (Store × Comment) :=
  match stringOf text, u, v with
  | some t, some u, some v =>
    if (s.findUser u).isSome && (s.findVideo v).isSome then
      let c : Comment := { id := s.commentSeq, text := t, userId := u, videoId := v }
      .ok ({ s with comments := s.comments ++ [c], commentSeq := s.commentSeq + 1 }, c)
    else .error .P2003
  | _, _, _ => .error .validation

/-- The comment handler (server.js 1326-1356). -/
def commentHandler (s : Store) (b : CommentBody) : Store × CommentResp :=
  if !b.text.truthy || !b.userId.truthy || !b.videoId.truthy then (s, .missingFields)
  else
    match s.createComment b.text (parseInt b.userId) (parseInt b.videoId) with
    | .error _ => (s, .failed)
    | .ok (s1, c) => (s1, .ok c)

/-! ## POST /api/interactions/reply -/

/-- The body of a reply request. -/
structure ReplyBody where
  text : JsVal := .undefined
  userId : JsVal := .undefined
  commentId : JsVal := .undefined
  videoId : JsVal := .undefined
  parentReplyId : JsVal := .undefined

/-- The answers of the reply handler. -/
inductive ReplyResp where
  /-- 400 `{ error: 'MISSING_REQUIRED_FIELDS' }` -/
  | missingFields
  /-- 404 `{ error: 'USER_NOT_FOUND' }` -/
  | userNotFound
  /-- 404 `{ error: 'VIDEO_NOT_FOUND' }` -/
  | videoNotFound
  /-- 404 `{ error: 'PARENT_REPLY_NOT_FOUND' }` -/
  | parentReplyNotFound
  /-- 400 `{ error: 'VIDEO_MISMATCH' }`; the message names the parent reply
  (`ofParent`) or the comment -/
  | videoMismatch (ofParent : Bool)
  /-- 404 `{ error: 'COMMENT_NOT_FOUND' }` -/
  | commentNotFound
  /-- 400 `{ error: 'FOREIGN_KEY_CONSTRAINT' }` -/
  | foreignKey
  /-- 500 `{ error: 'SERVER_ERROR' }` -/
  | serverError
  /-- 201 with the created reply -/
  | created (reply : Reply)
  deriving DecidableEq

/-- The HTTP status of an answer. -/
def ReplyResp.status : ReplyResp → Nat
  | .missingFields => 400
  | .userNotFound => 404
  | .videoNotFound => 404
  | .parentReplyNotFound => 404
  | .videoMismatch _ => 400
  | .commentNotFound => 404
  | .foreignKey => 400
  | .serverError => 500
  | .created _ => 201

/-- The `catch` block of the reply handler (server.js 1491-1506). -/
def replyCatch : PrismaError → ReplyResp
  | .P2003 => .foreignKey
  | _ => .serverError

/-- A nullable column read back as a JavaScript value. -/
def IdArg.ofColumn : Option Int → IdArg
  | none => .null
  | some n => .id n

/-- `prisma.reply.create({ data: { text, userId, commentId, videoId,
parentReplyId } })`; `commentId` and `parentReplyId` are nullable. -/
def Store.createReply (s : Store) (text : JsVal) (u : Int) (commentId : IdArg) (v : Int)
    (parentReplyId : IdArg) : Except PrismaError (Store × Reply) :=
  match stringOf text, commentId.check, parentReplyId.check with
  | some t, some c, some p =>
    if (s.findUser u).isSome && (s.findVideo v).isSome && fkOk s.findComment c
        && fkOk s.findReply p then
      let r : Reply := { id := s.replySeq, text := t, userId := u, commentId := c,
                         videoId := v, parentReplyId := p }
      .ok ({ s with replies := s.replies ++ [r], replySeq := s.replySeq + 1 }, r)
    else .error .P2003
  | _, _, _ => .error .validation

/-- Server.js 1403-1427: the root comment the reply is filed under.  With a
truthy `numericParentReplyId` (an integer other than 0; `null`, `NaN` and 0
are falsy) it is the parent reply's `commentId`, otherwise `numericCommentId`;
the `Except.error` side is the early answer. -/
def resolveCommentId (s : Store) (numericVideoId : Int) (numericCommentId : IdArg)
    (numericParentReplyId : IdArg) : Except ReplyResp IdArg :=
  match numericParentReplyId with
  | .id p =>
    if p ≠ 0 then
      match s.findReply p with
      | none => .error .parentReplyNotFound
      | some parentReply =>
        if parentReply.videoId ≠ numericVideoId then .error (.videoMismatch true)
        else .ok (IdArg.ofColumn parentReply.commentId)
    else .ok numericCommentId
  | _ => .ok numericCommentId

/-- Server.js 1429-1449: a truthy `resolvedCommentId` (an integer other than
0) must name a comment of the same video; `some` is the early answer. -/
def checkComment (s : Store) (numericVideoId : Int) (resolvedCommentId : IdArg) :
    Option ReplyResp :=
  match resolvedCommentId with
  | .id c =>
    if c ≠ 0 then
      match s.findComment c with
      | none => some .commentNotFound
      | some comment =>
        if comment.videoId ≠ numericVideoId then some (.videoMismatch false) else none
    else none
  | _ => none

/-- The reply handler (server.js 1359-1507). -/
def replyHandler (s : Store) (b : ReplyBody) : Store × ReplyResp :=
  if !b.text.truthy || !b.userId.truthy || !b.videoId.truthy
      || (!b.commentId.truthy && !b.parentReplyId.truthy) then
    (s, .missingFields)
  else
    match parseInt b.userId with
    | none => (s, replyCatch .validation)
    | some numericUserId =>
      match s.findUser numericUserId with
      | none => (s, .userNotFound)
      | some _ =>
        match parseInt b.videoId with
        | none => (s, replyCatch .validation)
        | some numericVideoId =>
          match s.findVideo numericVideoId with
          | none => (s, .videoNotFound)
          | some _ =>
            match resolveCommentId s numericVideoId (idArg b.commentId)
                (idArg b.parentReplyId) with
            | .error resp => (s, resp)
            | .ok resolvedCommentId =>
              match checkComment s numericVideoId resolvedCommentId with
              | some resp => (s, resp)
              | none =>
                match s.createReply b.text numericUserId resolvedCommentId numericVideoId
                    (idArg b.parentReplyId) with
                | .error e => (s, replyCatch e)
                | .ok (s1, reply) => (s1, .created reply)

/-! ## POST /api/interactions/rate -/

/-- The body of a rate request. -/
structure RateBody where
  userId : JsVal := .undefined
  videoId : JsVal := .undefined
  value : JsVal := .undefined

/-- The answers of the rate handler. -/
inductive RateResp where
  /-- 400 `{ success: false, error: 'Rating must be between 1 and 10' }` -/
  | invalidRating
  /-- 404 `{ success: false, error: 'Video not found' }` -/
  | videoNotFound
  /-- 500 `{ success: false, error: 'Failed to save rating' }` -/
  | failed
  /-- 200 `{ success: true, rating, average, count }` -/
  | ok (rating : Rating) (average : ℚ) (count : Nat)
  deriving DecidableEq

/-- The HTTP status of an answer. -/
def RateResp.status : RateResp → Nat
  | .invalidRating => 400
  | .videoNotFound => 404
  | .failed => 500
  | .ok _ _ _ => 200

/-- The compound key `userId_videoId` of a rating. -/
def ratingOf (u v : Int) (r : Rating) : Bool :=
  decide (r.userId = u) && decide (r.videoId = v)

/-- The `update` of the upsert on one row: a row of the key `(u, v)` gets the
value and the update time, every other row is left alone. -/
def setRating (now u v x : Int) (r0 : Rating) : Rating :=
  if ratingOf u v r0 then { r0 with value := x, updatedAt := now } else r0

/-- `prisma.rating.upsert({ where: { userId_videoId }, update: { value,
updatedAt }, create: { value, userId, videoId } })` at time `now`: the
arguments are validated; an existing row of the key is updated in place,
otherwise a row is created (its foreign keys checked). -/
def Store.upsertRating (s : Store) (now : Int) (u v : Option Int) (value : Option Int) :
    Except PrismaError (Store × Rating) :=
  match u, v, value with
  | some u, some v, some x =>
    match s.ratings.find? (ratingOf u v) with
    | some old =>
      .ok ({ s with ratings := s.ratings.map (setRating now u v x) },
           { old with value := x, updatedAt := now })
    | none =>
      if (s.findUser u).isSome && (s.findVideo v).isSome then
        let r : Rating := { id := s.ratingSeq, value := x, userId := u, videoId := v,
                            createdAt := now, updatedAt := now }
        .ok ({ s with ratings := s.ratings ++ [r], ratingSeq := s.ratingSeq + 1 }, r)
      else .error .P2003
  | _, _, _ => .error .validation

/-- `prisma.rating.findMany({ where: { videoId } })`. -/
def Store.ratingsOfVideo (s : Store) (v : Int) : List Rating :=
  s.ratings.filter (fun r => decide (r.videoId = v))

/-- Server.js 1636-1638: the mean of the values, rounded to one decimal. -/
def roundedAverage (ratings : List Rating) : ℚ :=
  let totalSum : Int := ratings.foldl (fun sum r => sum + r.value) 0
  let average : ℚ := (totalSum : ℚ) / (ratings.length : ℚ)
  (mathRound (average * 10) : ℚ) / 10

/-- The rate handler (server.js 1579-1654), run at time `now`. -/
def rateHandler (now : Int) (s : Store) (b : RateBody) : Store × RateResp :=
  if (toNumber b.value).lt (.fin 1) || (JsNum.fin 10).lt (toNumber b.value) then
    (s, .invalidRating)
  else
    match parseInt b.videoId with
    | none => (s, .failed)
    | some numericVideoId =>
      match s.findVideo numericVideoId with
      | none => (s, .videoNotFound)
      | some _ =>
        match s.upsertRating now (parseInt b.userId) (some numericVideoId)
            (parseInt b.value) with
        | .error _ => (s, .failed)
        | .ok (s1, rating) =>
          let ratings := s1.ratingsOfVideo numericVideoId
          (s1, .ok rating (roundedAverage ratings) ratings.length)

/-! ## POST /api/interactions/subscribe -/

/-- The body of a subscribe request. -/
structure SubscribeBody where
  userId : JsVal := .undefined
  videoId : JsVal := .undefined

/-- The answers of the subscribe handler. -/
inductive SubscribeResp where
  /-- 400 `{ error: 'Missing required fields' }` -/
  | missingFields
  /-- 404 `{ error: 'Video not found' }` -/
  | videoNotFound
  /-- 409 `{ error: 'Already subscribed' }` -/
  | alreadySubscribed
  /-- 500 `{ error: 'Failed to toggle subscription' }` -/
  | failed
  /-- 200 `{ action, subscribed, uploaderId }` -/
  | ok (action : String) (subscribed : Bool) (uploaderId : Int)
  deriving DecidableEq

/-- The HTTP status of an answer. -/
def SubscribeResp.status : SubscribeResp → Nat
  | .missingFields => 400
  | .videoNotFound => 404
  | .alreadySubscribed => 409
  | .failed => 500
  | .ok _ _ _ => 200

/-- The `catch` block of the subscribe handler (server.js 1564-1576). -/
def subscribeCatch : PrismaError → SubscribeResp
  | .P2002 => .alreadySubscribed
  | _ => .failed

/-- The `where` filter `{ userId, creatorId }` of
`prisma.subscription.findFirst`. -/
def subscriptionOf (u c : Int) (r : Subscription) : Bool :=
  decide (r.userId = u) && decide (r.creatorId = c)

/-- `prisma.subscription.delete({ where: { id } })`. -/
def Store.deleteSubscription (s : Store) (id : Int) : Store :=
  { s with subscriptions := s.subscriptions.filter (fun r => decide (r.id ≠ id)) }

/-- `prisma.subscription.create({ data: { userId, creatorId, videoId } })`.
Modelled from the spec: the Prisma schema is not among the sources.  The
subscription is an edge from a user to a creator user through a video, so the
three foreign keys are checked; the spec has no uniqueness constraint behind
the toggle, so none is checked. -/
def Store.createSubscription (s : Store) (u c : Int) (v : Option Int) :
    Except PrismaError Store :=
  match v with
  | none => .error .validation
  | some v =>
    if (s.findUser u).isSome && (s.findUser c).isSome && (s.findVideo v).isSome then
      .ok { s with
        subscriptions := s.subscriptions ++
          [{ id := s.subscriptionSeq, userId := u, creatorId := c, videoId := v }]
        subscriptionSeq := s.subscriptionSeq + 1 }
    else .error .P2003

/-- The subscribe handler (server.js 1510-1577). -/
def subscribeHandler (s : Store) (b : SubscribeBody) : Store × SubscribeResp :=
  if !b.userId.truthy || !b.videoId.truthy then (s, .missingFields)
  else
    match parseInt b.videoId with
    | none => (s, subscribeCatch .validation)
    | some vid =>
      match s.findVideo vid with
      | none => (s, .videoNotFound)
      | some video =>
        let creatorId := video.userId
        match parseInt b.userId with
        | none => (s, subscribeCatch .validation)
        | some numericUserId =>
          match s.subscriptions.find? (subscriptionOf numericUserId creatorId) with
          | some existingSubscription =>
            (s.deleteSubscription existingSubscription.id, .ok "unsubscribed" false creatorId)
          | none =>
            match s.createSubscription numericUserId creatorId (parseInt b.videoId) with
            | .error e => (s, subscribeCatch e)
            | .ok s1 => (s1, .ok "subscribed" true creatorId)

/-! ## GET /api/videos/:id -/

/-- `prisma.video.update({ where: { id }, data })`: the argument is validated,
a missing row is `P2025`, otherwise the row of the id is rewritten by `data`. -/
def Store.updateVideo (s : Store) (id : Option Int) (data : Video → Video) :
    Except PrismaError (Store × Video) :=
  match id with
  | none => .error .validation
  | some id =>
    match s.findVideo id with
    | none => .error .P2025
    | some v =>
      .ok ({ s with videos := s.videos.map (fun x => if x.id = id then data x else x) },
           data v)

/-- The fields of the video detail answer that are computed from the other
tables; `video` is the row as it was read, before the view is counted, and
`averageRating` is the number that `toFixed(1)` then prints.  The comment tree
of the answer is left out. -/
structure VideoDetail where
  video : Video
  averageRating : ℚ
  likeCount : Nat
  dislikeCount : Nat
  isSubscribed : Bool
  userRating : Option Int
  subscriberCount : Nat
  deriving DecidableEq

/-- The answers of the video detail handler. -/
inductive DetailResp where
  /-- 400 `{ error: 'Invalid video ID' }` -/
  | invalidId
  /-- 404 `{ error: 'Video not found' }` -/
  | notFound
  /-- 500 `{ error: 'Server error' }` -/
  | serverError
  /-- 200 with the video and its aggregates -/
  | ok (detail : VideoDetail)
  deriving DecidableEq

/-- The HTTP status of an answer. -/
def DetailResp.status : DetailResp → Nat
  | .invalidId => 400
  | .notFound => 404
  | .serverError => 500
  | .ok _ => 200

/-- `prisma.like.count({ where: { videoId, type } })`. -/
def Store.countVideoLikes (s : Store) (v : Int) (t : LikeType) : Nat :=
  (s.likes.filter (fun l => decide (l.videoId = some v) && decide (l.type = t))).length

/-- `prisma.subscription.count({ where: { video: { userId } } })`: the
subscriptions whose video is owned by `owner` (server.js 1156-1162). -/
def Store.countSubscriptionsByVideoOwner (s : Store) (owner : Int) : Nat :=
  (s.subscriptions.filter (fun r =>
    decide ((s.findVideo r.videoId).map (fun v => v.userId) = some owner))).length

/-- `prisma.subscription.count({ where: { creatorId } })`: the `totalSubscribers`
of the profile view (server.js 843-847). -/
def Store.countSubscriptionsByCreator (s : Store) (creator : Int) : Nat :=
  (s.subscriptions.filter (fun r => decide (r.creatorId = creator))).length

/-- `prisma.subscription.count({ where: { userId, videoId } })` (server.js
1163-1168). -/
def Store.countSubscriptionsOnVideo (s : Store) (u v : Int) : Nat :=
  (s.subscriptions.filter (fun r => decide (r.userId = u) && decide (r.videoId = v))).length

/-- Server.js 1170-1171: the mean of the values, 0 without ratings. -/
def averageOf (ratings : List Rating) : ℚ :=
  if 0 < ratings.length then
    ((ratings.foldl (fun sum r => sum + r.value) 0 : Int) : ℚ) / (ratings.length : ℚ)
  else 0

/-- The `data` of the view count update (server.js 1183-1186):
`{ views: { increment: 1 } }`. -/
def countView (v : Video) : Video :=
  { v with views := v.views + 1 }

/-- The video detail handler (server.js 996-1206) for the path parameter `id`
and the query parameter `userId`. -/
def videoDetail (s : Store) (id : String) (userId : JsVal) : Store × DetailResp :=
  if id.toList = [] ∨ stringToNumber id.toList = .nan then (s, .invalidId)
  else
    match parseIntChars id.toList, (idArg userId).check with
    | some videoId, some u =>
      match s.findVideo videoId with
      | none => (s, .notFound)
      | some video =>
        let ratings := s.ratingsOfVideo videoId
        let signedIn : Option Int := u.filter (fun n => decide (n ≠ 0))
        let detail : VideoDetail :=
          { video := video
            averageRating := averageOf ratings
            likeCount := s.countVideoLikes videoId .LIKE
            dislikeCount := s.countVideoLikes videoId .DISLIKE
            isSubscribed :=
              match signedIn with
              | some n => decide (0 < s.countSubscriptionsOnVideo n videoId)
              | none => false
            userRating :=
              match signedIn with
              | some n => (s.ratings.find? (ratingOf n videoId)).map (fun r => r.value)
              | none => none
            subscriberCount := s.countSubscriptionsByVideoOwner video.userId }
        match s.updateVideo (some videoId) countView with
        | .error _ => (s, .serverError)
        | .ok (s1, _) => (s1, .ok detail)
    | _, _ => (s, .serverError)

/-! ## The admin routes of server.js -/

/-- The payload of a verified token.  The sign-in paths put different fields
in it (`{ id, email, role, isAdmin }`, `{ id }`, `{ userId, role }`), so every
field may be absent. -/
structure Claims where
  id : Option Int := none
  userId : Option Int := none
  role : Option Role := none
  isAdmin : Option Bool := none
  deriving DecidableEq

/-- The `Authorization` header as the middleware sees it: no token, a token
that `jwt.verify` rejects (malformed, wrong signature, expired), or a token it
accepts, with its payload. -/
inductive AuthHeader where
  | absent
  | invalid
  | valid (decoded : Claims)
  deriving DecidableEq

/-- The answers of the admin video routes. -/
inductive AdminResp where
  /-- 401 `{ error: 'Authorization required' }` -/
  | authRequired
  /-- 401 `{ error: 'Invalid admin token' }` -/
  | invalidToken
  /-- 403 `{ error: 'Admin access required' }` -/
  | adminRequired
  /-- 500 `{ error: 'Failed to approve video' }` (or reject, unpublish) -/
  | failed
  /-- 200 with the updated video -/
  | ok (video : Video)
  deriving DecidableEq

/-- The HTTP status of an answer. -/
def AdminResp.status : AdminResp → Nat
  | .authRequired => 401
  | .invalidToken => 401
  | .adminRequired => 403
  | .failed => 500
  | .ok _ => 200

/-- The `adminAuth` middleware of server.js (112-138): `.ok decoded` is
`req.admin = decoded; next()`, `.error` is the answer it sends itself.  A
payload without `id` makes `findUnique` throw, which the `catch` answers. -/
def adminAuth (s : Store) (auth : AuthHeader) : Except AdminResp Claims :=
  match auth with
  | .absent => .error .authRequired
  | .invalid => .error .invalidToken
  | .valid decoded =>
    match decoded.id with
    | none => .error .invalidToken
    | some id =>
      match s.findUser id with
      | none => .error .adminRequired
      | some admin => if !admin.isAdmin then .error .adminRequired else .ok decoded

/-- The `data` of the approve update (server.js 538-541). -/
def approveData (now : Int) (v : Video) : Video :=
  { v with status := .APPROVED, approvedAt := some now }

/-- What Prisma accepts for a nullable `String` column in the `data` of an
update: `undefined` (the column is left alone), `null` or a string. -/
def nullableStringOk : JsVal → Bool
  | .undefined => true
  | .null => true
  | .str _ => true
  | _ => false

/-- The `data` of the reject update (server.js 559-563): an `undefined`
reason leaves `rejectionReason` alone, `null` clears it, a string is stored. -/
def rejectData (now : Int) (reason : JsVal) (v : Video) : Video :=
  { v with
    status := .REJECTED
    rejectedAt := some now
    rejectionReason :=
      match reason with
      | .null => none
      | .str r => some r
      | _ => v.rejectionReason }

/-- The `data` of the unpublish update (server.js 580-583). -/
def unpublishData (v : Video) : Video :=
  { v with status := .PENDING, approvedAt := none }

/-- `prisma.video.update` with the reject data: the reason is validated with
the other arguments, before the row is looked up. -/
def Store.rejectVideoRow (s : Store) (now : Int) (id : Option Int) (reason : JsVal) :
    Except PrismaError (Store × Video) :=
  if nullableStringOk reason then s.updateVideo id (rejectData now reason)
  else .error .validation

/-- POST /api/admin/videos/:id/approve (server.js 531-549) at time `now`. -/
def approveRoute (now : Int) (s : Store) (auth : AuthHeader) (id : String) :
    Store × AdminResp :=
  match adminAuth s auth with
  | .error resp => (s, resp)
  | .ok _ =>
    match s.updateVideo (parseIntChars id.toList) (approveData now) with
    | .error _ => (s, .failed)
    | .ok (s1, video) => (s1, .ok video)

/-- POST /api/admin/videos/:id/reject (server.js 551-571) at time `now`. -/
def rejectRoute (now : Int) (s : Store) (auth : AuthHeader) (id : String) (reason : JsVal) :
    Store × AdminResp :=
  match adminAuth s auth with
  | .error resp => (s, resp)
  | .ok _ =>
    match s.rejectVideoRow now (parseIntChars id.toList) reason with
    | .error _ => (s, .failed)
    | .ok (s1, video) => (s1, .ok video)

/-- POST /api/admin/videos/:id/unpublish (server.js 573-591). -/
def unpublishRoute (s : Store) (auth : AuthHeader) (id : String) : Store × AdminResp :=
  match adminAuth s auth with
  | .error resp => (s, resp)
  | .ok _ =>
    match s.updateVideo (parseIntChars id.toList) unpublishData with
    | .error _ => (s, .failed)
    | .ok (s1, video) => (s1, .ok video)

/-! ## The video controller (controllers/videoController.js) -/

/-- The answers of `approveVideo` and `rejectVideo`. -/
inductive ControllerResp where
  /-- 500 `{ success: false, message: 'Failed to approve video' }` (or reject) -/
  | failed
  /-- 200 `{ success: true, message, video }` -/
  | ok (video : Video)
  deriving DecidableEq

/-- The HTTP status of an answer. -/
def ControllerResp.status : ControllerResp → Nat
  | .failed => 500
  | .ok _ => 200

/-- `approveVideo` (videoController.js 201-226) at time `now`, for the path
parameter `videoId`; the route runs it after its middleware. -/
def approveVideo (now : Int) (s : Store) (videoId : String) : Store × ControllerResp :=
  match s.updateVideo (parseIntChars videoId.toList) (approveData now) with
  | .error _ => (s, .failed)
  | .ok (s1, video) => (s1, .ok video)

/-- `rejectVideo` (videoController.js 229-257) at time `now`. -/
def rejectVideo (now : Int) (s : Store) (videoId : String) (reason : JsVal) :
    Store × ControllerResp :=
  match s.rejectVideoRow now (parseIntChars videoId.toList) reason with
  | .error _ => (s, .failed)
  | .ok (s1, video) => (s1, .ok video)

/-! ## The middleware of middleware/auth.js -/

/-- `String.prototype.startsWith`, on the characters of the two strings. -/
def startsWithChars : List Char → List Char → Bool
  | _, [] => true
  | [], _ :: _ => false
  | c :: cs, p :: ps => c == p && startsWithChars cs ps

/-- `String.prototype.includes`, on the characters of the two strings. -/
def includesChars : List Char → List Char → Bool
  | [], p => p.isEmpty
  | c :: cs, p => startsWithChars (c :: cs) p || includesChars cs p

/-- The `req.user` the middleware attaches.  The upload branch attaches the
short record, without `canApprove` and `canDelete`. -/
structure ReqUser where
  id : Int
  email : String
  role : Role
  isAdmin : Bool
  canUpload : Bool := true
  canApprove : Option Bool := none
  canDelete : Option Bool := none
  deriving DecidableEq

/-- The answers the middleware sends itself. -/
inductive AuthResp where
  /-- 401 `{ message: 'Authentication required' }` -/
  | authRequired
  /-- 401 `{ message: 'Invalid token - user not found' }` -/
  | userNotFound
  /-- 403 `{ message: 'Account suspended' }` -/
  | suspended
  /-- 403 `{ message: 'Admin privileges required to view pending videos' }` -/
  | pendingDenied
  /-- 403 `{ message: 'Admin privileges required to modify videos' }` -/
  | modifyDenied
  /-- 403 `{ message: 'Admin privileges required' }` -/
  | adminDenied
  /-- 401 of the `catch`: token expired, invalid token, authentication failed -/
  | tokenError
  deriving DecidableEq

/-- The HTTP status of an answer. -/
def AuthResp.status : AuthResp → Nat
  | .authRequired => 401
  | .userNotFound => 401
  | .suspended => 403
  | .pendingDenied => 403
  | .modifyDenied => 403
  | .adminDenied => 403
  | .tokenError => 401

/-- The value of `decoded.userId || decoded.id`: a `userId` of 0 is falsy. -/
def Claims.subject (c : Claims) : Option Int :=
  match c.userId with
  | some u => if u = 0 then c.id else some u
  | none => c.id

/-- The test `!user.isAdmin && user.role !== 'SUPER_ADMIN'` (auth.js 61, 72,
84). -/
def User.lacksAdmin (u : User) : Bool :=
  !u.isAdmin && decide (u.role ≠ .SUPER_ADMIN)

/-- The record of step 7 (auth.js 94-102). -/
def User.fullReqUser (u : User) : ReqUser :=
  { id := u.id
    email := u.email
    role := u.role
    isAdmin := u.isAdmin
    canUpload := true
    canApprove := some (u.isAdmin || decide (u.role = .SUPER_ADMIN))
    canDelete := some (u.isAdmin || decide (u.role = .SUPER_ADMIN)) }

/-- Steps 5 to 7 of the middleware (auth.js 45-104), for the live user row, the
request method and `req.path`. -/
def permissionSteps (user : User) (method : String) (path : List Char) :
    Except AuthResp ReqUser :=
  if includesChars path "/videos".toList ∧ method = "POST" then
    .ok { id := user.id, email := user.email, role := user.role, isAdmin := user.isAdmin,
          canUpload := true }
  else if includesChars path "/videos".toList ∧ includesChars path "/pending".toList ∧
      method = "GET" ∧ user.lacksAdmin then
    .error .pendingDenied
  else if includesChars path "/videos".toList ∧ method ∈ ["PUT", "PATCH", "DELETE"] ∧
      user.lacksAdmin then
    .error .modifyDenied
  else if startsWithChars path "/admin".toList ∧ user.lacksAdmin then
    .error .adminDenied
  else .ok user.fullReqUser

/-- The middleware of middleware/auth.js (5-129), for the request method and
`req.path`: `.ok user` is `req.user = user; next()`, `.error` is the answer it
sends itself.  A payload with neither `userId` nor `id` makes `findUnique`
throw, which the `catch` answers. -/
def authMiddleware (s : Store) (auth : AuthHeader) (method path : String) :
    Except AuthResp ReqUser :=
  match auth with
  | .absent => .error .authRequired
  | .invalid => .error .tokenError
  | .valid decoded =>
    match decoded.subject with
    | none => .error .tokenError
    | some id =>
      match s.findUser id with
      | none => .error .userNotFound
      | some user =>
        if user.isBanned then .error .suspended
        else permissionSteps user method path.toList

/-! ## The routes of routes/videoRoutes.js -/

/-- The answers of the moderation routes of the router: the answer of the
middleware, or the answer of the controller. -/
inductive RouterResp where
  | denied (r : AuthResp)
  | handled (r : ControllerResp)
  deriving DecidableEq

/-- The HTTP status of an answer. -/
def RouterResp.status : RouterResp → Nat
  | .denied r => r.status
  | .handled r => r.status

/-- PATCH /api/videos/:videoId/approve (videoRoutes.js 26) at time `now`:
the middleware, then `approveVideo`.  The router is mounted at `/api/videos`
(server.js 352, app.js 35), so the `req.path` the middleware reads is the rest
of the URL, `/<videoId>/approve`. -/
def patchApprove (now : Int) (s : Store) (auth : AuthHeader) (videoId : String) :
    Store × RouterResp :=
  match authMiddleware s auth "PATCH" ("/" ++ videoId ++ "/approve") with
  | .error r => (s, .denied r)
  | .ok _ => ((approveVideo now s videoId).1, .handled (approveVideo now s videoId).2)

/-- PATCH /api/videos/:videoId/reject (videoRoutes.js 27) at time `now`. -/
def patchReject (now : Int) (s : Store) (auth : AuthHeader) (videoId : String)
    (reason : JsVal) : Store × RouterResp :=
  match authMiddleware s auth "PATCH" ("/" ++ videoId ++ "/reject") with
  | .error r => (s, .denied r)
  | .ok _ =>
    ((rejectVideo now s videoId reason).1, .handled (rejectVideo now s videoId reason).2)

/-- The instant `thirtyDaysAgo` of the listings (videoController.js 90-91,
126-127), in milliseconds: `setDate(getDate() - 30)` on the current date.  The
hour that a daylight-saving change in between adds or takes is not modelled. -/
def thirtyDaysAgo (now : Int) : Int := now - 30 * 24 * 60 * 60 * 1000

/-- GET /api/videos/premium: the rows `getPremiumVideos` (videoController.js
88-120) reads, `where: { createdAt: { gte: thirtyDaysAgo }, status: 'APPROVED' }`. -/
def getPremiumVideos (now : Int) (s : Store) : List Video :=
  s.videos.filter (fun v => decide (thirtyDaysAgo now ≤ v.createdAt) &&
    decide (v.status = .APPROVED))

/-- GET /api/videos/trending: the rows `getTrendingVideos` (videoController.js
123-155) reads, `where: { createdAt: { lt: thirtyDaysAgo }, status: 'APPROVED' }`. -/
def getTrendingVideos (now : Int) (s : Store) : List Video :=
  s.videos.filter (fun v => decide (v.createdAt < thirtyDaysAgo now) &&
    decide (v.status = .APPROVED))

/-! ## The upload controller -/

/-- A file of `req.files`, as multer describes it. -/
structure UploadedFile where
  filename : String
  path : String
  deriving DecidableEq

/-- An upload request when `uploadVideo` starts: multer has written the files
of the two fields to the disk (an absent field is `[]`), `user` is the
`req.user` of the middleware, and `releaseYear` is the value of
`new Date(releaseDate).getFullYear()`, `none` for `NaN`. -/
structure UploadRequest where
  user : ReqUser
  thumbnail : List UploadedFile := []
  video : List UploadedFile := []
  title : JsVal := .undefined
  description : JsVal := .undefined
  genre : JsVal := .undefined
  releaseYear : Option Int := none

/-- The answers of `uploadVideo`. -/
inductive UploadResp where
  /-- 400 `{ message: 'Both thumbnail and video files are required' }` -/
  | filesRequired
  /-- 400 `{ message: 'Invalid release date format' }` -/
  | invalidDate
  /-- 500 `{ message: 'Video upload failed' }` -/
  | failed
  /-- 201 with the created video -/
  | created (video : Video)
  deriving DecidableEq

/-- The HTTP status of an answer. -/
def UploadResp.status : UploadResp → Nat
  | .filesRequired => 400
  | .invalidDate => 400
  | .failed => 500
  | .created _ => 201

/-- The loop `files.forEach(f => { if (fs.existsSync(f.path)) fs.unlinkSync(f.path) })`
on the paths of the disk. -/
def unlinkAll (disk : List String) (files : List UploadedFile) : List String :=
  files.foldl (fun d f => if f.path ∈ d then d.filter (fun p => decide (p ≠ f.path)) else d)
    disk

/-- The `prisma.video.create` of the upload (videoController.js 35-50) at time
`now`.  Modelled from the spec: the Prisma schema is not among the sources; the
title is taken to be a required string, description and genre nullable
strings, `createdAt` to default to the current instant, and the creation to
fail when the connected user does not exist. -/
def Store.createVideo (s : Store) (now : Int) (r : UploadRequest) :
    Except PrismaError (Store × Video) :=
  match stringOf r.title with
  | none => .error .validation
  | some _ =>
    if nullableStringOk r.description && nullableStringOk r.genre then
      match s.findUser r.user.id with
      | none => .error .P2025
      | some _ =>
        .ok ({ s with
                videos := s.videos ++ [{ id := s.videoSeq, userId := r.user.id,
                                         status := .PENDING, createdAt := now }]
                videoSeq := s.videoSeq + 1 },
             { id := s.videoSeq, userId := r.user.id, status := .PENDING, createdAt := now })
    else .error .validation

/-- `uploadVideo` (videoController.js 6-84) at time `now`, on the store and
the paths of the files on the disk. -/
def uploadVideo (now : Int) (s : Store) (disk : List String) (r : UploadRequest) :
    Store × List String × UploadResp :=
  if r.thumbnail = [] ∨ r.video = [] then (s, disk, .filesRequired)
  else
    match r.releaseYear with
    | none => (s, disk, .invalidDate)
    | some _ =>
      match s.createVideo now r with
      | .ok (s1, video) => (s1, disk, .created video)
      | .error _ => (s, unlinkAll (unlinkAll disk r.thumbnail) r.video, .failed)

/-! ## The user administration of server.js -/

/-- The answers of the registration and user administration routes. -/
inductive UserResp where
  /-- the 401 or 403 of `adminAuth` -/
  | denied (r : AdminResp)
  /-- 403 of the handler: only super admins may do this, or the target is a
  super admin -/
  | forbidden
  /-- 400: a field is missing, or the email is in use -/
  | badRequest
  /-- 404: user not found -/
  | notFound
  /-- 500 of the `catch` -/
  | failed
  /-- 201 with the created user -/
  | created (user : User)
  /-- 200 -/
  | ok
  deriving DecidableEq

/-- The HTTP status of an answer. -/
def UserResp.status : UserResp → Nat
  | .denied r => r.status
  | .forbidden => 403
  | .badRequest => 400
  | .notFound => 404
  | .failed => 500
  | .created _ => 201
  | .ok => 200

/-- A value Prisma accepts for the `role` column: one of the three names. -/
def roleOf : JsVal → Option Role
  | .str "USER" => some .USER
  | .str "ADMIN" => some .ADMIN
  | .str "SUPER_ADMIN" => some .SUPER_ADMIN
  | _ => none

/-- `prisma.user.findUnique({ where: { email } })`. -/
def Store.findUserByEmail (s : Store) (email : String) : Option User :=
  s.users.find? (fun u => decide (u.email = email))

/-- `prisma.user.create`: the new row takes the next id.  The name, password
and profile columns, which no handler below reads back, are left out of the
row. -/
def Store.createUser (s : Store) (email : String) (role : Role) (isAdmin : Bool) :
    Store × User :=
  ({ s with
      users := s.users ++ [{ id := s.userSeq, role := role, isAdmin := isAdmin, email := email }]
      userSeq := s.userSeq + 1 },
   { id := s.userSeq, role := role, isAdmin := isAdmin, email := email })

/-- The body of POST /api/auth/register. -/
structure RegisterBody where
  firstName : JsVal := .undefined
  lastName : JsVal := .undefined
  email : JsVal := .undefined
  password : JsVal := .undefined
  isAdmin : JsVal := .undefined
  role : JsVal := .undefined

/-- POST /api/auth/register (server.js 294-347).  A field that is not a string
makes `findUnique`, `bcrypt.hash` or `create` throw, and so does a role that is
not one of the three names. -/
def registerHandler (s : Store) (b : RegisterBody) : Store × UserResp :=
  if !b.firstName.truthy || !b.lastName.truthy || !b.email.truthy || !b.password.truthy then
    (s, .badRequest)
  else
    match stringOf b.email with
    | none => (s, .failed)
    | some email =>
      match s.findUserByEmail email with
      | some _ => (s, .badRequest)
      | none =>
        match stringOf b.password, stringOf b.firstName, stringOf b.lastName,
            (if b.role.truthy then roleOf b.role else some .USER) with
        | some _, some _, some _, some role =>
          ((s.createUser email role (decide (b.isAdmin = .str "true"))).1,
            .created (s.createUser email role (decide (b.isAdmin = .str "true"))).2)
        | _, _, _, _ => (s, .failed)

/-- POST /api/admin/register (server.js 199-244), behind `adminAuth`; of the
body it reads the five fields other than `isAdmin`. -/
def adminRegisterRoute (s : Store) (auth : AuthHeader) (b : RegisterBody) :
    Store × UserResp :=
  match adminAuth s auth with
  | .error resp => (s, .denied resp)
  | .ok decoded =>
    if !b.firstName.truthy || !b.lastName.truthy || !b.email.truthy || !b.password.truthy
        || !b.role.truthy then
      (s, .badRequest)
    else
      match decoded.id.bind s.findUser with
      | none => (s, .failed)
      | some requestingAdmin =>
        if requestingAdmin.role ≠ .SUPER_ADMIN then (s, .forbidden)
        else
          match stringOf b.email with
          | none => (s, .failed)
          | some email =>
            match s.findUserByEmail email with
            | some _ => (s, .badRequest)
            | none =>
              match stringOf b.password, stringOf b.firstName, stringOf b.lastName,
                  roleOf b.role with
              | some _, some _, some _, some role =>
                ((s.createUser email role true).1, .created (s.createUser email role true).2)
              | _, _, _, _ => (s, .failed)

/-- The `data` of the promotion (server.js 161-164). -/
def promoteData (u : User) : User :=
  { u with role := .SUPER_ADMIN, isAdmin := true }

/-- POST /promote-to-super (server.js 141-196), behind `adminAuth`:
`req.admin` is the payload of the token, so the first test reads the role the
token carries. -/
def promoteRoute (s : Store) (auth : AuthHeader) (userId : JsVal) : Store × UserResp :=
  match adminAuth s auth with
  | .error resp => (s, .denied resp)
  | .ok decoded =>
    if decoded.role ≠ some .SUPER_ADMIN then (s, .forbidden)
    else if !userId.truthy then (s, .badRequest)
    else
      match parseInt userId, decoded.id with
      | some id, some adminId =>
        match s.findUser id with
        | none => (s, .notFound)
        | some _ =>
          ({ s with
              users := s.users.map (fun u => if u.id = id then promoteData u else u)
              auditLogs := s.auditLogs ++
                [{ action := "PROMOTE_TO_SUPER_ADMIN", userId := adminId, targetUserId := id }] },
           .ok)
      | _, _ => (s, .failed)

/-- The body of PUT /api/admin/users/:id. -/
structure UpdateUserBody where
  firstName : JsVal := .undefined
  lastName : JsVal := .undefined
  email : JsVal := .undefined
  role : JsVal := .undefined

/-- The `data` of the user update (server.js 656-661). -/
def updateUserData (email : String) (role : Role) (u : User) : User :=
  { u with email := email, role := role }

/-- PUT /api/admin/users/:id (server.js 645-669), behind `adminAuth`.  The
update throws when a field is not a string, the role is not one of the three
names, no row has the id, or another row has the email. -/
def updateUserRoute (s : Store) (auth : AuthHeader) (id : String) (b : UpdateUserBody) :
    Store × UserResp :=
  match adminAuth s auth with
  | .error resp => (s, .denied resp)
  | .ok _ =>
    if !b.firstName.truthy || !b.lastName.truthy || !b.email.truthy || !b.role.truthy then
      (s, .badRequest)
    else
      match parseIntChars id.toList, stringOf b.firstName, stringOf b.lastName,
          stringOf b.email, roleOf b.role with
      | some userId, some _, some _, some email, some role =>
        match s.findUser userId with
        | none => (s, .failed)
        | some _ =>
          if s.users.any (fun u => decide (u.email = email) && decide (u.id ≠ userId)) then
            (s, .failed)
          else
            ({ s with
                users := s.users.map (fun u =>
                  if u.id = userId then updateUserData email role u else u) },
             .ok)
      | _, _, _, _, _ => (s, .failed)

/-- Whether a row of another table still refers to the user. -/
def Store.userReferenced (s : Store) (id : Int) : Bool :=
  s.videos.any (fun v => decide (v.userId = id)) ||
  s.comments.any (fun c => decide (c.userId = id)) ||
  s.replies.any (fun r => decide (r.userId = id)) ||
  s.likes.any (fun l => decide (l.userId = id)) ||
  s.ratings.any (fun r => decide (r.userId = id)) ||
  s.subscriptions.any (fun r => decide (r.userId = id) || decide (r.creatorId = id)) ||
  s.auditLogs.any (fun a => decide (a.userId = id) || decide (a.targetUserId = id))

/-- `prisma.user.delete({ where: { id } })`.  Modelled from the spec: the
Prisma schema is not among the sources; a user that rows of another table
refer to is taken to be kept by the foreign key (`P2003`). -/
def Store.deleteUser (s : Store) (id : Int) : Except PrismaError Store :=
  match s.findUser id with
  | none => .error .P2025
  | some _ =>
    if s.userReferenced id then .error .P2003
    else .ok { s with users := s.users.filter (fun u => decide (u.id ≠ id)) }

/-- DELETE /api/admin/admins/:id (server.js 718-753), behind `adminAuth`. -/
def deleteAdminRoute (s : Store) (auth : AuthHeader) (id : String) : Store × UserResp :=
  match adminAuth s auth with
  | .error resp => (s, .denied resp)
  | .ok decoded =>
    match decoded.id.bind s.findUser with
    | none => (s, .failed)
    | some requestingAdmin =>
      if requestingAdmin.role ≠ .SUPER_ADMIN then (s, .forbidden)
      else
        match parseIntChars id.toList with
        | none => (s, .failed)
        | some adminId =>
          match s.findUser adminId with
          | none => (s, .notFound)
          | some targetAdmin =>
            if targetAdmin.role = .SUPER_ADMIN then (s, .forbidden)
            else
              match s.deleteUser adminId with
              | .error _ => (s, .failed)
              | .ok s1 => (s1, .ok)

/-! ## Vocabulary of the claims -/

/-- The target of a like: a video, a comment or a reply. -/
inductive Target where
  | video (id : Int)
  | comment (id : Int)
  | reply (id : Int)
  deriving DecidableEq

/-- Does the target exist in the store? -/
def Target.existsIn (s : Store) : Target → Bool
  | .video id => (s.findVideo id).isSome
  | .comment id => (s.findComment id).isSome
  | .reply id => (s.findReply id).isSome

/-- The `videoId` column of a like on the target. -/
def Target.videoId : Target → Option Int
  | .video id => some id
  | _ => none

/-- The `commentId` column of a like on the target. -/
def Target.commentId : Target → Option Int
  | .comment id => some id
  | _ => none

/-- The `replyId` column of a like on the target. -/
def Target.replyId : Target → Option Int
  | .reply id => some id
  | _ => none

/-- The `type` the handler reports for the target. -/
def Target.kind : Target → String
  | .video _ => "VIDEO"
  | .comment _ => "COMMENT"
  | .reply _ => "REPLY"

/-- The likes of the store on exactly this target. -/
def Store.likesOn (s : Store) (T : Target) : List Like :=
  s.likes.filter (likeOnTarget T.videoId T.commentId T.replyId)

/-- The body names user `u` and the one target `T`: `userId` is truthy and
parses to `u`, the id field of `T` is truthy and parses to the id, and the two
other id fields are falsy. -/
def LikeBody.names (b : LikeBody) (u : Int) (T : Target) : Prop :=
  b.userId.truthy = true ∧ parseInt b.userId = some u ∧
  idArg b.videoId = IdArg.ofColumn T.videoId ∧
  idArg b.commentId = IdArg.ofColumn T.commentId ∧
  idArg b.replyId = IdArg.ofColumn T.replyId

/-- The body asks for a type Prisma accepts: none, `'LIKE'` or `'DISLIKE'`. -/
def LikeBody.typeOk (b : LikeBody) : Prop :=
  b.type.truthy = false ∨ b.type = .str "LIKE" ∨ b.type = .str "DISLIKE"

/-- The type of the row a like request creates: the requested one, `LIKE` when
none is given. -/
def LikeBody.likeType (b : LikeBody) : LikeType :=
  if b.type = .str "DISLIKE" then .DISLIKE else .LIKE

/-- Primary keys of `Like` come from the sequence: distinct and below its next
value. -/
def Store.likeKeysOk (s : Store) : Prop :=
  (s.likes.map (fun l => l.id)).Nodup ∧ ∀ l ∈ s.likes, l.id < s.likeSeq

instance (s : Store) : Decidable s.likeKeysOk := by
  unfold Store.likeKeysOk; infer_instance

/-- The row `prisma.like.create` inserts. -/
def newLike (s : Store) (b : LikeBody) (u : Int) (v c r : Option Int) : Like :=
  { id := s.likeSeq, type := b.likeType, userId := u, videoId := v, commentId := c,
    replyId := r }

/-- The store of the like scenarios: user 1, who owns video 5, and comment 42
on that video; nobody has liked anything yet. -/
def likeScenarioStore : Store :=
  { users := [{ id := 1 }]
    videos := [{ id := 5, userId := 1 }]
    comments := [{ id := 42, text := "first", userId := 1, videoId := 5 }]
    commentSeq := 43 }

/-- The request `toggleLike(1, {commentId: 42}, LIKE)`. -/
def likeScenarioBody : LikeBody :=
  { userId := .num 1, commentId := .num 42, type := .str "LIKE" }

/-- A like request that carries two target ids: `videoId` 5 and `commentId` 42. -/
def twoTargetBody : LikeBody :=
  { userId := .num 1, videoId := .num 5, commentId := .num 42 }

/-- Two likes have the same key `(userId, videoId, commentId, replyId)`. -/
def sameLikeKey (a b : Like) : Prop :=
  a.userId = b.userId ∧ a.videoId = b.videoId ∧ a.commentId = b.commentId ∧
    a.replyId = b.replyId

instance (a b : Like) : Decidable (sameLikeKey a b) := by
  unfold sameLikeKey; infer_instance

/-- The at-most-one invariant: no two Like rows share
`(userId, videoId, commentId, replyId)`. -/
def Store.likesAtMostOne (s : Store) : Prop :=
  s.likes.Pairwise (fun a b => ¬ sameLikeKey a b)

instance (s : Store) : Decidable s.likesAtMostOne := by
  unfold Store.likesAtMostOne; infer_instance

/-- The store of the rating scenarios: user 7 and video 100 (owned by user 7),
no ratings yet. -/
def rateScenarioStore : Store :=
  { users := [{ id := 7 }], videos := [{ id := 100, userId := 7 }] }

/-- Two ratings have the same compound key `(userId, videoId)`. -/
def sameRatingKey (a b : Rating) : Prop :=
  a.userId = b.userId ∧ a.videoId = b.videoId

instance (a b : Rating) : Decidable (sameRatingKey a b) := by
  unfold sameRatingKey; infer_instance

/-- The unique constraint `userId_videoId` of `Rating`, which the `where` of
the upsert names: no two rows share `(userId, videoId)`. -/
def Store.ratingsUnique (s : Store) : Prop :=
  s.ratings.Pairwise (fun a b => ¬ sameRatingKey a b)

instance (s : Store) : Decidable s.ratingsUnique := by
  unfold Store.ratingsUnique; infer_instance

/-- Rate requests handled one after the other, each at its own time: the
final store and the answers in order. -/
def rateAll (s : Store) : List (Int × RateBody) → Store × List RateResp
  | [] => (s, [])
  | (now, b) :: rest =>
    ((rateAll (rateHandler now s b).1 rest).1,
      (rateHandler now s b).2 :: (rateAll (rateHandler now s b).1 rest).2)

/-- A rate request together with what it says: the user and the value. -/
structure RateCall where
  now : Int
  body : RateBody
  user : Int
  value : Int

/-- The call is a well-formed rating of video `v`: its body names the user, the
video and an integer value in [1,10], and the user exists. -/
def RateCall.rates (c : RateCall) (s : Store) (v : Int) : Prop :=
  parseInt c.body.userId = some c.user ∧ parseInt c.body.videoId = some v ∧
  toNumber c.body.value = .fin (c.value : ℚ) ∧ parseInt c.body.value = some c.value ∧
  (1 ≤ c.value ∧ c.value ≤ 10) ∧ (s.findUser c.user).isSome = true

/-- Three users and video 100, no ratings. -/
def threeRatersStore : Store :=
  { users := [{ id := 1 }, { id := 2 }, { id := 3 }], videos := [{ id := 100, userId := 1 }] }

/-- Users 1, 2 and 3 rate video 100 with 8, 9 and 9. -/
def threeRatings : List RateCall :=
  [ { now := 10, body := { userId := .num 1, videoId := .num 100, value := .num 8 },
      user := 1, value := 8 },
    { now := 20, body := { userId := .num 2, videoId := .num 100, value := .num 9 },
      user := 2, value := 9 },
    { now := 30, body := { userId := .num 3, videoId := .num 100, value := .num 9 },
      user := 3, value := 9 } ]

/-- A request to one of the interaction handlers. -/
inductive Request where
  | like (b : LikeBody)
  | comment (b : CommentBody)
  | reply (b : ReplyBody)
  | rate (now : Int) (b : RateBody)

/-- The store after one request. -/
def step (s : Store) : Request → Store
  | .like b => (likeHandler s b).1
  | .comment b => (commentHandler s b).1
  | .reply b => (replyHandler s b).1
  | .rate now b => (rateHandler now s b).1

/-- The store after a sequence of requests, handled one after the other. -/
def run (s : Store) (reqs : List Request) : Store :=
  reqs.foldl step s

/-- A store in which no reply has been made yet: no Reply rows, both
autoincrement sequences start above 0, and the Comment rows have distinct
positive ids below their sequence. -/
def Store.noReplies (s : Store) : Prop :=
  s.replies = [] ∧ 0 < s.replySeq ∧ 0 < s.commentSeq ∧
  (s.comments.map (fun c => c.id)).Nodup ∧ ∀ c ∈ s.comments, 0 < c.id ∧ c.id < s.commentSeq

instance (s : Store) : Decidable s.noReplies := by
  unfold Store.noReplies; infer_instance

/-- The root comment of the reply `id`, in the words of the spec: follow the
`parentReplyId` links until a reply without parent and take its `commentId`.
`none` when the fuel runs out or a link dangles. -/
def rootComment (replies : List Reply) : Nat → Int → Option (Option Int)
  | 0, _ => none
  | fuel + 1, id =>
    match replies.find? (fun r => decide (r.id = id)) with
    | none => none
    | some r =>
      match r.parentReplyId with
      | none => some r.commentId
      | some p => rootComment replies fuel p

/-- The invariant of the reply thread: keys are sound, every reply is filed
under an existing comment of its own video, and every reply with a parent has
an older parent filed under the same comment. -/
structure ReplyInv (s : Store) : Prop where
  replySeq_pos : 0 < s.replySeq
  commentSeq_pos : 0 < s.commentSeq
  reply_ids : ∀ r ∈ s.replies, 0 < r.id ∧ r.id < s.replySeq
  reply_nodup : (s.replies.map (fun r => r.id)).Nodup
  comment_ids : ∀ c ∈ s.comments, 0 < c.id ∧ c.id < s.commentSeq
  comment_nodup : (s.comments.map (fun c => c.id)).Nodup
  filed : ∀ r ∈ s.replies, ∃ c ∈ s.comments, r.commentId = some c.id ∧ c.videoId = r.videoId
  parent : ∀ r ∈ s.replies, ∀ p, r.parentReplyId = some p →
    ∃ q ∈ s.replies, q.id = p ∧ p < r.id ∧ q.commentId = r.commentId

/-- Two stores with the same comments, replies and sequences of both. -/
def sameThread (s s1 : Store) : Prop :=
  s1.comments = s.comments ∧ s1.replies = s.replies ∧ s1.commentSeq = s.commentSeq ∧
    s1.replySeq = s.replySeq

/-- The reply request has a text and names the existing user `u` and the
existing video `v`. -/
def ReplyBody.sound (b : ReplyBody) (s : Store) (u v : Int) : Prop :=
  (∃ t : String, b.text = .str t) ∧ b.text.truthy = true ∧
  b.userId.truthy = true ∧ parseInt b.userId = some u ∧ (s.findUser u).isSome = true ∧
  b.videoId.truthy = true ∧ parseInt b.videoId = some v ∧ (s.findVideo v).isSome = true

/-- A thread on comment 42 of video 5: user 1 answers the comment (reply 1) and
then answers reply 1 (reply 2). -/
def threadRequests : List Request :=
  [ .reply { text := .str "a", userId := .str "1", videoId := .str "5", commentId := .str "42" },
    .reply { text := .str "b", userId := .str "1", videoId := .str "5",
             parentReplyId := .str "1" } ]

/-- An answer to reply 2 that also carries an unrelated `commentId`. -/
def nestedReplyBody : ReplyBody :=
  { text := .str "c", userId := .str "1", videoId := .str "5", commentId := .str "999",
    parentReplyId := .str "2" }

/-- The reply request has a text and names the existing user `u` and the
existing video `v`: it passes the checks of server.js 1363-1401. -/
def ReplyBody.addressed (b : ReplyBody) (s : Store) (u v : Int) : Prop :=
  b.text.truthy = true ∧
  b.userId.truthy = true ∧ parseInt b.userId = some u ∧ (s.findUser u).isSome = true ∧
  b.videoId.truthy = true ∧ parseInt b.videoId = some v ∧ (s.findVideo v).isSome = true

/-- Video 5 of user 1 with comment 42, a second video 6 with comment 43, and
reply 1 under comment 42. -/
def twoVideoStore : Store :=
  { users := [{ id := 1 }]
    videos := [{ id := 5, userId := 1 }, { id := 6, userId := 1 }]
    comments := [{ id := 42, text := "first", userId := 1, videoId := 5 },
                 { id := 43, text := "second", userId := 1, videoId := 6 }]
    replies := [{ id := 1, text := "a", userId := 1, commentId := some 42, videoId := 5,
                  parentReplyId := none }]
    commentSeq := 44
    replySeq := 2 }

/-- The subscribe request names user `u` and video `v`: both fields are
truthy and parse to these ids. -/
def SubscribeBody.names (b : SubscribeBody) (u v : Int) : Prop :=
  b.userId.truthy = true ∧ parseInt b.userId = some u ∧
  b.videoId.truthy = true ∧ parseInt b.videoId = some v

instance (b : SubscribeBody) (u v : Int) : Decidable (b.names u v) := by
  unfold SubscribeBody.names; infer_instance

/-- The subscriptions from user `u` to creator `c`. -/
def Store.subscriptionsFrom (s : Store) (u c : Int) : List Subscription :=
  s.subscriptions.filter (subscriptionOf u c)

/-- Primary keys of `Subscription` come from the sequence: below its next
value. -/
def Store.subscriptionKeysOk (s : Store) : Prop :=
  ∀ r ∈ s.subscriptions, r.id < s.subscriptionSeq

instance (s : Store) : Decidable s.subscriptionKeysOk := by
  unfold Store.subscriptionKeysOk; infer_instance

/-- Two subscriptions have the same key `(userId, creatorId)`. -/
def sameSubscriptionKey (a b : Subscription) : Prop :=
  a.userId = b.userId ∧ a.creatorId = b.creatorId

instance (a b : Subscription) : Decidable (sameSubscriptionKey a b) := by
  unfold sameSubscriptionKey; infer_instance

/-- The at-most-one invariant: no two Subscription rows share
`(userId, creatorId)`. -/
def Store.subscriptionsAtMostOne (s : Store) : Prop :=
  s.subscriptions.Pairwise (fun a b => ¬ sameSubscriptionKey a b)

instance (s : Store) : Decidable s.subscriptionsAtMostOne := by
  unfold Store.subscriptionsAtMostOne; infer_instance

/-- The store of the subscription scenarios: user 1, and creator 2 who owns
videos 10 and 11; nobody is subscribed. -/
def creatorStore : Store :=
  { users := [{ id := 1 }, { id := 2 }]
    videos := [{ id := 10, userId := 2 }, { id := 11, userId := 2 }] }

/-- User 1 asks to subscribe through video 10. -/
def subscribeViaA : SubscribeBody := { userId := .str "1", videoId := .str "10" }

/-- User 1 asks to subscribe through video 11. -/
def subscribeViaB : SubscribeBody := { userId := .str "1", videoId := .str "11" }

/-- The `isSubscribed` field of a video detail answer, if it is a 200. -/
def DetailResp.isSubscribed? : DetailResp → Option Bool
  | .ok detail => some detail.isSubscribed
  | _ => none

/-- A request to one of the handlers that write to the store: an interaction
(like, comment, reply, rate), a subscribe request, a video detail read (it
counts a view), a moderation route of server.js, or a moderation function of
the video controller. -/
inductive Action where
  | interaction (r : Request)
  | subscribe (b : SubscribeBody)
  | detail (id : String) (userId : JsVal)
  | approve (now : Int) (auth : AuthHeader) (id : String)
  | reject (now : Int) (auth : AuthHeader) (id : String) (reason : JsVal)
  | unpublish (auth : AuthHeader) (id : String)
  | approveVideo (now : Int) (videoId : String)
  | rejectVideo (now : Int) (videoId : String) (reason : JsVal)

/-- The store after one action. -/
def act (s : Store) : Action → Store
  | .interaction r => step s r
  | .subscribe b => (subscribeHandler s b).1
  | .detail id userId => (videoDetail s id userId).1
  | .approve now auth id => (approveRoute now s auth id).1
  | .reject now auth id reason => (rejectRoute now s auth id reason).1
  | .unpublish auth id => (unpublishRoute s auth id).1
  | .approveVideo now videoId => (approveVideo now s videoId).1
  | .rejectVideo now videoId reason => (rejectVideo now s videoId reason).1

/-- The store after a sequence of actions, handled one after the other. -/
def perform (s : Store) (acts : List Action) : Store :=
  acts.foldl act s

/-- Every subscription names a video of the store whose owner is the
subscription's creator. -/
def SubscriptionInv (s : Store) : Prop :=
  ∀ r ∈ s.subscriptions, (s.findVideo r.videoId).map (fun v => v.userId) = some r.creatorId

/-- Two stores with the same subscriptions and the same owner for every video
id. -/
def sameOwners (s s1 : Store) : Prop :=
  s1.subscriptions = s.subscriptions ∧
  ∀ id : Int, (s1.findVideo id).map (fun v => v.userId) = (s.findVideo id).map (fun v => v.userId)

/-- Users 1 and 3, creator 2 with videos 10 and 11, creator 4 with video 12. -/
def twoCreatorStore : Store :=
  { users := [{ id := 1 }, { id := 2, role := .ADMIN, isAdmin := true }, { id := 3 },
              { id := 4 }]
    videos := [{ id := 10, userId := 2 }, { id := 11, userId := 2 }, { id := 12, userId := 4 }] }

/-- User 1 subscribes through video 10, user 3 through video 11, user 1
through video 12; video 10 is read and then approved by admin 2. -/
def subscriptionActions : List Action :=
  [ .subscribe { userId := .str "1", videoId := .str "10" },
    .subscribe { userId := .str "3", videoId := .str "11" },
    .subscribe { userId := .str "1", videoId := .str "12" },
    .detail "10" (.str "1"),
    .approve 7 (.valid { id := some 2 }) "10" ]

/-- The changes of status the spec lists: PENDING→APPROVED, PENDING→REJECTED
and APPROVED→PENDING. -/
def allowedChange : VideoStatus → VideoStatus → Bool
  | .PENDING, .APPROVED => true
  | .PENDING, .REJECTED => true
  | .APPROVED, .PENDING => true
  | _, _ => false

/-- A moderation call on a video: one of the three admin routes of server.js,
or one of the two functions of the video controller. -/
inductive Moderation where
  | approve (now : Int)
  | reject (now : Int) (reason : JsVal)
  | unpublish
  | approveVideo (now : Int)
  | rejectVideo (now : Int) (reason : JsVal)

/-- The status a moderation call writes. -/
def Moderation.target : Moderation → VideoStatus
  | .approve _ => .APPROVED
  | .reject _ _ => .REJECTED
  | .unpublish => .PENDING
  | .approveVideo _ => .APPROVED
  | .rejectVideo _ _ => .REJECTED

/-- The reason of the call, if it carries one, is one Prisma accepts. -/
def Moderation.reasonOk : Moderation → Bool
  | .reject _ reason => nullableStringOk reason
  | .rejectVideo _ reason => nullableStringOk reason
  | _ => true

/-- The store and the HTTP status after a moderation call with the given
`Authorization` header and path parameter; the controller functions run after
their own middleware, which is not part of them. -/
def moderate (s : Store) (auth : AuthHeader) (id : String) : Moderation → Store × Nat
  | .approve now => ((approveRoute now s auth id).1, (approveRoute now s auth id).2.status)
  | .reject now reason =>
    ((rejectRoute now s auth id reason).1, (rejectRoute now s auth id reason).2.status)
  | .unpublish => ((unpublishRoute s auth id).1, (unpublishRoute s auth id).2.status)
  | .approveVideo now => ((approveVideo now s id).1, (approveVideo now s id).2.status)
  | .rejectVideo now reason =>
    ((rejectVideo now s id reason).1, (rejectVideo now s id reason).2.status)

/-- The status of the video `v`, if it exists. -/
def Store.statusOf (s : Store) (v : Int) : Option VideoStatus :=
  (s.findVideo v).map (fun x => x.status)

/-- The store of the moderation scenarios: admin 1, user 3 whose role is USER
but whose `isAdmin` flag is set, plain user 4, who owns video 5 (approved at
time 1) and video 6 (pending). -/
def moderationStore : Store :=
  { users := [{ id := 1, role := .ADMIN, isAdmin := true },
              { id := 3, role := .USER, isAdmin := true },
              { id := 4 }]
    videos := [{ id := 5, userId := 4, status := .APPROVED, approvedAt := some 1 },
               { id := 6, userId := 4 }] }

/-- A valid token of admin 1. -/
def adminToken : AuthHeader :=
  .valid { id := some 1, role := some .ADMIN, isAdmin := some true }

/-- A valid token of user 3, with role USER. -/
def flaggedUserToken : AuthHeader :=
  .valid { id := some 3, role := some .USER, isAdmin := some true }

/-- A valid token of user 4, with role USER. -/
def plainUserToken : AuthHeader :=
  .valid { id := some 4, role := some .USER, isAdmin := some false }

/-- The store of the ban scenarios: admin 1 and super admin 2, both banned,
and plain user 4, who owns the pending video 6. -/
def bannedStore : Store :=
  { users := [{ id := 1, role := .ADMIN, isAdmin := true, isBanned := true },
              { id := 2, role := .SUPER_ADMIN, isAdmin := true, isBanned := true },
              { id := 4 }]
    videos := [{ id := 6, userId := 4 }] }

/-- A valid token of super admin 2. -/
def superAdminToken : AuthHeader :=
  .valid { id := some 2, role := some .SUPER_ADMIN, isAdmin := some true }

/-- The stored flag agrees with the role: `isAdmin` is true exactly when the
role is ADMIN or SUPER_ADMIN. -/
def User.flagAgrees (u : User) : Bool :=
  u.isAdmin == (decide (u.role = .ADMIN) || decide (u.role = .SUPER_ADMIN))

/-- The flag agrees with the role on every user row. -/
def Store.flagsAgree (s : Store) : Bool :=
  s.users.all User.flagAgrees

/-- The store of the user administration scenarios: admin 1, super admin 2 and
plain user 4, whom no row of another table refers to. -/
def staffStore : Store :=
  { users := [{ id := 1, role := .ADMIN, isAdmin := true, email := "a@x" },
              { id := 2, role := .SUPER_ADMIN, isAdmin := true, email := "s@x" },
              { id := 4, email := "u@x" }]
    userSeq := 5 }

/-- A valid token that names admin 1 and carries the role SUPER_ADMIN, which
is not the role of the row. -/
def staleToken : AuthHeader :=
  .valid { id := some 1, role := some .SUPER_ADMIN, isAdmin := some true }

/-- The five fields of the admin registration are all given. -/
def RegisterBody.complete (b : RegisterBody) : Bool :=
  b.firstName.truthy && b.lastName.truthy && b.email.truthy && b.password.truthy &&
    b.role.truthy

/-- An upload of user 4 with a thumbnail and no video file. -/
def thumbnailOnly : UploadRequest :=
  { user := { id := 4, email := "u@x", role := .USER, isAdmin := false }
    thumbnail := [{ filename := "t.png", path := "uploads/t.png" }]
    title := .str "T"
    releaseYear := some 2020 }

/-- An upload of user 4 with both files and a release date that does not
parse. -/
def undatedUpload : UploadRequest :=
  { user := { id := 4, email := "u@x", role := .USER, isAdmin := false }
    thumbnail := [{ filename := "t.png", path := "uploads/t.png" }]
    video := [{ filename := "v.mp4", path := "uploads/v.mp4" }]
    title := .str "T" }

/-- An upload of user 4 with both files and a date, and no title: the create
is rejected. -/
def untitledUpload : UploadRequest :=
  { user := { id := 4, email := "u@x", role := .USER, isAdmin := false }
    thumbnail := [{ filename := "t.png", path := "uploads/t.png" }]
    video := [{ filename := "v.mp4", path := "uploads/v.mp4" }]
    releaseYear := some 2020 }

/-- An upload of user 4 with both files, a date and a title. -/
def titledUpload : UploadRequest :=
  { user := { id := 4, email := "u@x", role := .USER, isAdmin := false }
    thumbnail := [{ filename := "t.png", path := "uploads/t.png" }]
    video := [{ filename := "v.mp4", path := "uploads/v.mp4" }]
    title := .str "T"
    releaseYear := some 2020 }

/-- The store of the listing scenario at the instant 3000000000: an approved
video created at 2000000000, an approved one created at 100, a pending and a
rejected one. -/
def listingStore : Store :=
  { users := [{ id := 4 }]
    videos := [{ id := 1, userId := 4, status := .APPROVED, approvedAt := some 2000000001,
                 createdAt := 2000000000 },
               { id := 2, userId := 4, status := .APPROVED, approvedAt := some 101,
                 createdAt := 100 },
               { id := 3, userId := 4, createdAt := 2000000000 },
               { id := 4, userId := 4, status := .REJECTED, rejectedAt := some 101,
                 createdAt := 100 }] }

/-- The stamps of a video agree with its status. -/
def Video.stamped (v : Video) : Prop :=
  (v.status = .APPROVED → v.approvedAt ≠ none) ∧
  (v.status = .REJECTED → v.rejectedAt ≠ none) ∧
  (v.status = .PENDING → v.approvedAt = none)

/-- The stamps of every video of the store agree with its status. -/
def Store.stamped (s : Store) : Prop :=
  ∀ v ∈ s.videos, v.stamped

/-- A request that writes to the Video table: an upload, a moderation call of
server.js or of the controller, a PATCH route of the router, or a detail view. -/
inductive VideoCall where
  | upload (now : Int) (disk : List String) (r : UploadRequest)
  | moderation (auth : AuthHeader) (id : String) (call : Moderation)
  | patchApprove (now : Int) (auth : AuthHeader) (id : String)
  | patchReject (now : Int) (auth : AuthHeader) (id : String) (reason : JsVal)
  | detail (id : String) (userId : JsVal)

/-- The store after a call. -/
def applyCall (s : Store) : VideoCall → Store
  | .upload now disk r => (uploadVideo now s disk r).1
  | .moderation auth id call => (moderate s auth id call).1
  | .patchApprove now auth id => (patchApprove now s auth id).1
  | .patchReject now auth id reason => (patchReject now s auth id reason).1
  | .detail id userId => (videoDetail s id userId).1

/-- The store after a sequence of calls. -/
def applyCalls (s : Store) : List VideoCall → Store
  | [] => s
  | c :: cs => applyCalls (applyCall s c) cs

/-- The store of the stamp scenario: admin 1 and user 4, who has uploaded
video 6. -/
def uploadedStore : Store :=
  { users := [{ id := 1, role := .ADMIN, isAdmin := true }, { id := 4 }]
    videos := [{ id := 6, userId := 4 }]
    videoSeq := 7 }

/-- The calls of the stamp scenario: user 4 uploads video 7, admin 1 approves
video 6, rejects video 7 and unpublishes video 6, and video 7 is approved
through the router. -/
def stampCalls : List VideoCall :=
  [.upload 5 ["uploads/t.png", "uploads/v.mp4"] titledUpload,
   .moderation adminToken "6" (.approve 10),
   .moderation adminToken "7" (.reject 11 (.str "no")),
   .moderation adminToken "6" .unpublish,
   .patchApprove 12 adminToken "7"]

/-! ## Facts about the coercions -/

theorem idArg_eq_id {x : JsVal} {n : Int} (h : idArg x = .id n) :
    x.truthy = true ∧ parseInt x = some n := by
  unfold idArg at h
  split at h
  · rename_i ht
    refine ⟨ht, ?_⟩
    split at h
    · rename_i m hm
      cases h
      exact hm
    · cases h
  · cases h

theorem idArg_eq_null {x : JsVal} (h : idArg x = .null) : x.truthy = false := by
  unfold idArg at h
  split at h
  · split at h <;> cases h
  · rename_i ht
    simpa using ht

theorem idArg_of_falsy {x : JsVal} (h : x.truthy = false) : idArg x = .null := by
  simp [idArg, h]

theorem idArg_of_parse {x : JsVal} {n : Int} (ht : x.truthy = true) (hp : parseInt x = some n) :
    idArg x = .id n := by
  simp [idArg, ht, hp]

/-! ## Facts about the like handler -/

theorem resolveTarget_names {s : Store} {b : LikeBody} {u : Int} {T : Target}
    (hb : b.names u T) : resolveTarget s b = .ok (T.existsIn s, T.kind) := by
  obtain ⟨-, -, hv, hc, hr⟩ := hb
  cases T with
  | video id =>
    have hc0 := idArg_eq_null hc
    have hr0 := idArg_eq_null hr
    obtain ⟨hv1, hv2⟩ := idArg_eq_id hv
    simp [resolveTarget, hc0, hr0, hv1, hv2, Target.existsIn, Target.kind]
  | comment id =>
    obtain ⟨hc1, hc2⟩ := idArg_eq_id hc
    simp [resolveTarget, hc1, hc2, Target.existsIn, Target.kind]
  | reply id =>
    have hc0 := idArg_eq_null hc
    obtain ⟨hr1, hr2⟩ := idArg_eq_id hr
    simp [resolveTarget, hc0, hr1, hr2, Target.existsIn, Target.kind]

theorem likeArgs_names {b : LikeBody} {u : Int} {T : Target} (hb : b.names u T) :
    likeArgs b = some (u, T.videoId, T.commentId, T.replyId) := by
  obtain ⟨-, hu, hv, hc, hr⟩ := hb
  simp only [likeArgs, hu, hv, hc, hr]
  cases T <;> rfl

theorem resolveTarget_true_some {s : Store} {b : LikeBody} {ty : String}
    (h : resolveTarget s b = .ok (true, ty)) :
    (!b.videoId.truthy && !b.commentId.truthy && !b.replyId.truthy) = false := by
  unfold resolveTarget at h
  cases hc : b.commentId.truthy <;> cases hr : b.replyId.truthy <;>
    cases hv : b.videoId.truthy <;> simp_all

/-- The handler once the target is resolved and the arguments are parsed: the
toggle itself (server.js 1249-1307). -/
theorem likeHandler_resolved {s : Store} {b : LikeBody} {ty : String} {u : Int}
    {v c r : Option Int} (hu : b.userId.truthy = true)
    (ht : resolveTarget s b = .ok (true, ty)) (ha : likeArgs b = some (u, v, c, r)) :
    likeHandler s b =
      match s.likes.find? (likeOfUserOnTarget u v c r) with
      | some existingLike =>
        (s.deleteLike existingLike.id,
          .ok "removed" false ((s.deleteLike existingLike.id).countLikes v c r) ty)
      | none =>
        match s.createLike (if b.type.truthy then b.type else .str "LIKE") u v c r with
        | .error e => (s, likeCatch e)
        | .ok s1 => (s1, .ok "created" true (s1.countLikes v c r) ty) := by
  have h0 := resolveTarget_true_some ht
  unfold likeHandler
  rw [h0, hu, ht, ha]
  simp

theorem likeTypeOf_requested {b : LikeBody} (h : b.typeOk) :
    likeTypeOf (if b.type.truthy then b.type else .str "LIKE") = some b.likeType := by
  rcases h with h | h | h
  · have hne : b.type ≠ .str "DISLIKE" := by
      intro he
      rw [he] at h
      revert h
      decide
    simp [h, likeTypeOf, LikeBody.likeType, hne]
  · simp [h, likeTypeOf, LikeBody.likeType, JsVal.truthy]
  · simp [h, likeTypeOf, LikeBody.likeType, JsVal.truthy]

theorem createLike_ok {s : Store} {b : LikeBody} {u : Int} {v c r : Option Int}
    (hty : b.typeOk) (hu : (s.findUser u).isSome = true) (hv : fkOk s.findVideo v = true)
    (hc : fkOk s.findComment c = true) (hr : fkOk s.findReply r = true) :
    s.createLike (if b.type.truthy then b.type else .str "LIKE") u v c r =
      .ok { s with likes := s.likes ++ [newLike s b u v c r], likeSeq := s.likeSeq + 1 } := by
  unfold Store.createLike
  rw [likeTypeOf_requested hty]
  simp [hu, hv, hc, hr, newLike]

theorem fkOk_target {s : Store} {T : Target} (h : T.existsIn s = true) :
    fkOk s.findVideo T.videoId = true ∧ fkOk s.findComment T.commentId = true ∧
      fkOk s.findReply T.replyId = true := by
  cases T <;> simpa [fkOk, Target.videoId, Target.commentId, Target.replyId,
    Target.existsIn] using h

theorem filter_id_ne_of_lt {ls : List Like} {k : Int} (h : ∀ l ∈ ls, l.id < k) :
    ls.filter (fun l => decide (l.id ≠ k)) = ls := by
  rw [List.filter_eq_self]
  intro l hl
  have := h l hl
  simp only [ne_eq, decide_not, Bool.not_eq_eq_eq_not, Bool.not_true, decide_eq_false_iff_not]
  omega

theorem filter_id_ne_eq_erase {ls : List Like} {e : Like}
    (hnd : (ls.map (fun l => l.id)).Nodup) (he : e ∈ ls) :
    ls.filter (fun l => decide (l.id ≠ e.id)) = ls.erase e := by
  induction ls with
  | nil => cases he
  | cons a t ih =>
    rw [List.map_cons, List.nodup_cons] at hnd
    obtain ⟨ha, ht⟩ := hnd
    by_cases hae : a = e
    · subst hae
      have hrest : ∀ l ∈ t, l.id ≠ a.id := by
        intro l hl heq
        exact ha (List.mem_map.mpr ⟨l, hl, heq⟩)
      have : t.filter (fun l => decide (l.id ≠ a.id)) = t := by
        rw [List.filter_eq_self]
        intro l hl
        simpa using hrest l hl
      rw [List.erase_cons_head, List.filter_cons]
      simp only [ne_eq, not_true_eq_false, decide_False, Bool.false_eq_true, if_false]
      exact this
    · have het : e ∈ t := by
        rcases List.mem_cons.mp he with h | h
        · exact absurd h.symm hae
        · exact h
      have hid : a.id ≠ e.id := by
        intro heq
        exact ha (List.mem_map.mpr ⟨e, het, heq.symm⟩)
      have hbeq : (a == e) = false := by simpa using hae
      rw [List.erase_cons, hbeq, List.filter_cons]
      have hd : decide (a.id ≠ e.id) = true := by simpa using hid
      rw [hd, ih ht het]
      simp

/-- C1. Toggle twice: for an existing target `T` and an existing user `u` with
no like on `T`, two successive like requests naming `(u, T)` answer first
`created / liked / n + 1` and then `removed / not liked / n`, with `n` the
number of likes on `T` before the first call, and the Like rows after the
second call are those before the first. -/
theorem like_toggle_twice (s : Store) (b : LikeBody) (u : Int) (T : Target)
    (hb : b.names u T) (hty : b.typeOk) (hkeys : s.likeKeysOk)
    (hu : (s.findUser u).isSome = true) (hT : T.existsIn s = true)
    (hno : ∀ l ∈ s.likesOn T, l.userId ≠ u) :
    (likeHandler s b).2 = .ok "created" true ((s.likesOn T).length + 1) T.kind ∧
    (likeHandler (likeHandler s b).1 b).2 = .ok "removed" false (s.likesOn T).length T.kind ∧
    (likeHandler (likeHandler s b).1 b).1.likes = s.likes := by
  have hut := hb.1
  have hargs := likeArgs_names hb
  obtain ⟨hfv, hfc, hfr⟩ := fkOk_target hT
  have hfind : s.likes.find? (likeOfUserOnTarget u T.videoId T.commentId T.replyId) = none := by
    rw [List.find?_eq_none]
    intro l hl hm
    simp only [likeOfUserOnTarget, Bool.and_eq_true, decide_eq_true_eq] at hm
    exact hno l (List.mem_filter.mpr ⟨hl, hm.2⟩) hm.1
  have hres : resolveTarget s b = .ok (true, T.kind) := by
    rw [resolveTarget_names hb, hT]
  have h1 : likeHandler s b =
      ({ s with likes := s.likes ++ [newLike s b u T.videoId T.commentId T.replyId],
                likeSeq := s.likeSeq + 1 },
        .ok "created" true ((s.likesOn T).length + 1) T.kind) := by
    rw [likeHandler_resolved hut hres hargs, hfind]
    simp only [createLike_ok hty hu hfv hfc hfr]
    simp [Store.countLikes, Store.likesOn, List.filter_append, likeOnTarget, newLike]
  have hT1 : T.existsIn { s with
      likes := s.likes ++ [newLike s b u T.videoId T.commentId T.replyId],
      likeSeq := s.likeSeq + 1 } = true := by
    cases T <;> exact hT
  have hres1 : resolveTarget { s with
      likes := s.likes ++ [newLike s b u T.videoId T.commentId T.replyId],
      likeSeq := s.likeSeq + 1 } b = .ok (true, T.kind) := by
    rw [resolveTarget_names hb, hT1]
  have hfind1 : (s.likes ++ [newLike s b u T.videoId T.commentId T.replyId]).find?
      (likeOfUserOnTarget u T.videoId T.commentId T.replyId) =
      some (newLike s b u T.videoId T.commentId T.replyId) := by
    rw [List.find?_append, hfind]
    simp [likeOfUserOnTarget, likeOnTarget, newLike]
  have hdel : (s.likes ++ [newLike s b u T.videoId T.commentId T.replyId]).filter
      (fun l => decide (l.id ≠ s.likeSeq)) = s.likes := by
    rw [List.filter_append, filter_id_ne_of_lt hkeys.2]
    simp [newLike]
  have h2 : likeHandler (likeHandler s b).1 b =
      ({ s with likeSeq := s.likeSeq + 1 }, .ok "removed" false (s.likesOn T).length T.kind) := by
    rw [h1, likeHandler_resolved hut hres1 hargs]
    simp only [hfind1]
    simp only [Store.deleteLike, newLike, Store.countLikes, Store.likesOn]
    have hdel0 := hdel
    simp only [newLike] at hdel0
    rw [hdel0]
  refine ⟨?_, ?_, ?_⟩
  · rw [h1]
  · rw [h2]
  · rw [h2]

theorem parseInt_num_one : parseInt (.num 1) = some 1 := by
  norm_num [parseInt, parseIntNum]

theorem parseInt_num_five : parseInt (.num 5) = some 5 := by
  norm_num [parseInt, parseIntNum]

theorem parseInt_num_fortyTwo : parseInt (.num 42) = some 42 := by
  norm_num [parseInt, parseIntNum]

theorem likeScenarioBody_names : likeScenarioBody.names 1 (.comment 42) :=
  ⟨by decide, parseInt_num_one, by decide,
    idArg_of_parse (by decide) parseInt_num_fortyTwo, by decide⟩

/-- C1, the concrete scenario: user 1 likes comment 42 (`n = 0`), twice. -/
theorem like_toggle_twice_witness :
    (likeHandler likeScenarioStore likeScenarioBody).2 = .ok "created" true 1 "COMMENT" ∧
    (likeHandler (likeHandler likeScenarioStore likeScenarioBody).1 likeScenarioBody).2
      = .ok "removed" false 0 "COMMENT" ∧
    (likeHandler (likeHandler likeScenarioStore likeScenarioBody).1 likeScenarioBody).1.likes
      = [] :=
  like_toggle_twice likeScenarioStore likeScenarioBody 1 (.comment 42) likeScenarioBody_names
    (Or.inr (Or.inl rfl)) (by decide) (by decide) (by decide) (by decide)

/-- C2. One like request whose target resolves and exists (`resolveTarget`) and
whose ids parse to `(u, v, c, r)` (`likeArgs`), on a store with sound primary
keys.  If a like of `u` with exactly these target columns exists, one such row
is erased, none is created, and the answer is `removed` / not liked.
Otherwise, for a request of an existing user with a valid type and existing
referenced rows, exactly one row `(u, v, c, r)` is appended, with the requested
type (`LIKE` when none is given), and the answer is `created` / liked.  In
both cases `likeCount` is the number of likes on exactly `(v, c, r)` in the
store after the mutation. -/
theorem like_toggle_step (s : Store) (b : LikeBody) (ty : String) (u : Int)
    (v c r : Option Int) (hut : b.userId.truthy = true)
    (hres : resolveTarget s b = .ok (true, ty)) (hargs : likeArgs b = some (u, v, c, r))
    (hkeys : s.likeKeysOk) :
    ((∃ l ∈ s.likes, likeOfUserOnTarget u v c r l = true) →
      ∃ e ∈ s.likes, likeOfUserOnTarget u v c r e = true ∧
        (likeHandler s b).1.likes = s.likes.erase e ∧
        (likeHandler s b).2 = .ok "removed" false
          (((likeHandler s b).1.likes.filter (likeOnTarget v c r)).length) ty) ∧
    ((∀ l ∈ s.likes, likeOfUserOnTarget u v c r l = false) →
      b.typeOk → (s.findUser u).isSome = true → fkOk s.findVideo v = true →
      fkOk s.findComment c = true → fkOk s.findReply r = true →
        (likeHandler s b).1.likes = s.likes ++
          [{ id := s.likeSeq, type := b.likeType, userId := u, videoId := v, commentId := c,
             replyId := r }] ∧
        (likeHandler s b).2 = .ok "created" true
          (((likeHandler s b).1.likes.filter (likeOnTarget v c r)).length) ty) := by
  have hh := likeHandler_resolved hut hres hargs
  constructor
  · rintro ⟨l, hl, hm⟩
    cases hf : s.likes.find? (likeOfUserOnTarget u v c r) with
    | none =>
      rw [List.find?_eq_none] at hf
      exact absurd hm (hf l hl)
    | some e =>
      have he : e ∈ s.likes := List.mem_of_find?_eq_some hf
      have hp : likeOfUserOnTarget u v c r e = true := List.find?_some hf
      rw [hf] at hh
      refine ⟨e, he, hp, ?_, ?_⟩
      · rw [hh]
        exact filter_id_ne_eq_erase hkeys.1 he
      · rw [hh]
        rfl
  · intro hnone hty hu hv hc hr
    have hf : s.likes.find? (likeOfUserOnTarget u v c r) = none := by
      rw [List.find?_eq_none]
      intro l hl
      simp [hnone l hl]
    rw [hf] at hh
    simp only [createLike_ok hty hu hv hc hr] at hh
    rw [hh]
    exact ⟨rfl, rfl⟩

/-- C2 on the scenario store: the first like of comment 42 by user 1 is
created, with type `LIKE`. -/
theorem like_toggle_step_witness :
    (likeHandler likeScenarioStore likeScenarioBody).1.likes =
      [{ id := 1, type := .LIKE, userId := 1, videoId := none, commentId := some 42,
         replyId := none }] ∧
    (likeHandler likeScenarioStore likeScenarioBody).2 = .ok "created" true 1 "COMMENT" := by
  have hres : resolveTarget likeScenarioStore likeScenarioBody = .ok (true, "COMMENT") := by
    rw [resolveTarget_names likeScenarioBody_names]
    rfl
  have h := (like_toggle_step likeScenarioStore likeScenarioBody "COMMENT" 1 none (some 42)
    none (by decide) hres (likeArgs_names likeScenarioBody_names) (by decide)).2
    (by decide) (Or.inr (Or.inl rfl)) (by decide) (by decide) (by decide) (by decide)
  refine ⟨h.1, ?_⟩
  rw [h.2, h.1]
  rfl

/-- C3. A like request that names a user and one target that is not in the
store is answered 404 `TARGET_NOT_FOUND`, and the store is unchanged. -/
theorem like_target_not_found (s : Store) (b : LikeBody) (u : Int) (T : Target)
    (hb : b.names u T) (hT : T.existsIn s = false) :
    (likeHandler s b).2 = .targetNotFound ∧ (likeHandler s b).2.status = 404 ∧
      (likeHandler s b).1 = s := by
  have hres : resolveTarget s b = .ok (false, T.kind) := by
    rw [resolveTarget_names hb, hT]
  have hsome : (!b.videoId.truthy && !b.commentId.truthy && !b.replyId.truthy) = false := by
    obtain ⟨-, -, hv, hc, hr⟩ := hb
    cases T with
    | video id => simp [(idArg_eq_id hv).1]
    | comment id => simp [(idArg_eq_id hc).1]
    | reply id => simp [(idArg_eq_id hr).1]
  have h : likeHandler s b = (s, .targetNotFound) := by
    unfold likeHandler
    rw [hsome, hb.1, hres]
    simp
  rw [h]
  exact ⟨rfl, rfl, rfl⟩

/-- C3 on the scenario store: user 1 likes reply 9, which does not exist. -/
theorem like_target_not_found_witness :
    (likeHandler likeScenarioStore { userId := .num 1, replyId := .str "9" }).2
        = .targetNotFound ∧
      (likeHandler likeScenarioStore { userId := .num 1, replyId := .str "9" }).2.status = 404 ∧
      (likeHandler likeScenarioStore { userId := .num 1, replyId := .str "9" }).1
        = likeScenarioStore :=
  like_target_not_found likeScenarioStore { userId := .num 1, replyId := .str "9" } 1
    (.reply 9) ⟨by decide, parseInt_num_one, by decide, by decide, by decide⟩ (by decide)

/-- C4, at the failing input: on the scenario store the request with both
`videoId: 5` and `commentId: 42` is answered `created` for type `COMMENT`, and
the row it creates points at two targets, the video and the comment. -/
theorem like_two_targets_row :
    (likeHandler likeScenarioStore twoTargetBody).2 = .ok "created" true 1 "COMMENT" ∧
    (likeHandler likeScenarioStore twoTargetBody).1.likes =
      [{ id := 1, type := .LIKE, userId := 1, videoId := some 5, commentId := some 42,
         replyId := none }] := by
  have hc : idArg (.num 42) = .id 42 := idArg_of_parse (by decide) parseInt_num_fortyTwo
  have hv : idArg (.num 5) = .id 5 := idArg_of_parse (by decide) parseInt_num_five
  have hres : resolveTarget likeScenarioStore twoTargetBody = .ok (true, "COMMENT") := by
    have ht : twoTargetBody.commentId.truthy = true := by decide
    have hp : parseInt twoTargetBody.commentId = some 42 := parseInt_num_fortyTwo
    unfold resolveTarget
    rw [ht, hp]
    rfl
  have hargs : likeArgs twoTargetBody = some (1, some 5, some 42, none) := by
    have h1 : parseInt twoTargetBody.userId = some 1 := parseInt_num_one
    have h2 : idArg twoTargetBody.videoId = .id 5 := hv
    have h3 : idArg twoTargetBody.commentId = .id 42 := hc
    have h4 : idArg twoTargetBody.replyId = .null := by decide
    simp only [likeArgs, h1, h2, h3, h4, IdArg.check]
  have hh := likeHandler_resolved (s := likeScenarioStore) (by decide) hres hargs
  have hf : likeScenarioStore.likes.find? (likeOfUserOnTarget 1 (some 5) (some 42) none)
      = none := by decide
  rw [hf] at hh
  simp only [createLike_ok (s := likeScenarioStore) (b := twoTargetBody) (u := 1)
    (v := some 5) (c := some 42) (r := none) (Or.inl (by decide)) (by decide) (by decide)
    (by decide) (by decide)] at hh
  rw [hh]
  exact ⟨rfl, rfl⟩

theorem createLike_likes {s s1 : Store} {type : JsVal} {u : Int} {v c r : Option Int}
    (h : s.createLike type u v c r = .ok s1) :
    ∃ t, s1.likes = s.likes ++
      [{ id := s.likeSeq, type := t, userId := u, videoId := v, commentId := c,
         replyId := r }] := by
  unfold Store.createLike at h
  split at h
  · cases h
  · rename_i t ht
    split at h
    · cases h
      exact ⟨t, rfl⟩
    · cases h

/-- C5. Run one after the other, like requests keep the at-most-one invariant:
if no two Like rows share `(userId, videoId, commentId, replyId)` before a
call, none do after it, for every request body. -/
theorem like_preserves_at_most_one (s : Store) (b : LikeBody) (h : s.likesAtMostOne) :
    (likeHandler s b).1.likesAtMostOne := by
  unfold likeHandler
  split
  · exact h
  · split
    · exact h
    · split
      · exact h
      · split
        · exact h
        · rename_i u v c r _
          split
          · exact List.Pairwise.sublist (List.filter_sublist _) h
          · rename_i hfind
            split
            · exact h
            · rename_i s1 hcreate
              obtain ⟨t, hs1⟩ := createLike_likes hcreate
              unfold Store.likesAtMostOne
              rw [hs1, List.pairwise_append]
              refine ⟨h, List.pairwise_singleton _ _, ?_⟩
              intro a ha x hx
              rw [List.mem_singleton] at hx
              subst hx
              rw [List.find?_eq_none] at hfind
              intro hk
              apply hfind a ha
              obtain ⟨h1, h2, h3, h4⟩ := hk
              simp only [likeOfUserOnTarget, likeOnTarget, Bool.and_eq_true, decide_eq_true_eq]
              exact ⟨h1, ⟨h2, h3⟩, h4⟩

/-- C5 on the scenario store with one like in it: a second like request of the
same user on the same comment does not add a second row. -/
theorem like_preserves_at_most_one_witness :
    (likeHandler (likeHandler likeScenarioStore likeScenarioBody).1
      likeScenarioBody).1.likesAtMostOne :=
  like_preserves_at_most_one (likeHandler likeScenarioStore likeScenarioBody).1
    likeScenarioBody
    (like_preserves_at_most_one likeScenarioStore likeScenarioBody (by decide))

/-! ## Facts about the rate handler -/

/-- C6. A rate request whose value is a number below 1 or above 10 is answered
400 and changes nothing, whatever `userId` and `videoId` are and whether or
not the video exists: the range check comes before every lookup. -/
theorem rate_out_of_range (now : Int) (s : Store) (b : RateBody) (q : ℚ)
    (hv : b.value = .num q) (hq : q < 1 ∨ 10 < q) :
    (rateHandler now s b).2 = .invalidRating ∧ (rateHandler now s b).2.status = 400 ∧
      (rateHandler now s b).1 = s := by
  have hcheck : ((toNumber b.value).lt (.fin 1) || (JsNum.fin 10).lt (toNumber b.value))
      = true := by
    rw [hv]
    simp only [toNumber, JsNum.lt, Bool.or_eq_true, decide_eq_true_eq]
    exact hq
  have h : rateHandler now s b = (s, .invalidRating) := by
    unfold rateHandler
    rw [hcheck]
    rfl
  rw [h]
  exact ⟨rfl, rfl, rfl⟩

/-- C6 at concrete inputs: value 11 for a video that does not exist, in the
empty store. -/
theorem rate_out_of_range_witness :
    (rateHandler 0 {} { userId := .num 7, videoId := .num 100, value := .num 11 }).2
        = .invalidRating ∧
      (rateHandler 0 {} { userId := .num 7, videoId := .num 100, value := .num 11 }).2.status
        = 400 ∧
      (rateHandler 0 {} { userId := .num 7, videoId := .num 100, value := .num 11 }).1 = {} :=
  rate_out_of_range 0 {} { userId := .num 7, videoId := .num 100, value := .num 11 } 11 rfl
    (Or.inr (by norm_num))

theorem parseInt_num_seven : parseInt (.num 7) = some 7 := by
  norm_num [parseInt, parseIntNum]

theorem parseInt_num_hundred : parseInt (.num 100) = some 100 := by
  norm_num [parseInt, parseIntNum]

theorem toNumber_str_100em1 : toNumber (.str "100e-1") = .fin 10 := by
  simp [toNumber, stringToNumber, trimWs, nonDecimalInteger, strUnsignedDecimal, isDecDigit,
    isRadixDigit, digitOf, isStrWhiteSpaceChar, parseExponent, digitsValue, scale10]
  norm_num

/-- C7, at the failing input: the string value `"100e-1"` is the number 10 for
the range check (`"100e-1" < 1` and `"100e-1" > 10` are both false) and
`parseInt("100e-1")` is 100, so the request is answered 200 and the value
stored for (7, 100) is 100. -/
theorem rate_string_value_stored :
    (rateHandler 0 rateScenarioStore
      { userId := .num 7, videoId := .num 100, value := .str "100e-1" }).2.status = 200 ∧
    (rateHandler 0 rateScenarioStore
      { userId := .num 7, videoId := .num 100, value := .str "100e-1" }).1.ratings =
      [{ id := 1, value := 100, userId := 7, videoId := 100, createdAt := 0,
         updatedAt := 0 }] := by
  have hp : parseInt (.str "100e-1") = some 100 := by decide
  have hcheck : ((toNumber (.str "100e-1")).lt (.fin 1)
      || (JsNum.fin 10).lt (toNumber (.str "100e-1"))) = false := by
    rw [toNumber_str_100em1]
    simp [JsNum.lt]
  have h : rateHandler 0 rateScenarioStore
      { userId := .num 7, videoId := .num 100, value := .str "100e-1" } =
      ({ rateScenarioStore with
          ratings := [{ id := 1, value := 100, userId := 7, videoId := 100, createdAt := 0,
                        updatedAt := 0 }]
          ratingSeq := 2 },
        .ok { id := 1, value := 100, userId := 7, videoId := 100, createdAt := 0,
              updatedAt := 0 }
          (roundedAverage [{ id := 1, value := 100, userId := 7, videoId := 100,
                             createdAt := 0, updatedAt := 0 }]) 1) := by
    unfold rateHandler
    simp only [hcheck, parseInt_num_hundred, parseInt_num_seven, hp]
    rfl
  rw [h]
  exact ⟨rfl, rfl⟩

theorem ratingOf_setRating (now u v x : Int) (u1 v1 : Int) (r : Rating) :
    ratingOf u1 v1 (setRating now u v x r) = ratingOf u1 v1 r := by
  unfold setRating
  split <;> rfl

theorem filter_unique_le_one {l : List Rating} {u v : Int}
    (h : l.Pairwise (fun a b => ¬ sameRatingKey a b)) :
    (l.filter (ratingOf u v)).length ≤ 1 := by
  induction l with
  | nil => simp
  | cons a t ih =>
    rw [List.pairwise_cons] at h
    obtain ⟨ha, ht⟩ := h
    by_cases hm : ratingOf u v a = true
    · have hnone : t.filter (ratingOf u v) = [] := by
        rw [List.filter_eq_nil_iff]
        intro b hb hbm
        apply ha b hb
        simp only [ratingOf, Bool.and_eq_true, decide_eq_true_eq] at hm hbm
        exact ⟨hm.1.trans hbm.1.symm, hm.2.trans hbm.2.symm⟩
      simp [List.filter_cons, hm, hnone]
    · simp only [List.filter_cons, hm]
      exact ih ht

/-- The rate handler once the range check and the video lookup have passed. -/
theorem rateHandler_checked (now : Int) {s : Store} {b : RateBody} {q : ℚ} {v : Int}
    {vid : Video} (hn : toNumber b.value = .fin q) (h1 : 1 ≤ q) (h10 : q ≤ 10)
    (hv : parseInt b.videoId = some v) (hvid : s.findVideo v = some vid) :
    rateHandler now s b =
      match s.upsertRating now (parseInt b.userId) (some v) (parseInt b.value) with
      | .error _ => (s, .failed)
      | .ok (s1, rating) =>
        (s1, .ok rating (roundedAverage (s1.ratingsOfVideo v)) (s1.ratingsOfVideo v).length) := by
  have hcheck : ((toNumber b.value).lt (.fin 1) || (JsNum.fin 10).lt (toNumber b.value))
      = false := by
    rw [hn]
    simp only [JsNum.lt, Bool.or_eq_false_iff, decide_eq_false_iff_not, not_lt]
    exact ⟨h1, h10⟩
  unfold rateHandler
  rw [hcheck, hv]
  simp only [hvid]
  rfl

theorem upsertRating_update {now : Int} {s : Store} {u v x : Int} {old : Rating}
    (hf : s.ratings.find? (ratingOf u v) = some old) :
    s.upsertRating now (some u) (some v) (some x) =
      .ok ({ s with ratings := s.ratings.map (setRating now u v x) },
           { old with value := x, updatedAt := now }) := by
  simp only [Store.upsertRating, hf]

theorem upsertRating_create {now : Int} {s : Store} {u v x : Int}
    (hf : s.ratings.find? (ratingOf u v) = none) (hu : (s.findUser u).isSome = true)
    (hvid : (s.findVideo v).isSome = true) :
    s.upsertRating now (some u) (some v) (some x) =
      .ok ({ s with
              ratings := s.ratings ++ [{ id := s.ratingSeq, value := x, userId := u,
                                         videoId := v, createdAt := now, updatedAt := now }]
              ratingSeq := s.ratingSeq + 1 },
           { id := s.ratingSeq, value := x, userId := u, videoId := v, createdAt := now,
             updatedAt := now }) := by
  simp only [Store.upsertRating, hf, hu, hvid, Bool.and_self, if_true]

/-- What the upsert does to the table: it succeeds for an existing user and
video, leaves exactly one row of the key, with the new value, leaves the rows
of other keys alone, and keeps the key unique. -/
theorem upsertRating_spec (now : Int) {s : Store} {u v x : Int}
    (hu : (s.findUser u).isSome = true) (hvid : (s.findVideo v).isSome = true)
    (huniq : s.ratingsUnique) :
    ∃ s1 rating, s.upsertRating now (some u) (some v) (some x) = .ok (s1, rating) ∧
      s1.users = s.users ∧ s1.videos = s.videos ∧
      (∃ r, s1.ratings.filter (ratingOf u v) = [r] ∧ r.value = x) ∧
      s1.ratings.filter (fun r => !ratingOf u v r) = s.ratings.filter (fun r => !ratingOf u v r) ∧
      s1.ratingsUnique := by
  cases hf : s.ratings.find? (ratingOf u v) with
  | some old =>
    refine ⟨_, _, upsertRating_update hf, rfl, rfl, ?_, ?_, ?_⟩
    · have hmem : old ∈ s.ratings.filter (ratingOf u v) :=
        List.mem_filter.mpr ⟨List.mem_of_find?_eq_some hf, List.find?_some hf⟩
      have hle := filter_unique_le_one (u := u) (v := v) huniq
      have hone : ∃ a, s.ratings.filter (ratingOf u v) = [a] := by
        match hl : s.ratings.filter (ratingOf u v) with
        | [] => rw [hl] at hmem; cases hmem
        | [a] => exact ⟨a, rfl⟩
        | _ :: _ :: _ => rw [hl] at hle; simp at hle
      obtain ⟨a, ha⟩ := hone
      have hma : ratingOf u v a = true := by
        have : a ∈ s.ratings.filter (ratingOf u v) := by rw [ha]; simp
        exact (List.mem_filter.mp this).2
      refine ⟨setRating now u v x a, ?_, ?_⟩
      · show (s.ratings.map (setRating now u v x)).filter (ratingOf u v) = _
        rw [List.filter_map]
        have hcomp : (ratingOf u v ∘ setRating now u v x) = ratingOf u v := by
          funext r
          exact ratingOf_setRating now u v x u v r
        rw [hcomp, ha]
        rfl
      · simp [setRating, hma]
    · show (s.ratings.map (setRating now u v x)).filter (fun r => !ratingOf u v r) = _
      rw [List.filter_map]
      have hcomp : ((fun r => !ratingOf u v r) ∘ setRating now u v x)
          = (fun r => !ratingOf u v r) := by
        funext r
        simp only [Function.comp, ratingOf_setRating]
      rw [hcomp]
      have hid : ∀ r ∈ s.ratings.filter (fun r => !ratingOf u v r),
          setRating now u v x r = id r := by
        intro r hr
        have : ratingOf u v r = false := by simpa using (List.mem_filter.mp hr).2
        simp [setRating, this]
      rw [List.map_congr_left hid, List.map_id]
    · show (s.ratings.map (setRating now u v x)).Pairwise _
      rw [List.pairwise_map]
      refine List.Pairwise.imp ?_ huniq
      intro a b hab hk
      apply hab
      unfold sameRatingKey at hk ⊢
      unfold setRating at hk
      split at hk <;> split at hk <;> exact hk
  | none =>
    have hnone : s.ratings.filter (ratingOf u v) = [] := by
      rw [List.filter_eq_nil_iff]
      rw [List.find?_eq_none] at hf
      exact hf
    refine ⟨_, _, upsertRating_create hf hu hvid, rfl, rfl, ?_, ?_, ?_⟩
    · refine ⟨{ id := s.ratingSeq, value := x, userId := u, videoId := v, createdAt := now,
                updatedAt := now }, ?_, rfl⟩
      simp [List.filter_append, hnone, ratingOf]
    · simp [List.filter_append, ratingOf]
    · show (s.ratings ++ [_]).Pairwise _
      rw [List.pairwise_append]
      refine ⟨huniq, List.pairwise_singleton _ _, ?_⟩
      intro a ha b hb hk
      rw [List.mem_singleton] at hb
      subst hb
      rw [List.find?_eq_none] at hf
      apply hf a ha
      simp only [ratingOf, Bool.and_eq_true, decide_eq_true_eq]
      exact hk

/-- One accepted rate request of an existing user for an existing video: the
answer is 200 and the table is what `upsertRating_spec` says. -/
theorem rateHandler_accepted (now : Int) {s : Store} {b : RateBody} {u v x : Int}
    (hu : parseInt b.userId = some u) (hv : parseInt b.videoId = some v)
    (hn : toNumber b.value = .fin (x : ℚ)) (hx : parseInt b.value = some x)
    (hr : 1 ≤ x ∧ x ≤ 10) (huser : (s.findUser u).isSome = true)
    (hvideo : (s.findVideo v).isSome = true) (huniq : s.ratingsUnique) :
    (rateHandler now s b).2.status = 200 ∧
      (rateHandler now s b).1.users = s.users ∧ (rateHandler now s b).1.videos = s.videos ∧
      (∃ r, (rateHandler now s b).1.ratings.filter (ratingOf u v) = [r] ∧ r.value = x) ∧
      (rateHandler now s b).1.ratings.filter (fun r => !ratingOf u v r)
        = s.ratings.filter (fun r => !ratingOf u v r) ∧
      (rateHandler now s b).1.ratingsUnique := by
  obtain ⟨vid, hvid⟩ := Option.isSome_iff_exists.mp hvideo
  have h1 : (1 : ℚ) ≤ (x : ℚ) := by exact_mod_cast hr.1
  have h10 : (x : ℚ) ≤ 10 := by exact_mod_cast hr.2
  obtain ⟨s1, rating, hup, hus, hvs, hone, hoth, hun⟩ :=
    upsertRating_spec now (x := x) huser hvideo huniq
  have h := rateHandler_checked now hn h1 h10 hv hvid
  rw [hu, hx, hup] at h
  rw [h]
  exact ⟨rfl, hus, hvs, hone, hoth, hun⟩

/-- C8. A rate request of an existing user `u` for an existing video `v` with a
value `x` in [1,10], on a store where `(userId, videoId)` is unique, is
answered 200; afterwards there is exactly one Rating row for `(u, v)`, its
value is `x`, and the rows of every other pair are as before.  A second such
request with value `x2` again leaves exactly one row for `(u, v)`, with value
`x2`. -/
theorem rate_upsert (now : Int) (s : Store) (b : RateBody) (u v x : Int)
    (hu : parseInt b.userId = some u) (hv : parseInt b.videoId = some v)
    (hn : toNumber b.value = .fin (x : ℚ)) (hx : parseInt b.value = some x)
    (hr : 1 ≤ x ∧ x ≤ 10) (huser : (s.findUser u).isSome = true)
    (hvideo : (s.findVideo v).isSome = true) (huniq : s.ratingsUnique) :
    (rateHandler now s b).2.status = 200 ∧
      (∃ r, (rateHandler now s b).1.ratings.filter (ratingOf u v) = [r] ∧ r.value = x) ∧
      (rateHandler now s b).1.ratings.filter (fun r => !ratingOf u v r)
        = s.ratings.filter (fun r => !ratingOf u v r) ∧
      ∀ (now2 : Int) (b2 : RateBody) (x2 : Int),
        parseInt b2.userId = some u → parseInt b2.videoId = some v →
        toNumber b2.value = .fin (x2 : ℚ) → parseInt b2.value = some x2 →
        1 ≤ x2 ∧ x2 ≤ 10 →
        (rateHandler now2 (rateHandler now s b).1 b2).2.status = 200 ∧
        ∃ r, (rateHandler now2 (rateHandler now s b).1 b2).1.ratings.filter (ratingOf u v)
          = [r] ∧ r.value = x2 := by
  obtain ⟨hst, hus, hvs, hone, hoth, hun⟩ :=
    rateHandler_accepted now hu hv hn hx hr huser hvideo huniq
  refine ⟨hst, hone, hoth, ?_⟩
  intro now2 b2 x2 hu2 hv2 hn2 hx2 hr2
  have huser2 : ((rateHandler now s b).1.findUser u).isSome = true := by
    unfold Store.findUser
    rw [hus]
    exact huser
  have hvideo2 : ((rateHandler now s b).1.findVideo v).isSome = true := by
    unfold Store.findVideo
    rw [hvs]
    exact hvideo
  obtain ⟨hst2, -, -, hone2, -, -⟩ :=
    rateHandler_accepted now2 hu2 hv2 hn2 hx2 hr2 huser2 hvideo2 hun
  exact ⟨hst2, hone2⟩

theorem parseInt_num_eight : parseInt (.num 8) = some 8 := by
  norm_num [parseInt, parseIntNum]

theorem parseInt_num_three : parseInt (.num 3) = some 3 := by
  norm_num [parseInt, parseIntNum]

/-- C8, the concrete scenario: `rateVideo(7, 100, 8)` then `rateVideo(7, 100, 3)`
leaves one row for (7, 100), with value 3. -/
theorem rate_upsert_witness :
    (rateHandler 1 (rateHandler 0 rateScenarioStore
        { userId := .num 7, videoId := .num 100, value := .num 8 }).1
        { userId := .num 7, videoId := .num 100, value := .num 3 }).2.status = 200 ∧
    ∃ r, (rateHandler 1 (rateHandler 0 rateScenarioStore
        { userId := .num 7, videoId := .num 100, value := .num 8 }).1
        { userId := .num 7, videoId := .num 100, value := .num 3 }).1.ratings.filter
          (ratingOf 7 100) = [r] ∧ r.value = 3 :=
  (rate_upsert 0 rateScenarioStore { userId := .num 7, videoId := .num 100, value := .num 8 }
    7 100 8 parseInt_num_seven parseInt_num_hundred (by simp [toNumber]) parseInt_num_eight
    (by decide) (by decide) (by decide) (by decide)).2.2.2
    1 { userId := .num 7, videoId := .num 100, value := .num 3 } 3
    parseInt_num_seven parseInt_num_hundred (by simp [toNumber]) parseInt_num_three (by decide)

theorem foldl_add_value (l : List Rating) (a : Int) :
    l.foldl (fun sum r => sum + r.value) a = a + (l.map (fun r => r.value)).sum := by
  induction l generalizing a with
  | nil => simp
  | cons r t ih =>
    rw [List.foldl_cons, ih, List.map_cons, List.sum_cons]
    ring

theorem roundedAverage_eq (l : List Rating) :
    roundedAverage l =
      ((⌊10 * (((l.map (fun r => r.value)).sum : Int) : ℚ) / (l.length : ℚ) + 1 / 2⌋ : Int) : ℚ)
        / 10 := by
  unfold roundedAverage mathRound
  rw [foldl_add_value, zero_add]
  have h : ((((l.map (fun r => r.value)).sum : Int) : ℚ) / (l.length : ℚ)) * 10
      = 10 * (((l.map (fun r => r.value)).sum : Int) : ℚ) / (l.length : ℚ) := by
    ring
  simp only [h]

/-- A first rating of `v` by the caller appends one row to the ratings of `v`. -/
theorem rateHandler_first {s : Store} {v : Int} {c : RateCall} (hc : c.rates s v)
    (hvideo : (s.findVideo v).isSome = true)
    (hnew : ∀ r ∈ s.ratingsOfVideo v, r.userId ≠ c.user) :
    ∃ row : Rating, row.value = c.value ∧ row.userId = c.user ∧
      (rateHandler c.now s c.body).1.ratingsOfVideo v = s.ratingsOfVideo v ++ [row] ∧
      (rateHandler c.now s c.body).1.users = s.users ∧
      (rateHandler c.now s c.body).1.videos = s.videos ∧
      (rateHandler c.now s c.body).2 =
        .ok row (roundedAverage (s.ratingsOfVideo v ++ [row]))
          (s.ratingsOfVideo v ++ [row]).length := by
  obtain ⟨hu, hv, hn, hx, hr, huser⟩ := hc
  obtain ⟨vid, hvid⟩ := Option.isSome_iff_exists.mp hvideo
  have h1 : (1 : ℚ) ≤ (c.value : ℚ) := by exact_mod_cast hr.1
  have h10 : (c.value : ℚ) ≤ 10 := by exact_mod_cast hr.2
  have hf : s.ratings.find? (ratingOf c.user v) = none := by
    rw [List.find?_eq_none]
    intro r hr hm
    simp only [ratingOf, Bool.and_eq_true, decide_eq_true_eq] at hm
    exact hnew r (List.mem_filter.mpr ⟨hr, by simpa using hm.2⟩) hm.1
  have h := rateHandler_checked c.now hn h1 h10 hv hvid
  rw [hu, hx, upsertRating_create hf huser hvideo] at h
  have hrows : ({ s with
      ratings := s.ratings ++ [{ id := s.ratingSeq, value := c.value, userId := c.user,
                                 videoId := v, createdAt := c.now, updatedAt := c.now }]
      ratingSeq := s.ratingSeq + 1 } : Store).ratingsOfVideo v =
      s.ratingsOfVideo v ++ [{ id := s.ratingSeq, value := c.value, userId := c.user,
                               videoId := v, createdAt := c.now, updatedAt := c.now }] := by
    simp [Store.ratingsOfVideo, List.filter_append]
  refine ⟨{ id := s.ratingSeq, value := c.value, userId := c.user, videoId := v,
            createdAt := c.now, updatedAt := c.now }, rfl, rfl, ?_, ?_, ?_, ?_⟩
  · rw [h]
    exact hrows
  · rw [h]
  · rw [h]
  · rw [h]
    simp only [hrows]

theorem rateAll_last {v : Int} (calls : List RateCall) :
    ∀ s : Store, (s.findVideo v).isSome = true → (∀ c ∈ calls, c.rates s v) →
      (calls.map (fun c => c.user)).Nodup →
      (∀ r ∈ s.ratingsOfVideo v, r.userId ∉ calls.map (fun c => c.user)) → calls ≠ [] →
      ∃ (rating : Rating) (l : List Rating),
        (rateAll s (calls.map (fun c => (c.now, c.body)))).2.getLast?
          = some (.ok rating (roundedAverage l) l.length) ∧
        l.map (fun r => r.value) =
          (s.ratingsOfVideo v).map (fun r => r.value) ++ calls.map (fun c => c.value) := by
  induction calls with
  | nil => intro s _ _ _ _ hne; exact absurd rfl hne
  | cons c rest ih =>
    intro s hvideo hcalls hd hfresh _
    rw [List.map_cons, List.nodup_cons] at hd
    have hnew : ∀ r ∈ s.ratingsOfVideo v, r.userId ≠ c.user := by
      intro r hr heq
      exact hfresh r hr (by simp [heq])
    obtain ⟨row, hval, huid, hrows, hus, hvs, hresp⟩ :=
      rateHandler_first (hcalls c (List.mem_cons_self _ _)) hvideo hnew
    by_cases hrest : rest = []
    · subst hrest
      refine ⟨row, s.ratingsOfVideo v ++ [row], ?_, ?_⟩
      · simp [rateAll, hresp]
      · simp [hval]
    · have hvideo1 : ((rateHandler c.now s c.body).1.findVideo v).isSome = true := by
        unfold Store.findVideo
        rw [hvs]
        exact hvideo
      have hcalls1 : ∀ d ∈ rest, d.rates (rateHandler c.now s c.body).1 v := by
        intro d hdm
        obtain ⟨a1, a2, a3, a4, a5, a6⟩ := hcalls d (List.mem_cons_of_mem _ hdm)
        refine ⟨a1, a2, a3, a4, a5, ?_⟩
        unfold Store.findUser
        rw [hus]
        exact a6
      have hfresh1 : ∀ r ∈ (rateHandler c.now s c.body).1.ratingsOfVideo v,
          r.userId ∉ rest.map (fun c => c.user) := by
        intro r hr
        rw [hrows, List.mem_append, List.mem_singleton] at hr
        rcases hr with hr | hr
        · intro hmem
          exact hfresh r hr (List.mem_cons_of_mem _ hmem)
        · rw [hr, huid]
          exact hd.1
      obtain ⟨rating, l, hlast, hl⟩ :=
        ih (rateHandler c.now s c.body).1 hvideo1 hcalls1 hd.2 hfresh1 hrest
      refine ⟨rating, l, ?_, ?_⟩
      · simp only [List.map_cons, rateAll]
        rw [List.getLast?_cons, hlast]
        rfl
      · rw [hl, hrows]
        simp [hval]

/-- The row an upsert wrote is among the ratings of its video. -/
theorem upsertRating_nonempty {now : Int} {s s1 : Store} {u x : Option Int} {v : Int}
    {rating : Rating} (h : s.upsertRating now u (some v) x = .ok (s1, rating)) :
    1 ≤ (s1.ratingsOfVideo v).length := by
  have hex : ∃ r ∈ s1.ratings, r.videoId = v := by
    cases u with
    | none => simp [Store.upsertRating] at h
    | some u1 =>
      cases x with
      | none => simp [Store.upsertRating] at h
      | some x1 =>
        cases hf : s.ratings.find? (ratingOf u1 v) with
        | some old =>
          rw [upsertRating_update hf] at h
          cases h
          have hm := List.mem_of_find?_eq_some hf
          have hk := List.find?_some hf
          simp only [ratingOf, Bool.and_eq_true, decide_eq_true_eq] at hk
          refine ⟨setRating now u1 v x1 old, List.mem_map.mpr ⟨old, hm, rfl⟩, ?_⟩
          unfold setRating
          split
          · exact hk.2
          · exact hk.2
        | none =>
          by_cases hfk : ((s.findUser u1).isSome && (s.findVideo v).isSome) = true
          · simp only [Bool.and_eq_true] at hfk
            rw [upsertRating_create hf hfk.1 hfk.2] at h
            cases h
            exact ⟨_, List.mem_append_right _ (List.mem_singleton.mpr rfl), rfl⟩
          · simp [Store.upsertRating, hf, hfk] at h
  obtain ⟨r, hr, hv⟩ := hex
  have hmem : r ∈ s1.ratingsOfVideo v := List.mem_filter.mpr ⟨hr, by simpa using hv⟩
  exact List.length_pos_of_mem hmem

/-- Every 200 answer of the rate handler reports a count of at least 1: the
divisor of the average is never zero. -/
theorem rateHandler_count_pos {now : Int} {s : Store} {b : RateBody} {rating : Rating}
    {average : ℚ} {count : Nat} (h : (rateHandler now s b).2 = .ok rating average count) :
    1 ≤ count := by
  unfold rateHandler at h
  split at h
  · cases h
  · split at h
    · cases h
    · split at h
      · cases h
      · split at h
        · cases h
        · rename_i hup
          simp only [RateResp.ok.injEq] at h
          rw [← h.2.2]
          exact upsertRating_nonempty hup

/-- C9. Starting from a store without ratings of video `v`, after `N ≥ 1`
distinct existing users have rated `v` with integer values in [1,10], the
answer of the last call reports `count = N` and
`average = ⌊10 · (v₁ + … + v_N) / N + 1/2⌋ / 10`, the mean rounded half-up to
one decimal over exact rationals.  The divisor is never zero: every 200 answer
of the handler, in every store, reports a count of at least 1. -/
theorem rate_average (s : Store) (v : Int) (calls : List RateCall)
    (hvideo : (s.findVideo v).isSome = true) (hcalls : ∀ c ∈ calls, c.rates s v)
    (hdistinct : (calls.map (fun c => c.user)).Nodup)
    (hfresh : ∀ r ∈ s.ratings, r.videoId ≠ v) (hne : calls ≠ []) :
    (∀ (now : Int) (s1 : Store) (b : RateBody) (rating : Rating) (average : ℚ) (count : Nat),
      (rateHandler now s1 b).2 = .ok rating average count → 1 ≤ count) ∧
    ∃ rating : Rating,
      (rateAll s (calls.map (fun c => (c.now, c.body)))).2.getLast? =
        some (.ok rating
          (((⌊10 * (((calls.map (fun c => c.value)).sum : Int) : ℚ) / (calls.length : ℚ)
              + 1 / 2⌋ : Int) : ℚ) / 10)
          calls.length) := by
  have hbase : s.ratingsOfVideo v = [] := by
    unfold Store.ratingsOfVideo
    rw [List.filter_eq_nil_iff]
    intro r hr
    simpa using hfresh r hr
  have hfresh0 : ∀ r ∈ s.ratingsOfVideo v, r.userId ∉ calls.map (fun c => c.user) := by
    intro r hr
    rw [hbase] at hr
    cases hr
  obtain ⟨rating, l, hlast, hl⟩ := rateAll_last calls s hvideo hcalls hdistinct hfresh0 hne
  rw [hbase, List.map_nil, List.nil_append] at hl
  have hlen : l.length = calls.length := by
    have := congrArg List.length hl
    simpa using this
  refine ⟨?_, rating, ?_⟩
  · intro now s1 b rating1 average count hok
    exact rateHandler_count_pos hok
  · rw [hlast, roundedAverage_eq, hl, hlen]

theorem threeRatings_rate : ∀ c ∈ threeRatings, c.rates threeRatersStore 100 := by
  intro c hc
  simp only [threeRatings, List.mem_cons, List.mem_singleton, List.not_mem_nil, or_false] at hc
  rcases hc with rfl | rfl | rfl <;> refine ⟨?_, ?_, ?_, ?_, ?_, ?_⟩ <;>
    first
      | decide
      | norm_num [parseInt, parseIntNum, toNumber]

/-- C9 at concrete inputs: ratings 8, 9, 9 by three users give count 3 and
average 8.7 (26/3 = 8.66…, rounded to one decimal). -/
theorem rate_average_witness :
    ∃ rating : Rating,
      (rateAll threeRatersStore (threeRatings.map (fun c => (c.now, c.body)))).2.getLast? =
        some (.ok rating (87 / 10) 3) := by
  obtain ⟨-, rating, h⟩ := rate_average threeRatersStore 100 threeRatings (by decide)
    threeRatings_rate (by decide) (by decide) (List.cons_ne_nil _ _)
  refine ⟨rating, ?_⟩
  rw [h]
  have hfloor : ⌊10 * (((threeRatings.map (fun c => c.value)).sum : Int) : ℚ)
      / (threeRatings.length : ℚ) + 1 / 2⌋ = 87 := by
    rw [Int.floor_eq_iff]
    norm_num [threeRatings]
  rw [hfloor]
  norm_num [threeRatings]

/-! ## Facts about the reply thread -/

theorem find?_key_of_mem {α : Type} (key : α → Int) {l : List α}
    (hnd : (l.map key).Nodup) {a : α} (ha : a ∈ l) :
    l.find? (fun x => decide (key x = key a)) = some a := by
  induction l with
  | nil => cases ha
  | cons b t ih =>
    rw [List.map_cons, List.nodup_cons] at hnd
    by_cases hba : b = a
    · subst hba
      simp [List.find?_cons]
    · have hat : a ∈ t := by
        rcases List.mem_cons.mp ha with h | h
        · exact absurd h.symm hba
        · exact h
      have hk : key b ≠ key a := by
        intro heq
        exact hnd.1 (List.mem_map.mpr ⟨a, hat, heq.symm⟩)
      rw [List.find?_cons]
      simp only [hk, decide_False]
      exact ih hnd.2 hat

theorem ReplyInv.findReply {s : Store} (h : ReplyInv s) {r : Reply} (hr : r ∈ s.replies) :
    s.findReply r.id = some r :=
  find?_key_of_mem (fun x : Reply => x.id) h.reply_nodup hr

theorem ReplyInv.findComment {s : Store} (h : ReplyInv s) {c : Comment}
    (hc : c ∈ s.comments) : s.findComment c.id = some c :=
  find?_key_of_mem (fun x : Comment => x.id) h.comment_nodup hc

/-- Under the invariant the walk from a reply to its root ends, within as many
steps as the reply's id, at the reply's own `commentId`. -/
theorem rootComment_eq {s : Store} (h : ReplyInv s) :
    ∀ (fuel : Nat) (r : Reply), r ∈ s.replies → r.id.toNat ≤ fuel →
      rootComment s.replies fuel r.id = some r.commentId := by
  intro fuel
  induction fuel with
  | zero =>
    intro r hr hle
    have := (h.reply_ids r hr).1
    omega
  | succ n ih =>
    intro r hr hle
    have hfind : s.replies.find? (fun x => decide (x.id = r.id)) = some r := h.findReply hr
    unfold rootComment
    rw [hfind]
    cases hp : r.parentReplyId with
    | none => simp only [hp]
    | some p =>
      obtain ⟨q, hq, hqid, hlt, hqc⟩ := h.parent r hr p hp
      have hqpos := (h.reply_ids q hq).1
      have hqle : q.id.toNat ≤ n := by omega
      have := ih q hq hqle
      rw [hqid, hqc] at this
      simp only [hp]
      exact this

theorem noReplies_inv {s : Store} (h : s.noReplies) : ReplyInv s := by
  obtain ⟨h1, h2, h3, h4, h5⟩ := h
  refine ⟨h2, h3, ?_, ?_, h5, h4, ?_, ?_⟩
  · intro r hr; rw [h1] at hr; cases hr
  · rw [h1]; exact List.nodup_nil
  · intro r hr; rw [h1] at hr; cases hr
  · intro r hr; rw [h1] at hr; cases hr

theorem ReplyInv.of_sameThread {s s1 : Store} (h : ReplyInv s) (hs : sameThread s s1) :
    ReplyInv s1 := by
  obtain ⟨hc, hr, hcs, hrs⟩ := hs
  constructor
  · rw [hrs]; exact h.replySeq_pos
  · rw [hcs]; exact h.commentSeq_pos
  · rw [hr, hrs]; exact h.reply_ids
  · rw [hr]; exact h.reply_nodup
  · rw [hc, hcs]; exact h.comment_ids
  · rw [hc]; exact h.comment_nodup
  · rw [hr, hc]; exact h.filed
  · rw [hr]; exact h.parent

theorem likeHandler_sameThread (s : Store) (b : LikeBody) :
    sameThread s (likeHandler s b).1 := by
  unfold likeHandler
  split
  · exact ⟨rfl, rfl, rfl, rfl⟩
  · split
    · exact ⟨rfl, rfl, rfl, rfl⟩
    · split
      · exact ⟨rfl, rfl, rfl, rfl⟩
      · split
        · exact ⟨rfl, rfl, rfl, rfl⟩
        · split
          · exact ⟨rfl, rfl, rfl, rfl⟩
          · split
            · exact ⟨rfl, rfl, rfl, rfl⟩
            · rename_i s1 hcreate
              unfold Store.createLike at hcreate
              split at hcreate
              · cases hcreate
              · split at hcreate
                · cases hcreate
                  exact ⟨rfl, rfl, rfl, rfl⟩
                · cases hcreate

theorem rateHandler_sameThread (now : Int) (s : Store) (b : RateBody) :
    sameThread s (rateHandler now s b).1 := by
  unfold rateHandler
  split
  · exact ⟨rfl, rfl, rfl, rfl⟩
  · split
    · exact ⟨rfl, rfl, rfl, rfl⟩
    · split
      · exact ⟨rfl, rfl, rfl, rfl⟩
      · split
        · exact ⟨rfl, rfl, rfl, rfl⟩
        · rename_i s1 rating hup
          unfold Store.upsertRating at hup
          split at hup
          · split at hup
            · cases hup
              exact ⟨rfl, rfl, rfl, rfl⟩
            · split at hup
              · cases hup
                exact ⟨rfl, rfl, rfl, rfl⟩
              · cases hup
          · cases hup

/-- What a comment request does to the store: nothing, or one more comment
with the next id. -/
theorem commentHandler_store (s : Store) (b : CommentBody) :
    (commentHandler s b).1 = s ∨
    ∃ c : Comment, c.id = s.commentSeq ∧
      (commentHandler s b).1 =
        { s with comments := s.comments ++ [c], commentSeq := s.commentSeq + 1 } := by
  unfold commentHandler
  split
  · exact Or.inl rfl
  · split
    · exact Or.inl rfl
    · rename_i s1 c hcreate
      unfold Store.createComment at hcreate
      split at hcreate
      · split at hcreate
        · cases hcreate
          exact Or.inr ⟨_, rfl, rfl⟩
        · cases hcreate
      · cases hcreate

theorem ReplyInv.comment {s : Store} (h : ReplyInv s) (b : CommentBody) :
    ReplyInv (commentHandler s b).1 := by
  rcases commentHandler_store s b with hs | ⟨c, hid, hs⟩
  · rw [hs]; exact h
  · rw [hs]
    constructor
    · exact h.replySeq_pos
    · have := h.commentSeq_pos
      show 0 < s.commentSeq + 1
      omega
    · exact h.reply_ids
    · exact h.reply_nodup
    · intro c1 hc1
      show 0 < c1.id ∧ c1.id < s.commentSeq + 1
      rcases List.mem_append.mp hc1 with hm | hm
      · have := h.comment_ids c1 hm
        omega
      · rw [List.mem_singleton] at hm
        have := h.commentSeq_pos
        rw [hm, hid]
        omega
    · show ((s.comments ++ [c]).map (fun c => c.id)).Nodup
      rw [List.map_append, List.nodup_append]
      refine ⟨h.comment_nodup, List.nodup_singleton _, ?_⟩
      intro k hk1 hk2
      rw [List.map_singleton, List.mem_singleton] at hk2
      obtain ⟨c1, hc1, rfl⟩ := List.mem_map.mp hk1
      have := (h.comment_ids c1 hc1).2
      omega
    · intro r hr
      obtain ⟨c1, hc1, h1, h2⟩ := h.filed r hr
      exact ⟨c1, List.mem_append_left _ hc1, h1, h2⟩
    · exact h.parent

theorem IdArg.check_ofColumn (x : Option Int) : (IdArg.ofColumn x).check = some x := by
  cases x <;> rfl

theorem IdArg.check_some_some {a : IdArg} {n : Int} (h : a.check = some (some n)) :
    a = .id n := by
  cases a with
  | null => cases h
  | nan => cases h
  | id m =>
    simp only [IdArg.check, Option.some.injEq] at h
    rw [h]

theorem IdArg.check_some_none {a : IdArg} (h : a.check = some none) : a = .null := by
  cases a with
  | null => rfl
  | nan => cases h
  | id m => cases h

theorem findReply_some {s : Store} {p : Int} {q : Reply} (h : s.findReply p = some q) :
    q ∈ s.replies ∧ q.id = p := by
  refine ⟨List.mem_of_find?_eq_some h, ?_⟩
  have := List.find?_some h
  simpa using this

theorem findComment_some {s : Store} {k : Int} {c : Comment} (h : s.findComment k = some c) :
    c ∈ s.comments ∧ c.id = k := by
  refine ⟨List.mem_of_find?_eq_some h, ?_⟩
  have := List.find?_some h
  simpa using this

/-- The shape of a successful `prisma.reply.create`. -/
theorem createReply_shape {s s1 : Store} {text : JsVal} {u v : Int} {cid pid : IdArg}
    {new : Reply} (h : s.createReply text u cid v pid = .ok (s1, new)) :
    ∃ (t : String) (c p : Option Int), cid.check = some c ∧ pid.check = some p ∧
      fkOk s.findComment c = true ∧ fkOk s.findReply p = true ∧
      new = { id := s.replySeq, text := t, userId := u, commentId := c, videoId := v,
              parentReplyId := p } ∧
      s1 = { s with replies := s.replies ++ [new], replySeq := s.replySeq + 1 } := by
  unfold Store.createReply at h
  split at h
  · rename_i t c p ht hc hp
    split at h
    · rename_i hfk
      simp only [Bool.and_eq_true] at hfk
      cases h
      exact ⟨t, c, p, hc, hp, hfk.1.2, hfk.2, rfl, rfl⟩
    · cases h
  · cases h

/-- What a reply request does to the store: nothing, or the row that
`prisma.reply.create` made after every check passed. -/
theorem replyHandler_store (s : Store) (b : ReplyBody) :
    (replyHandler s b).1 = s ∨
    ∃ (u v : Int) (resolved : IdArg) (new : Reply),
      (!b.commentId.truthy && !b.parentReplyId.truthy) = false ∧
      resolveCommentId s v (idArg b.commentId) (idArg b.parentReplyId) = .ok resolved ∧
      checkComment s v resolved = none ∧
      s.createReply b.text u resolved v (idArg b.parentReplyId)
        = .ok ((replyHandler s b).1, new) := by
  unfold replyHandler
  split
  · exact Or.inl rfl
  · rename_i hmiss
    split
    · exact Or.inl rfl
    · split
      · exact Or.inl rfl
      · split
        · exact Or.inl rfl
        · split
          · exact Or.inl rfl
          · split
            · exact Or.inl rfl
            · split
              · exact Or.inl rfl
              · split
                · exact Or.inl rfl
                · rename_i hres _ hchk _ s1 new hcreate
                  refine Or.inr ⟨_, _, _, new, ?_, hres, hchk, hcreate⟩
                  simp only [Bool.or_eq_true, not_or] at hmiss
                  simpa using hmiss.2

theorem fkOk_some {α : Type} {find : Int → Option α} {n : Int}
    (h : fkOk find (some n) = true) : ∃ a, find n = some a :=
  Option.isSome_iff_exists.mp h

/-- With a truthy parent id that names the reply `q`, the resolution either
stops at a video mismatch or yields `q`'s `commentId`. -/
theorem resolveCommentId_parent {s : Store} {v p : Int} {cid resolved : IdArg} {q : Reply}
    (hp : p ≠ 0) (hq : s.findReply p = some q)
    (h : resolveCommentId s v cid (.id p) = .ok resolved) :
    q.videoId = v ∧ resolved = IdArg.ofColumn q.commentId := by
  simp only [resolveCommentId, hp, ne_eq, not_false_eq_true, if_true, hq] at h
  split at h
  · cases h
  · rename_i hv
    cases h
    exact ⟨not_not.mp hv, rfl⟩

theorem checkComment_none {s : Store} {v c0 : Int} {cm : Comment} (h0 : c0 ≠ 0)
    (hf : s.findComment c0 = some cm) (h : checkComment s v (.id c0) = none) :
    cm.videoId = v := by
  simp only [checkComment, h0, ne_eq, not_false_eq_true, if_true, hf] at h
  split at h
  · cases h
  · rename_i hv
    exact not_not.mp hv

/-- The reply handler keeps the invariant of the reply thread. -/
theorem ReplyInv.reply {s : Store} (h : ReplyInv s) (b : ReplyBody) :
    ReplyInv (replyHandler s b).1 := by
  rcases replyHandler_store s b with hs | ⟨u, v, resolved, new, hmiss, hres, hchk, hcreate⟩
  · rw [hs]; exact h
  · obtain ⟨t, c, p, hc, hp, hfc, hfp, hnew, hs1⟩ := createReply_shape hcreate
    have hparent : ∀ p1, p = some p1 →
        ∃ q ∈ s.replies, q.id = p1 ∧ p1 < s.replySeq ∧ q.commentId = c ∧ q.videoId = v := by
      intro p1 hp1
      subst hp1
      obtain ⟨q, hq⟩ := fkOk_some hfp
      obtain ⟨hqm, hqid⟩ := findReply_some hq
      have hpos := h.reply_ids q hqm
      have hne : p1 ≠ 0 := by omega
      rw [IdArg.check_some_some hp] at hres
      obtain ⟨hqv, hr⟩ := resolveCommentId_parent hne hq hres
      rw [hr, IdArg.check_ofColumn] at hc
      refine ⟨q, hqm, hqid, by omega, ?_, hqv⟩
      exact Option.some.inj hc
    have hfiled : ∃ cm ∈ s.comments, c = some cm.id ∧ cm.videoId = v := by
      cases hpc : p with
      | some p1 =>
        obtain ⟨q, hqm, -, -, hqc, hqv⟩ := hparent p1 hpc
        obtain ⟨cm, hcm, h1, h2⟩ := h.filed q hqm
        exact ⟨cm, hcm, by rw [← hqc, h1], by rw [h2, hqv]⟩
      | none =>
        rw [hpc] at hp
        have hnull := IdArg.check_some_none hp
        have hpf := idArg_eq_null hnull
        rw [hpf] at hmiss
        have hct : b.commentId.truthy = true := by simpa using hmiss
        rw [hnull] at hres
        have hr : resolved = idArg b.commentId := by
          simp only [resolveCommentId] at hres
          cases hres
          rfl
        rw [hr] at hc hchk
        cases c with
        | none =>
          have := idArg_eq_null (IdArg.check_some_none hc)
          rw [this] at hct
          cases hct
        | some c0 =>
          obtain ⟨cm, hcm⟩ := fkOk_some hfc
          obtain ⟨hmem, hid⟩ := findComment_some hcm
          have hpos := h.comment_ids cm hmem
          have hne : c0 ≠ 0 := by omega
          rw [IdArg.check_some_some hc] at hchk
          exact ⟨cm, hmem, by rw [hid], checkComment_none hne hcm hchk⟩
    have hnid : new.id = s.replySeq := by rw [hnew]
    have hncid : new.commentId = c := by rw [hnew]
    have hnvid : new.videoId = v := by rw [hnew]
    have hnpid : new.parentReplyId = p := by rw [hnew]
    rw [hs1]
    constructor
    · have := h.replySeq_pos
      show 0 < s.replySeq + 1
      omega
    · exact h.commentSeq_pos
    · intro r hr
      show 0 < r.id ∧ r.id < s.replySeq + 1
      rcases List.mem_append.mp hr with hm | hm
      · have := h.reply_ids r hm
        omega
      · rw [List.mem_singleton] at hm
        have := h.replySeq_pos
        rw [hm, hnid]
        omega
    · show ((s.replies ++ [new]).map (fun r => r.id)).Nodup
      rw [List.map_append, List.nodup_append]
      refine ⟨h.reply_nodup, List.nodup_singleton _, ?_⟩
      intro k hk1 hk2
      rw [List.map_singleton, List.mem_singleton] at hk2
      obtain ⟨r1, hr1, rfl⟩ := List.mem_map.mp hk1
      have := (h.reply_ids r1 hr1).2
      omega
    · exact h.comment_ids
    · exact h.comment_nodup
    · intro r hr
      show ∃ cm ∈ s.comments, r.commentId = some cm.id ∧ cm.videoId = r.videoId
      rcases List.mem_append.mp hr with hm | hm
      · exact h.filed r hm
      · rw [List.mem_singleton] at hm
        obtain ⟨cm, hcm, h1, h2⟩ := hfiled
        exact ⟨cm, hcm, by rw [hm, hncid, h1], by rw [hm, hnvid, h2]⟩
    · intro r hr p1 hp1
      show ∃ q ∈ s.replies ++ [new], q.id = p1 ∧ p1 < r.id ∧ q.commentId = r.commentId
      rcases List.mem_append.mp hr with hm | hm
      · obtain ⟨q, hq, h1, h2, h3⟩ := h.parent r hm p1 hp1
        exact ⟨q, List.mem_append_left _ hq, h1, h2, h3⟩
      · rw [List.mem_singleton] at hm
        rw [hm, hnpid] at hp1
        obtain ⟨q, hq, h1, h2, h3, -⟩ := hparent p1 hp1
        exact ⟨q, List.mem_append_left _ hq, h1, by rw [hm, hnid]; exact h2,
          by rw [hm, hncid]; exact h3⟩

theorem ReplyInv.step {s : Store} (h : ReplyInv s) (req : Request) : ReplyInv (step s req) := by
  cases req with
  | like b => exact h.of_sameThread (likeHandler_sameThread s b)
  | comment b => exact h.comment b
  | reply b => exact h.reply b
  | rate now b => exact h.of_sameThread (rateHandler_sameThread now s b)

theorem ReplyInv.run {s : Store} (h : ReplyInv s) (reqs : List Request) :
    ReplyInv (run s reqs) := by
  induction reqs generalizing s with
  | nil => exact h
  | cons req rest ih => exact ih (h.step req)

/-- The reply handler once every check has passed. -/
theorem replyHandler_created {s s1 : Store} {b : ReplyBody} {u v : Int} {resolved : IdArg}
    {new : Reply} (hb : b.sound s u v)
    (hsome : (!b.commentId.truthy && !b.parentReplyId.truthy) = false)
    (hres : resolveCommentId s v (idArg b.commentId) (idArg b.parentReplyId) = .ok resolved)
    (hchk : checkComment s v resolved = none)
    (hcreate : s.createReply b.text u resolved v (idArg b.parentReplyId) = .ok (s1, new)) :
    replyHandler s b = (s1, .created new) := by
  obtain ⟨-, htt, hut, hu, huser, hvt, hv, hvideo⟩ := hb
  obtain ⟨usr, husr⟩ := Option.isSome_iff_exists.mp huser
  obtain ⟨vid, hvid⟩ := Option.isSome_iff_exists.mp hvideo
  unfold replyHandler
  rw [htt, hut, hvt, hsome, hu]
  simp only [husr, hv, hvid, hres, hchk, hcreate]
  rfl

theorem createReply_ok (s : Store) {text : JsVal} {t : String} (u v : Int) (cid pid : IdArg)
    (c p : Option Int) (ht : text = .str t) (hc : cid.check = some c)
    (hp : pid.check = some p) (hu : (s.findUser u).isSome = true)
    (hv : (s.findVideo v).isSome = true) (hfc : fkOk s.findComment c = true)
    (hfp : fkOk s.findReply p = true) :
    s.createReply text u cid v pid =
      .ok ({ s with
              replies := s.replies ++ [{ id := s.replySeq, text := t, userId := u,
                                         commentId := c, videoId := v, parentReplyId := p }]
              replySeq := s.replySeq + 1 },
           { id := s.replySeq, text := t, userId := u, commentId := c, videoId := v,
             parentReplyId := p }) := by
  simp only [Store.createReply, ht, stringOf, hc, hp, hu, hv, hfc, hfp, Bool.and_self, if_true]

/-- C10. Let `s` be reached from a store without replies by any sequence of
like, comment, reply and rate requests.  A reply request of an existing user
on an existing video whose `parentReplyId` names a reply `R` of that video in
`s` is answered 201, whatever `commentId` it carries; the row it appends has
`parentReplyId = R` and its `commentId` is the root comment of `R`: the walk
along the parent links from `R` ends, for every fuel of at least `R.id`, at
that `commentId`.  A reply request without `parentReplyId` whose `commentId`
names a comment of the video is answered 201 and the row has that `commentId`
and a null `parentReplyId`. -/
theorem reply_root_comment (s0 : Store) (reqs : List Request) (hbase : s0.noReplies) :
    (∀ (b : ReplyBody) (u v : Int) (R : Reply),
      b.sound (run s0 reqs) u v →
      b.parentReplyId.truthy = true → parseInt b.parentReplyId = some R.id →
      R ∈ (run s0 reqs).replies → R.videoId = v →
      ∃ new : Reply,
        replyHandler (run s0 reqs) b =
          ({ run s0 reqs with
              replies := (run s0 reqs).replies ++ [new]
              replySeq := (run s0 reqs).replySeq + 1 }, .created new) ∧
        new.parentReplyId = some R.id ∧
        ∀ fuel : Nat, R.id.toNat ≤ fuel →
          rootComment (run s0 reqs).replies fuel R.id = some new.commentId) ∧
    (∀ (b : ReplyBody) (u v c : Int) (cm : Comment),
      b.sound (run s0 reqs) u v →
      b.parentReplyId.truthy = false →
      b.commentId.truthy = true → parseInt b.commentId = some c →
      (run s0 reqs).findComment c = some cm → cm.videoId = v →
      ∃ new : Reply,
        replyHandler (run s0 reqs) b =
          ({ run s0 reqs with
              replies := (run s0 reqs).replies ++ [new]
              replySeq := (run s0 reqs).replySeq + 1 }, .created new) ∧
        new.commentId = some c ∧ new.parentReplyId = none) := by
  have hinv : ReplyInv (run s0 reqs) := (noReplies_inv hbase).run reqs
  generalize run s0 reqs = s at hinv
  constructor
  · intro b u v R hb hpt hpp hR hRv
    obtain ⟨t, ht⟩ := hb.1
    have hpos := (hinv.reply_ids R hR).1
    have hne : R.id ≠ 0 := by omega
    have hpid : idArg b.parentReplyId = .id R.id := idArg_of_parse hpt hpp
    have hfR : s.findReply R.id = some R := hinv.findReply hR
    obtain ⟨cm, hcm, hRc, hcv⟩ := hinv.filed R hR
    have hcpos := (hinv.comment_ids cm hcm).1
    have hcne : cm.id ≠ 0 := by omega
    have hfc : s.findComment cm.id = some cm := hinv.findComment hcm
    have hres : resolveCommentId s v (idArg b.commentId) (idArg b.parentReplyId)
        = .ok (.id cm.id) := by
      rw [hpid]
      simp only [resolveCommentId, hne, ne_eq, not_false_eq_true, if_true, hfR, hRv,
        not_true_eq_false, if_false, hRc, IdArg.ofColumn]
    have hchk : checkComment s v (.id cm.id) = none := by
      simp only [checkComment, hcne, ne_eq, not_false_eq_true, if_true, hfc, hcv, hRv,
        not_true_eq_false, if_false]
    have hcreate := createReply_ok s u v (.id cm.id) (idArg b.parentReplyId) (some cm.id)
      (some R.id) ht rfl
      (by rw [hpid]; rfl) hb.2.2.2.2.1 hb.2.2.2.2.2.2.2
      (by simp [fkOk, hfc]) (by simp [fkOk, hfR])
    have hsome : (!b.commentId.truthy && !b.parentReplyId.truthy) = false := by
      simp [hpt]
    refine ⟨_, replyHandler_created hb hsome hres hchk hcreate, rfl, ?_⟩
    intro fuel hfuel
    rw [rootComment_eq hinv fuel R hR hfuel, hRc]
  · intro b u v c cm hb hpf hct hcp hfc hcv
    obtain ⟨t, ht⟩ := hb.1
    have hpid : idArg b.parentReplyId = .null := idArg_of_falsy hpf
    have hcid : idArg b.commentId = .id c := idArg_of_parse hct hcp
    have hres : resolveCommentId s v (idArg b.commentId) (idArg b.parentReplyId)
        = .ok (.id c) := by
      rw [hpid, hcid]
      rfl
    have hchk : checkComment s v (.id c) = none := by
      by_cases h0 : c = 0
      · simp [checkComment, h0]
      · simp only [checkComment, h0, ne_eq, not_false_eq_true, if_true, hfc, hcv,
          not_true_eq_false, if_false]
    have hcreate := createReply_ok s u v (.id c) (idArg b.parentReplyId) (some c) none ht rfl
      (by rw [hpid]; rfl) hb.2.2.2.2.1 hb.2.2.2.2.2.2.2
      (by simp [fkOk, hfc]) rfl
    have hsome : (!b.commentId.truthy && !b.parentReplyId.truthy) = false := by
      simp [hct]
    exact ⟨_, replyHandler_created hb hsome hres hchk hcreate, rfl, rfl⟩

/-- C10 at concrete inputs: the answer to reply 2 (depth 2 under comment 42) is
stored with `parentReplyId` 2 and `commentId` 42, the root comment of reply 2,
although the request carries `commentId` 999. -/
theorem reply_root_comment_witness :
    ∃ new : Reply,
      (replyHandler (run likeScenarioStore threadRequests) nestedReplyBody).2 = .created new ∧
      new.parentReplyId = some 2 ∧ new.commentId = some 42 ∧
      rootComment (run likeScenarioStore threadRequests).replies 2 2 = some (some 42) := by
  obtain ⟨new, h1, h2, h3⟩ :=
    (reply_root_comment likeScenarioStore threadRequests (by decide)).1 nestedReplyBody 1 5
      { id := 2, text := "b", userId := 1, commentId := some 42, videoId := 5,
        parentReplyId := some 1 }
      ⟨⟨"c", rfl⟩, by decide, by decide, by decide, by decide, by decide, by decide,
        by decide⟩
      (by decide) (by decide) (by decide) rfl
  have hroot : rootComment (run likeScenarioStore threadRequests).replies 2 2
      = some (some 42) := by decide
  have h4 := h3 2 (by decide)
  rw [hroot] at h4
  refine ⟨new, ?_, h2, (Option.some.inj h4).symm, hroot⟩
  rw [h1]

/-- C11. In every store reached from one without replies (and with sound
keys) by any sequence of comment and reply requests (like and rate requests
may be mixed in), every Reply has a non-null `commentId`, it names an existing
Comment, and that Comment belongs to the video of the Reply. -/
theorem reply_filed_under_comment (s0 : Store) (reqs : List Request) (hbase : s0.noReplies) :
    ∀ r ∈ (run s0 reqs).replies, ∃ c : Comment,
      r.commentId = some c.id ∧ (run s0 reqs).findComment c.id = some c ∧
        c.videoId = r.videoId := by
  have hinv : ReplyInv (run s0 reqs) := (noReplies_inv hbase).run reqs
  intro r hr
  obtain ⟨c, hc, h1, h2⟩ := hinv.filed r hr
  exact ⟨c, h1, hinv.findComment hc, h2⟩

/-- C11 at concrete inputs: after the two replies of the thread on comment 42,
reply 2 (the answer to reply 1) is filed under an existing comment of video 5. -/
theorem reply_filed_under_comment_witness :
    ∃ c : Comment, some 42 = some c.id ∧
      (run likeScenarioStore threadRequests).findComment c.id = some c ∧ c.videoId = 5 :=
  reply_filed_under_comment likeScenarioStore threadRequests (by decide)
    { id := 2, text := "b", userId := 1, commentId := some 42, videoId := 5,
      parentReplyId := some 1 }
    (by decide)

/-- The reply handler up to the resolution of the root comment. -/
theorem replyHandler_addressed {s : Store} {b : ReplyBody} {u v : Int}
    (hb : b.addressed s u v)
    (hsome : (!b.commentId.truthy && !b.parentReplyId.truthy) = false) :
    replyHandler s b =
      match resolveCommentId s v (idArg b.commentId) (idArg b.parentReplyId) with
      | .error resp => (s, resp)
      | .ok resolvedCommentId =>
        match checkComment s v resolvedCommentId with
        | some resp => (s, resp)
        | none =>
          match s.createReply b.text u resolvedCommentId v (idArg b.parentReplyId) with
          | .error e => (s, replyCatch e)
          | .ok (s1, reply) => (s1, .created reply) := by
  obtain ⟨htt, hut, hu, huser, hvt, hv, hvideo⟩ := hb
  obtain ⟨usr, husr⟩ := Option.isSome_iff_exists.mp huser
  obtain ⟨vid, hvid⟩ := Option.isSome_iff_exists.mp hvideo
  unfold replyHandler
  rw [htt, hut, hvt, hsome, hu]
  simp only [husr, hv, hvid]
  rfl

/-- C12. A reply request with a text, an existing user and an existing video
`v` is answered 400 `VIDEO_MISMATCH`, and the store is unchanged, when its
`parentReplyId` names a reply of another video, and also when it has no
`parentReplyId` and its `commentId` names a comment of another video.  (Row
ids are positive, so the id named is not 0.) -/
theorem reply_video_mismatch (s : Store) (b : ReplyBody) (u v : Int)
    (hb : b.addressed s u v) :
    (∀ (p : Int) (R : Reply), b.parentReplyId.truthy = true →
      parseInt b.parentReplyId = some p → p ≠ 0 → s.findReply p = some R → R.videoId ≠ v →
      (replyHandler s b).2 = .videoMismatch true ∧ (replyHandler s b).2.status = 400 ∧
        (replyHandler s b).1 = s) ∧
    (∀ (c : Int) (cm : Comment), b.parentReplyId.truthy = false →
      b.commentId.truthy = true → parseInt b.commentId = some c → c ≠ 0 →
      s.findComment c = some cm → cm.videoId ≠ v →
      (replyHandler s b).2 = .videoMismatch false ∧ (replyHandler s b).2.status = 400 ∧
        (replyHandler s b).1 = s) := by
  constructor
  · intro p R hpt hpp hp0 hfind hne
    have hsome : (!b.commentId.truthy && !b.parentReplyId.truthy) = false := by
      simp [hpt]
    have hres : resolveCommentId s v (idArg b.commentId) (idArg b.parentReplyId)
        = .error (.videoMismatch true) := by
      rw [idArg_of_parse hpt hpp]
      simp only [resolveCommentId, hp0, ne_eq, not_false_eq_true, if_true, hfind, hne]
    have h : replyHandler s b = (s, .videoMismatch true) := by
      rw [replyHandler_addressed hb hsome, hres]
    rw [h]
    exact ⟨rfl, rfl, rfl⟩
  · intro c cm hpf hct hcp hc0 hfind hne
    have hsome : (!b.commentId.truthy && !b.parentReplyId.truthy) = false := by
      simp [hct]
    have hres : resolveCommentId s v (idArg b.commentId) (idArg b.parentReplyId)
        = .ok (.id c) := by
      rw [idArg_of_falsy hpf, idArg_of_parse hct hcp]
      rfl
    have hchk : checkComment s v (.id c) = some (.videoMismatch false) := by
      simp only [checkComment, hc0, ne_eq, not_false_eq_true, if_true, hfind, hne]
    have h : replyHandler s b = (s, .videoMismatch false) := by
      rw [replyHandler_addressed hb hsome, hres]
      simp only [hchk]
    rw [h]
    exact ⟨rfl, rfl, rfl⟩

/-- C12 at concrete inputs: a reply for video 6 that names reply 1, a reply of
video 5, and a reply for video 6 that names comment 42, a comment of video 5,
are both refused with `VIDEO_MISMATCH`. -/
theorem reply_video_mismatch_witness :
    ((replyHandler twoVideoStore
      { text := .str "x", userId := .str "1", videoId := .str "6",
        parentReplyId := .str "1" }).2 = .videoMismatch true ∧
     (replyHandler twoVideoStore
      { text := .str "x", userId := .str "1", videoId := .str "6",
        parentReplyId := .str "1" }).2.status = 400 ∧
     (replyHandler twoVideoStore
      { text := .str "x", userId := .str "1", videoId := .str "6",
        parentReplyId := .str "1" }).1 = twoVideoStore) ∧
    ((replyHandler twoVideoStore
      { text := .str "x", userId := .str "1", videoId := .str "6",
        commentId := .str "42" }).2 = .videoMismatch false ∧
     (replyHandler twoVideoStore
      { text := .str "x", userId := .str "1", videoId := .str "6",
        commentId := .str "42" }).2.status = 400 ∧
     (replyHandler twoVideoStore
      { text := .str "x", userId := .str "1", videoId := .str "6",
        commentId := .str "42" }).1 = twoVideoStore) :=
  ⟨(reply_video_mismatch twoVideoStore
      { text := .str "x", userId := .str "1", videoId := .str "6", parentReplyId := .str "1" }
      1 6 ⟨by decide, by decide, by decide, by decide, by decide, by decide, by decide⟩).1 1
      { id := 1, text := "a", userId := 1, commentId := some 42, videoId := 5,
        parentReplyId := none }
      (by decide) (by decide) (by decide) (by decide) (by decide),
   (reply_video_mismatch twoVideoStore
      { text := .str "x", userId := .str "1", videoId := .str "6", commentId := .str "42" }
      1 6 ⟨by decide, by decide, by decide, by decide, by decide, by decide, by decide⟩).2 42
      { id := 42, text := "first", userId := 1, videoId := 5 }
      (by decide) (by decide) (by decide) (by decide) (by decide) (by decide)⟩

/-! ## Facts about the subscribe handler -/

/-- The subscribe handler once the request names a user and a video of
creator `c`: the toggle itself (server.js 1531-1563). -/
theorem subscribeHandler_named {s : Store} {b : SubscribeBody} {u v : Int} {video : Video}
    (hb : b.names u v) (hv : s.findVideo v = some video) :
    subscribeHandler s b =
      match s.subscriptions.find? (subscriptionOf u video.userId) with
      | some existingSubscription =>
        (s.deleteSubscription existingSubscription.id, .ok "unsubscribed" false video.userId)
      | none =>
        match s.createSubscription u video.userId (some v) with
        | .error e => (s, subscribeCatch e)
        | .ok s1 => (s1, .ok "subscribed" true video.userId) := by
  obtain ⟨hut, hu, hvt, hvp⟩ := hb
  unfold subscribeHandler
  rw [hut, hvt, hvp]
  simp only [hv, hu]
  rfl

theorem createSubscription_ok {s : Store} {u c v : Int} (hu : (s.findUser u).isSome = true)
    (hc : (s.findUser c).isSome = true) (hv : (s.findVideo v).isSome = true) :
    s.createSubscription u c (some v) =
      .ok { s with
        subscriptions := s.subscriptions ++
          [{ id := s.subscriptionSeq, userId := u, creatorId := c, videoId := v }]
        subscriptionSeq := s.subscriptionSeq + 1 } := by
  simp only [Store.createSubscription, hu, hc, hv, Bool.and_self, if_true]

/-- A first subscribe request of `u` through a video of creator `c`. -/
theorem subscribeHandler_first {s : Store} {b : SubscribeBody} {u v : Int} {video : Video}
    (hb : b.names u v) (hv : s.findVideo v = some video)
    (hu : (s.findUser u).isSome = true) (hc : (s.findUser video.userId).isSome = true)
    (hnone : s.subscriptionsFrom u video.userId = []) :
    subscribeHandler s b =
      ({ s with
          subscriptions := s.subscriptions ++
            [{ id := s.subscriptionSeq, userId := u, creatorId := video.userId, videoId := v }]
          subscriptionSeq := s.subscriptionSeq + 1 },
        .ok "subscribed" true video.userId) := by
  have hf : s.subscriptions.find? (subscriptionOf u video.userId) = none := by
    rw [List.find?_eq_none]
    intro r hr hm
    have : r ∈ s.subscriptionsFrom u video.userId := List.mem_filter.mpr ⟨hr, hm⟩
    rw [hnone] at this
    cases this
  have hvs : (s.findVideo v).isSome = true := by rw [hv]; rfl
  rw [subscribeHandler_named hb hv, hf]
  simp only [createSubscription_ok hu hc hvs]

/-- A subscribe request of `u` through a video of creator `c` when the last
row of the table is the only subscription from `u` to `c`. -/
theorem subscribeHandler_undo (s : Store) (rows : List Subscription) (row : Subscription)
    {b : SubscribeBody} {u v : Int} {video : Video}
    (hb : b.names u v) (hv : s.findVideo v = some video)
    (hrows : s.subscriptions = rows ++ [row]) (hrow : subscriptionOf u video.userId row = true)
    (hnone : rows.filter (subscriptionOf u video.userId) = [])
    (hkeys : ∀ r ∈ rows, r.id < row.id) :
    subscribeHandler s b =
      ({ s with subscriptions := rows }, .ok "unsubscribed" false video.userId) := by
  have hf : s.subscriptions.find? (subscriptionOf u video.userId) = some row := by
    have h0 : rows.find? (subscriptionOf u video.userId) = none := by
      rw [List.find?_eq_none]
      intro r hr hm
      have : r ∈ rows.filter (subscriptionOf u video.userId) := List.mem_filter.mpr ⟨hr, hm⟩
      rw [hnone] at this
      cases this
    rw [hrows, List.find?_append, h0]
    simp [hrow]
  have hdel : (rows ++ [row]).filter (fun r => decide (r.id ≠ row.id)) = rows := by
    rw [List.filter_append]
    have h1 : rows.filter (fun r => decide (r.id ≠ row.id)) = rows := by
      rw [List.filter_eq_self]
      intro r hr
      have := hkeys r hr
      simp only [ne_eq, decide_not, Bool.not_eq_eq_eq_not, Bool.not_true,
        decide_eq_false_iff_not]
      omega
    rw [h1]
    simp
  rw [subscribeHandler_named hb hv, hf]
  simp only [Store.deleteSubscription, hrows, hdel]

/-- C13, the claim fails: on the scenario store user 1 is not subscribed to
creator 2; after the subscribe calls through video 10, through video 11 and
once more through video 10 there is one Subscription row from user 1 to
creator 2, not zero: the call through video 11 was already the unsubscribe. -/
theorem subscribe_thrice_leaves_one :
    creatorStore.subscriptionsFrom 1 2 = [] ∧
    (subscribeHandler (subscribeHandler creatorStore subscribeViaA).1 subscribeViaB).2
      = .ok "unsubscribed" false 2 ∧
    (subscribeHandler (subscribeHandler (subscribeHandler creatorStore subscribeViaA).1
      subscribeViaB).1 subscribeViaA).2 = .ok "subscribed" true 2 ∧
    ((subscribeHandler (subscribeHandler (subscribeHandler creatorStore subscribeViaA).1
      subscribeViaB).1 subscribeViaA).1.subscriptionsFrom 1 2).length = 1 := by
  decide

/-- C13, amended. For a user `u` not subscribed to `creator` and videos `a`, `b`
and `c` owned by `creator` (keys sound, both users existing): the subscribe
call for `(u, a)` answers `subscribed` and leaves one row from `u` to
`creator`; the call for `(u, b)` answers `unsubscribed` and restores the
Subscription rows as they were, so zero rows from `u` to `creator`; one more
call, for `(u, c)`, answers `subscribed` and leaves exactly one row again. -/
theorem subscribe_toggle_through_videos (s : Store) (bA bB bC : SubscribeBody)
    (u a b c creator : Int) (A B C : Video)
    (hbA : bA.names u a) (hbB : bB.names u b) (hbC : bC.names u c)
    (hA : s.findVideo a = some A) (hB : s.findVideo b = some B) (hC : s.findVideo c = some C)
    (hoA : A.userId = creator) (hoB : B.userId = creator) (hoC : C.userId = creator)
    (hu : (s.findUser u).isSome = true) (hcr : (s.findUser creator).isSome = true)
    (hkeys : s.subscriptionKeysOk) (hnone : s.subscriptionsFrom u creator = []) :
    ((subscribeHandler s bA).2 = .ok "subscribed" true creator ∧
      ((subscribeHandler s bA).1.subscriptionsFrom u creator).length = 1) ∧
    ((subscribeHandler (subscribeHandler s bA).1 bB).2 = .ok "unsubscribed" false creator ∧
      (subscribeHandler (subscribeHandler s bA).1 bB).1.subscriptions = s.subscriptions ∧
      (subscribeHandler (subscribeHandler s bA).1 bB).1.subscriptionsFrom u creator = []) ∧
    ((subscribeHandler (subscribeHandler (subscribeHandler s bA).1 bB).1 bC).2
        = .ok "subscribed" true creator ∧
      ((subscribeHandler (subscribeHandler (subscribeHandler s bA).1 bB).1 bC).1.subscriptionsFrom
        u creator).length = 1) := by
  subst hoA
  have h1 := subscribeHandler_first hbA hA hu hcr hnone
  have hone : ∀ (rows : List Subscription) (k v : Int),
      rows.filter (subscriptionOf u A.userId) = [] →
      ((rows ++ [({ id := k, userId := u, creatorId := A.userId, videoId := v } :
        Subscription)]).filter (subscriptionOf u A.userId)).length = 1 := by
    intro rows k v hr
    rw [List.filter_append, hr]
    simp [subscriptionOf]
  have hB1 : ({ s with
      subscriptions := s.subscriptions ++
        [{ id := s.subscriptionSeq, userId := u, creatorId := A.userId, videoId := a }]
      subscriptionSeq := s.subscriptionSeq + 1 } : Store).findVideo b = some B := hB
  have h2 := subscribeHandler_undo { s with
      subscriptions := s.subscriptions ++
        [{ id := s.subscriptionSeq, userId := u, creatorId := A.userId, videoId := a }]
      subscriptionSeq := s.subscriptionSeq + 1 } s.subscriptions
    { id := s.subscriptionSeq, userId := u, creatorId := A.userId, videoId := a }
    hbB hB1 rfl (by rw [hoB]; simp [subscriptionOf]) (by rw [hoB]; exact hnone) hkeys
  rw [hoB] at h2
  have hC2 : ({ s with subscriptionSeq := s.subscriptionSeq + 1 } : Store).findVideo c
      = some C := hC
  have h3 := subscribeHandler_first (s := { s with subscriptionSeq := s.subscriptionSeq + 1 })
    hbC hC2 hu (by rw [hoC]; exact hcr) (by rw [hoC]; exact hnone)
  rw [hoC] at h3
  rw [h1, h2, h3]
  refine ⟨⟨rfl, ?_⟩, ⟨rfl, rfl, hnone⟩, ⟨rfl, ?_⟩⟩
  · exact hone s.subscriptions s.subscriptionSeq a hnone
  · exact hone s.subscriptions (s.subscriptionSeq + 1) c hnone

/-- C13, amended, on the scenario store: through video 10, through video 11,
then through video 10 again. -/
theorem subscribe_toggle_through_videos_witness :
    (subscribeHandler (subscribeHandler creatorStore subscribeViaA).1 subscribeViaB).1.subscriptions
      = [] ∧
    ((subscribeHandler (subscribeHandler (subscribeHandler creatorStore subscribeViaA).1
      subscribeViaB).1 subscribeViaA).1.subscriptionsFrom 1 2).length = 1 :=
  have h := subscribe_toggle_through_videos creatorStore subscribeViaA subscribeViaB
    subscribeViaA 1 10 11 10 2 { id := 10, userId := 2 } { id := 11, userId := 2 }
    { id := 10, userId := 2 } (by decide) (by decide) (by decide) (by decide) (by decide)
    (by decide) rfl rfl rfl (by decide) (by decide) (by decide) (by decide)
  ⟨h.2.1.2.1, h.2.2.2⟩

theorem createSubscription_shape {s s1 : Store} {u c : Int} {v : Option Int}
    (h : s.createSubscription u c v = .ok s1) :
    ∃ vid : Int, v = some vid ∧ (s.findVideo vid).isSome = true ∧
      s1 = { s with
        subscriptions := s.subscriptions ++
          [{ id := s.subscriptionSeq, userId := u, creatorId := c, videoId := vid }]
        subscriptionSeq := s.subscriptionSeq + 1 } := by
  unfold Store.createSubscription at h
  split at h
  · cases h
  · rename_i vid
    split at h
    · rename_i hfk
      simp only [Bool.and_eq_true] at hfk
      cases h
      exact ⟨vid, rfl, hfk.2, rfl⟩
    · cases h

/-- What a subscribe request does to the store: nothing, the removal of the
rows of one id, or one more row `(u, owner of v, v)` for a video `v` of the
store when no row of `(u, owner of v)` was there. -/
theorem subscribeHandler_store (s : Store) (b : SubscribeBody) :
    (subscribeHandler s b).1 = s ∨
    (∃ id : Int, (subscribeHandler s b).1 = s.deleteSubscription id) ∨
    ∃ (u v : Int) (video : Video), s.findVideo v = some video ∧
      s.subscriptions.find? (subscriptionOf u video.userId) = none ∧
      (subscribeHandler s b).1 = { s with
        subscriptions := s.subscriptions ++
          [{ id := s.subscriptionSeq, userId := u, creatorId := video.userId, videoId := v }]
        subscriptionSeq := s.subscriptionSeq + 1 } := by
  unfold subscribeHandler
  split
  · exact Or.inl rfl
  · split
    · exact Or.inl rfl
    · rename_i vid hvid
      split
      · exact Or.inl rfl
      · rename_i video hvideo
        split
        · exact Or.inl rfl
        · rename_i u hu
          dsimp only
          split
          · rename_i existing hex
            exact Or.inr (Or.inl ⟨existing.id, rfl⟩)
          · rename_i hnone
            split
            · exact Or.inl rfl
            · rename_i s1 hcreate
              obtain ⟨v1, hv1, -, hs1⟩ := createSubscription_shape hcreate
              rw [hvid] at hv1
              cases hv1
              exact Or.inr (Or.inr ⟨u, vid, video, hvideo, hnone, hs1⟩)

/-- C14. Run one after the other, subscribe requests keep the at-most-one
invariant: if no two Subscription rows share `(userId, creatorId)` before a
call, none do after it, for every request body and whichever video it names. -/
theorem subscribe_preserves_at_most_one (s : Store) (b : SubscribeBody)
    (h : s.subscriptionsAtMostOne) : (subscribeHandler s b).1.subscriptionsAtMostOne := by
  rcases subscribeHandler_store s b with hs | ⟨id, hs⟩ | ⟨u, v, video, -, hnone, hs⟩
  · rw [hs]; exact h
  · rw [hs]
    exact List.Pairwise.sublist (List.filter_sublist _) h
  · rw [hs]
    unfold Store.subscriptionsAtMostOne
    show (s.subscriptions ++ [_]).Pairwise _
    rw [List.pairwise_append]
    refine ⟨h, List.pairwise_singleton _ _, ?_⟩
    intro a ha x hx
    rw [List.mem_singleton] at hx
    subst hx
    rw [List.find?_eq_none] at hnone
    intro hk
    apply hnone a ha
    simp only [subscriptionOf, Bool.and_eq_true, decide_eq_true_eq]
    exact hk

/-- C14 on the scenario store: after the subscription through video 10, the
request through video 11 of the same creator does not add a second row. -/
theorem subscribe_preserves_at_most_one_witness :
    (subscribeHandler (subscribeHandler creatorStore subscribeViaA).1
      subscribeViaB).1.subscriptionsAtMostOne :=
  subscribe_preserves_at_most_one (subscribeHandler creatorStore subscribeViaA).1
    subscribeViaB
    (subscribe_preserves_at_most_one creatorStore subscribeViaA (by decide))

/-- C15, at the failing input: user 1 subscribes to creator 2 through video 10
(the answer is `subscribed`, with `uploaderId` 2); video 11 is owned by creator
2 as well, and GET /api/videos/11?userId=1 reports `isSubscribed = false`,
while GET /api/videos/10?userId=1 reports `true`. -/
theorem detail_isSubscribed_per_video :
    (subscribeHandler creatorStore subscribeViaA).2 = .ok "subscribed" true 2 ∧
    ((subscribeHandler creatorStore subscribeViaA).1.findVideo 11).map (fun v => v.userId)
      = some 2 ∧
    (videoDetail (subscribeHandler creatorStore subscribeViaA).1 "11" (.str "1")).2.isSubscribed?
      = some false ∧
    (videoDetail (subscribeHandler creatorStore subscribeViaA).1 "10" (.str "1")).2.isSubscribed?
      = some true := by
  decide

/-! ## Facts about sequences of actions -/

theorem sameOwners_refl (s : Store) : sameOwners s s :=
  ⟨rfl, fun _ => rfl⟩

theorem sameOwners_of_eq {s s1 : Store} (hv : s1.videos = s.videos)
    (hs : s1.subscriptions = s.subscriptions) : sameOwners s s1 := by
  refine ⟨hs, ?_⟩
  intro id
  unfold Store.findVideo
  rw [hv]

theorem SubscriptionInv.of_sameOwners {s s1 : Store} (h : SubscriptionInv s)
    (hs : sameOwners s s1) : SubscriptionInv s1 := by
  intro r hr
  rw [hs.1] at hr
  rw [hs.2]
  exact h r hr

theorem find?_id_map {l : List Video} {g : Video → Video} (hg : ∀ x, (g x).id = x.id)
    (k : Int) :
    (l.map g).find? (fun v => decide (v.id = k)) =
      (l.find? (fun v => decide (v.id = k))).map g := by
  induction l with
  | nil => rfl
  | cons a t ih =>
    rw [List.map_cons, List.find?_cons, List.find?_cons, hg a]
    by_cases h : a.id = k
    · simp [h]
    · simp [h, ih]

/-- An update that keeps `id` and `userId` keeps the owner of every video id,
and touches no other table. -/
theorem updateVideo_sameOwners {s s1 : Store} {id : Option Int} {data : Video → Video}
    {v : Video} (hd : ∀ x, (data x).id = x.id ∧ (data x).userId = x.userId)
    (h : s.updateVideo id data = .ok (s1, v)) : sameOwners s s1 := by
  unfold Store.updateVideo at h
  split at h
  · cases h
  · rename_i k
    split at h
    · cases h
    · cases h
      refine ⟨rfl, ?_⟩
      intro j
      have hg : ∀ x : Video, (if x.id = k then data x else x).id = x.id := by
        intro x
        split
        · exact (hd x).1
        · rfl
      show Option.map _ ((s.videos.map _).find? _) = _
      rw [find?_id_map hg j, Option.map_map]
      unfold Store.findVideo
      congr 1
      funext x
      simp only [Function.comp]
      split
      · exact (hd x).2
      · rfl

theorem approveData_keeps (now : Int) (x : Video) :
    (approveData now x).id = x.id ∧ (approveData now x).userId = x.userId :=
  ⟨rfl, rfl⟩

theorem rejectData_keeps (now : Int) (reason : JsVal) (x : Video) :
    (rejectData now reason x).id = x.id ∧ (rejectData now reason x).userId = x.userId :=
  ⟨rfl, rfl⟩

theorem unpublishData_keeps (x : Video) :
    (unpublishData x).id = x.id ∧ (unpublishData x).userId = x.userId :=
  ⟨rfl, rfl⟩

theorem countView_keeps (x : Video) :
    (countView x).id = x.id ∧ (countView x).userId = x.userId :=
  ⟨rfl, rfl⟩

theorem rejectVideoRow_sameOwners {s s1 : Store} {now : Int} {id : Option Int}
    {reason : JsVal} {v : Video} (h : s.rejectVideoRow now id reason = .ok (s1, v)) :
    sameOwners s s1 := by
  unfold Store.rejectVideoRow at h
  split at h
  · exact updateVideo_sameOwners (rejectData_keeps now reason) h
  · cases h

theorem approveRoute_sameOwners (now : Int) (s : Store) (auth : AuthHeader) (id : String) :
    sameOwners s (approveRoute now s auth id).1 := by
  unfold approveRoute
  split
  · exact sameOwners_refl s
  · split
    · exact sameOwners_refl s
    · rename_i h
      exact updateVideo_sameOwners (approveData_keeps now) h

theorem rejectRoute_sameOwners (now : Int) (s : Store) (auth : AuthHeader) (id : String)
    (reason : JsVal) : sameOwners s (rejectRoute now s auth id reason).1 := by
  unfold rejectRoute
  split
  · exact sameOwners_refl s
  · split
    · exact sameOwners_refl s
    · rename_i h
      exact rejectVideoRow_sameOwners h

theorem unpublishRoute_sameOwners (s : Store) (auth : AuthHeader) (id : String) :
    sameOwners s (unpublishRoute s auth id).1 := by
  unfold unpublishRoute
  split
  · exact sameOwners_refl s
  · split
    · exact sameOwners_refl s
    · rename_i h
      exact updateVideo_sameOwners unpublishData_keeps h

theorem approveVideo_sameOwners (now : Int) (s : Store) (videoId : String) :
    sameOwners s (approveVideo now s videoId).1 := by
  unfold approveVideo
  split
  · exact sameOwners_refl s
  · rename_i h
    exact updateVideo_sameOwners (approveData_keeps now) h

theorem rejectVideo_sameOwners (now : Int) (s : Store) (videoId : String) (reason : JsVal) :
    sameOwners s (rejectVideo now s videoId reason).1 := by
  unfold rejectVideo
  split
  · exact sameOwners_refl s
  · rename_i h
    exact rejectVideoRow_sameOwners h

theorem videoDetail_sameOwners (s : Store) (id : String) (userId : JsVal) :
    sameOwners s (videoDetail s id userId).1 := by
  unfold videoDetail
  split
  · exact sameOwners_refl s
  · split
    · split
      · exact sameOwners_refl s
      · dsimp only
        split
        · exact sameOwners_refl s
        · rename_i h
          exact updateVideo_sameOwners countView_keeps h
    · exact sameOwners_refl s

theorem likeHandler_sameOwners (s : Store) (b : LikeBody) :
    sameOwners s (likeHandler s b).1 := by
  unfold likeHandler
  split
  · exact sameOwners_refl s
  · split
    · exact sameOwners_refl s
    · split
      · exact sameOwners_refl s
      · split
        · exact sameOwners_refl s
        · split
          · exact sameOwners_of_eq rfl rfl
          · split
            · exact sameOwners_refl s
            · rename_i s1 hcreate
              unfold Store.createLike at hcreate
              split at hcreate
              · cases hcreate
              · split at hcreate
                · cases hcreate
                  exact sameOwners_of_eq rfl rfl
                · cases hcreate

theorem rateHandler_sameOwners (now : Int) (s : Store) (b : RateBody) :
    sameOwners s (rateHandler now s b).1 := by
  unfold rateHandler
  split
  · exact sameOwners_refl s
  · split
    · exact sameOwners_refl s
    · split
      · exact sameOwners_refl s
      · split
        · exact sameOwners_refl s
        · rename_i s1 rating hup
          unfold Store.upsertRating at hup
          split at hup
          · split at hup
            · cases hup
              exact sameOwners_of_eq rfl rfl
            · split at hup
              · cases hup
                exact sameOwners_of_eq rfl rfl
              · cases hup
          · cases hup

theorem commentHandler_sameOwners (s : Store) (b : CommentBody) :
    sameOwners s (commentHandler s b).1 := by
  rcases commentHandler_store s b with hs | ⟨c, -, hs⟩
  · rw [hs]; exact sameOwners_refl s
  · rw [hs]; exact sameOwners_of_eq rfl rfl

theorem replyHandler_sameOwners (s : Store) (b : ReplyBody) :
    sameOwners s (replyHandler s b).1 := by
  rcases replyHandler_store s b with hs | ⟨u, v, resolved, new, -, -, -, hcreate⟩
  · rw [hs]; exact sameOwners_refl s
  · obtain ⟨t, c, p, -, -, -, -, -, hs1⟩ := createReply_shape hcreate
    rw [hs1]
    exact sameOwners_of_eq rfl rfl

theorem step_sameOwners (s : Store) (r : Request) : sameOwners s (step s r) := by
  cases r with
  | like b => exact likeHandler_sameOwners s b
  | comment b => exact commentHandler_sameOwners s b
  | reply b => exact replyHandler_sameOwners s b
  | rate now b => exact rateHandler_sameOwners now s b

/-- The subscribe handler keeps the invariant: the row it creates carries the
owner of the video it names. -/
theorem SubscriptionInv.subscribe {s : Store} (h : SubscriptionInv s) (b : SubscribeBody) :
    SubscriptionInv (subscribeHandler s b).1 := by
  rcases subscribeHandler_store s b with hs | ⟨id, hs⟩ | ⟨u, v, video, hv, -, hs⟩
  · rw [hs]; exact h
  · rw [hs]
    intro r hr
    exact h r (List.mem_filter.mp hr).1
  · rw [hs]
    intro r hr
    have hr1 : r ∈ s.subscriptions ++
        [({ id := s.subscriptionSeq, userId := u, creatorId := video.userId, videoId := v } :
          Subscription)] := hr
    show (s.findVideo r.videoId).map (fun v => v.userId) = some r.creatorId
    rcases List.mem_append.mp hr1 with hm | hm
    · exact h r hm
    · rw [List.mem_singleton] at hm
      rw [hm]
      show (s.findVideo v).map (fun v => v.userId) = some video.userId
      rw [hv]
      rfl

theorem SubscriptionInv.act {s : Store} (h : SubscriptionInv s) (a : Action) :
    SubscriptionInv (act s a) := by
  cases a with
  | interaction r => exact h.of_sameOwners (step_sameOwners s r)
  | subscribe b => exact h.subscribe b
  | detail id userId => exact h.of_sameOwners (videoDetail_sameOwners s id userId)
  | approve now auth id => exact h.of_sameOwners (approveRoute_sameOwners now s auth id)
  | reject now auth id reason =>
    exact h.of_sameOwners (rejectRoute_sameOwners now s auth id reason)
  | unpublish auth id => exact h.of_sameOwners (unpublishRoute_sameOwners s auth id)
  | approveVideo now videoId => exact h.of_sameOwners (approveVideo_sameOwners now s videoId)
  | rejectVideo now videoId reason =>
    exact h.of_sameOwners (rejectVideo_sameOwners now s videoId reason)

theorem SubscriptionInv.perform {s : Store} (h : SubscriptionInv s) (acts : List Action) :
    SubscriptionInv (perform s acts) := by
  induction acts generalizing s with
  | nil => exact h
  | cons a rest ih => exact ih (h.act a)

/-- C16. In every store reached from one without subscriptions by any sequence
of actions (subscribe requests, interactions, detail reads, moderation), each
Subscription row names a video of the store whose owner is the row's
`creatorId`; so for every creator `C` the subscriber count of the video detail
view (rows whose video is owned by `C`) equals the subscriber count of the
profile view (rows whose `creatorId` is `C`). -/
theorem subscriber_counts_agree (s0 : Store) (acts : List Action)
    (h0 : s0.subscriptions = []) :
    (∀ r ∈ (perform s0 acts).subscriptions, ∃ video : Video,
      (perform s0 acts).findVideo r.videoId = some video ∧ video.userId = r.creatorId) ∧
    ∀ C : Int, (perform s0 acts).countSubscriptionsByVideoOwner C
      = (perform s0 acts).countSubscriptionsByCreator C := by
  have hbase : SubscriptionInv s0 := by
    intro r hr
    rw [h0] at hr
    cases hr
  have hinv : SubscriptionInv (perform s0 acts) := hbase.perform acts
  generalize perform s0 acts = s at hinv
  constructor
  · intro r hr
    have h := hinv r hr
    cases hf : s.findVideo r.videoId with
    | none => rw [hf] at h; cases h
    | some video =>
      rw [hf] at h
      exact ⟨video, rfl, Option.some.inj h⟩
  · intro C
    unfold Store.countSubscriptionsByVideoOwner Store.countSubscriptionsByCreator
    congr 1
    apply List.filter_congr
    intro r hr
    rw [hinv r hr]
    by_cases hc : r.creatorId = C
    · simp [hc]
    · simp [hc]

/-- C16 at concrete inputs: after the scenario's three subscriptions, a detail
read and an approval, creator 2 has two subscribers in both views. -/
theorem subscriber_counts_agree_witness :
    (perform twoCreatorStore subscriptionActions).countSubscriptionsByVideoOwner 2 = 2 ∧
    (perform twoCreatorStore subscriptionActions).countSubscriptionsByCreator 2 = 2 := by
  have h := (subscriber_counts_agree twoCreatorStore subscriptionActions rfl).2 2
  have h2 : (perform twoCreatorStore subscriptionActions).countSubscriptionsByCreator 2 = 2 := by
    decide
  exact ⟨h.trans h2, h2⟩

/-! ## Facts about moderation -/

/-- A successful update rewrites the first row of the id and answers with it. -/
theorem updateVideo_ok {s : Store} {v : Int} {video : Video} (data : Video → Video)
    (hv : s.findVideo v = some video) :
    s.updateVideo (some v) data =
      .ok ({ s with videos := s.videos.map (fun x => if x.id = v then data x else x) },
           data video) := by
  simp only [Store.updateVideo, hv]

theorem updateVideo_missing {s : Store} {id : Option Int} (data : Video → Video)
    (h : ∀ v, id = some v → s.findVideo v = none) :
    ∃ e, s.updateVideo id data = .error e := by
  cases id with
  | none => exact ⟨.validation, rfl⟩
  | some v =>
    refine ⟨.P2025, ?_⟩
    simp only [Store.updateVideo, h v rfl]

theorem rejectVideoRow_missing {s : Store} {id : Option Int} (now : Int) (reason : JsVal)
    (h : ∀ v, id = some v → s.findVideo v = none) :
    ∃ e, s.rejectVideoRow now id reason = .error e := by
  obtain ⟨e, he⟩ := updateVideo_missing (rejectData now reason) h
  unfold Store.rejectVideoRow
  split
  · exact ⟨e, he⟩
  · exact ⟨.validation, rfl⟩

/-- After an update that keeps `id`, the video of the id is the updated row. -/
theorem findVideo_updated {s : Store} {v : Int} {video : Video} {data : Video → Video}
    (hd : ∀ x, (data x).id = x.id) (hv : s.findVideo v = some video) :
    ({ s with videos := s.videos.map (fun x => if x.id = v then data x else x) } :
      Store).findVideo v = some (data video) := by
  have hg : ∀ x : Video, (if x.id = v then data x else x).id = x.id := by
    intro x
    split
    · exact hd x
    · rfl
  show (s.videos.map _).find? _ = _
  rw [find?_id_map hg v]
  have hv1 : s.videos.find? (fun x => decide (x.id = v)) = some video := hv
  rw [hv1]
  have hid : video.id = v := by
    have := List.find?_some hv1
    simpa using this
  simp [hid]

/-- Whatever the update, the status of a video id afterwards is the old one or
the one the update writes. -/
theorem statusOf_updated {s s1 : Store} {id : Option Int} {data : Video → Video} {w : Video}
    {target : VideoStatus} (hd : ∀ x, (data x).id = x.id ∧ (data x).status = target)
    (h : s.updateVideo id data = .ok (s1, w)) (k : Int) :
    s1.statusOf k = s.statusOf k ∨ s1.statusOf k = some target := by
  unfold Store.updateVideo at h
  split at h
  · cases h
  · rename_i v
    split at h
    · cases h
    · cases h
      have hg : ∀ x : Video, (if x.id = v then data x else x).id = x.id := by
        intro x
        split
        · exact (hd x).1
        · rfl
      unfold Store.statusOf
      show Option.map _ ((s.videos.map _).find? _) = _ ∨ Option.map _ ((s.videos.map _).find? _) = _
      rw [find?_id_map hg k]
      cases hf : s.videos.find? (fun x => decide (x.id = k)) with
      | none =>
        left
        unfold Store.findVideo
        rw [hf]
        rfl
      | some x =>
        unfold Store.findVideo
        rw [hf]
        by_cases hx : x.id = v
        · right
          simp [hx, (hd x).2]
        · left
          simp [hx]

theorem approveRoute_ok {s : Store} {auth : AuthHeader} {id : String} {d : Claims} {v : Int}
    {video : Video} (now : Int) (hauth : adminAuth s auth = .ok d)
    (hid : parseIntChars id.toList = some v) (hv : s.findVideo v = some video) :
    approveRoute now s auth id =
      ({ s with videos := s.videos.map (fun x => if x.id = v then approveData now x else x) },
        .ok (approveData now video)) := by
  simp only [approveRoute, hauth, hid, updateVideo_ok (approveData now) hv]

theorem rejectRoute_ok {s : Store} {auth : AuthHeader} {id : String} {d : Claims} {v : Int}
    {video : Video} {reason : JsVal} (now : Int) (hauth : adminAuth s auth = .ok d)
    (hid : parseIntChars id.toList = some v) (hv : s.findVideo v = some video)
    (hr : nullableStringOk reason = true) :
    rejectRoute now s auth id reason =
      ({ s with
          videos := s.videos.map (fun x => if x.id = v then rejectData now reason x else x) },
        .ok (rejectData now reason video)) := by
  simp only [rejectRoute, hauth, hid, Store.rejectVideoRow, hr, if_true,
    updateVideo_ok (rejectData now reason) hv]

theorem unpublishRoute_ok {s : Store} {auth : AuthHeader} {id : String} {d : Claims} {v : Int}
    {video : Video} (hauth : adminAuth s auth = .ok d)
    (hid : parseIntChars id.toList = some v) (hv : s.findVideo v = some video) :
    unpublishRoute s auth id =
      ({ s with videos := s.videos.map (fun x => if x.id = v then unpublishData x else x) },
        .ok (unpublishData video)) := by
  simp only [unpublishRoute, hauth, hid, updateVideo_ok unpublishData hv]

theorem approveVideo_ok {s : Store} {id : String} {v : Int} {video : Video} (now : Int)
    (hid : parseIntChars id.toList = some v) (hv : s.findVideo v = some video) :
    approveVideo now s id =
      ({ s with videos := s.videos.map (fun x => if x.id = v then approveData now x else x) },
        .ok (approveData now video)) := by
  simp only [approveVideo, hid, updateVideo_ok (approveData now) hv]

theorem rejectVideo_ok {s : Store} {id : String} {v : Int} {video : Video} {reason : JsVal}
    (now : Int) (hid : parseIntChars id.toList = some v) (hv : s.findVideo v = some video)
    (hr : nullableStringOk reason = true) :
    rejectVideo now s id reason =
      ({ s with
          videos := s.videos.map (fun x => if x.id = v then rejectData now reason x else x) },
        .ok (rejectData now reason video)) := by
  simp only [rejectVideo, hid, Store.rejectVideoRow, hr, if_true,
    updateVideo_ok (rejectData now reason) hv]

theorem approveData_sets (now : Int) (x : Video) :
    (approveData now x).id = x.id ∧ (approveData now x).status = .APPROVED :=
  ⟨rfl, rfl⟩

theorem rejectData_sets (now : Int) (reason : JsVal) (x : Video) :
    (rejectData now reason x).id = x.id ∧ (rejectData now reason x).status = .REJECTED :=
  ⟨rfl, rfl⟩

theorem unpublishData_sets (x : Video) :
    (unpublishData x).id = x.id ∧ (unpublishData x).status = .PENDING :=
  ⟨rfl, rfl⟩

theorem rejectVideoRow_status {s s1 : Store} {now : Int} {id : Option Int} {reason : JsVal}
    {w : Video} (h : s.rejectVideoRow now id reason = .ok (s1, w)) (k : Int) :
    s1.statusOf k = s.statusOf k ∨ s1.statusOf k = some .REJECTED := by
  unfold Store.rejectVideoRow at h
  split at h
  · exact statusOf_updated (rejectData_sets now reason) h k
  · cases h

theorem approveRoute_status (now : Int) (s : Store) (auth : AuthHeader) (id : String)
    (k : Int) :
    (approveRoute now s auth id).1.statusOf k = s.statusOf k ∨
      (approveRoute now s auth id).1.statusOf k = some .APPROVED := by
  unfold approveRoute
  split
  · exact Or.inl rfl
  · split
    · exact Or.inl rfl
    · rename_i h
      exact statusOf_updated (approveData_sets now) h k

theorem rejectRoute_status (now : Int) (s : Store) (auth : AuthHeader) (id : String)
    (reason : JsVal) (k : Int) :
    (rejectRoute now s auth id reason).1.statusOf k = s.statusOf k ∨
      (rejectRoute now s auth id reason).1.statusOf k = some .REJECTED := by
  unfold rejectRoute
  split
  · exact Or.inl rfl
  · split
    · exact Or.inl rfl
    · rename_i h
      exact rejectVideoRow_status h k

theorem unpublishRoute_status (s : Store) (auth : AuthHeader) (id : String) (k : Int) :
    (unpublishRoute s auth id).1.statusOf k = s.statusOf k ∨
      (unpublishRoute s auth id).1.statusOf k = some .PENDING := by
  unfold unpublishRoute
  split
  · exact Or.inl rfl
  · split
    · exact Or.inl rfl
    · rename_i h
      exact statusOf_updated unpublishData_sets h k

theorem approveVideo_status (now : Int) (s : Store) (id : String) (k : Int) :
    (approveVideo now s id).1.statusOf k = s.statusOf k ∨
      (approveVideo now s id).1.statusOf k = some .APPROVED := by
  unfold approveVideo
  split
  · exact Or.inl rfl
  · rename_i h
    exact statusOf_updated (approveData_sets now) h k

theorem rejectVideo_status (now : Int) (s : Store) (id : String) (reason : JsVal) (k : Int) :
    (rejectVideo now s id reason).1.statusOf k = s.statusOf k ∨
      (rejectVideo now s id reason).1.statusOf k = some .REJECTED := by
  unfold rejectVideo
  split
  · exact Or.inl rfl
  · rename_i h
    exact rejectVideoRow_status h k

/-- The status of the video after a successful update is the one written. -/
theorem statusOf_after_update {s : Store} {v : Int} {video : Video} (data : Video → Video)
    {target : VideoStatus} (hd : ∀ x, (data x).id = x.id ∧ (data x).status = target)
    (hv : s.findVideo v = some video) :
    ({ s with videos := s.videos.map (fun x => if x.id = v then data x else x) } :
      Store).statusOf v = some target := by
  unfold Store.statusOf
  rw [findVideo_updated (fun x => (hd x).1) hv]
  exact congrArg some (hd video).2

/-- C17, the claim fails: video 5 of the scenario store is APPROVED, and one
reject call by admin 1 takes it to REJECTED, a change that is not among
PENDING→APPROVED, PENDING→REJECTED and APPROVED→PENDING. -/
theorem reject_approved_video :
    moderationStore.statusOf 5 = some .APPROVED ∧
    (rejectRoute 9 moderationStore adminToken "5" (.str "spam")).2.status = 200 ∧
    (rejectRoute 9 moderationStore adminToken "5" (.str "spam")).1.statusOf 5
      = some .REJECTED ∧
    allowedChange .APPROVED .REJECTED = false := by
  decide

/-- C17, amended. Every moderation call leaves the status of every video as it
was or sets it to the target of the call, and a call by an admin on an
existing video (with a reason Prisma accepts) is answered 200 and sets the
status of that video to the target, whatever the status before: approve to
APPROVED, reject to REJECTED, unpublish to PENDING.  This holds in every
store, so at every step of a sequence of calls. -/
theorem moderation_sets_target (s : Store) (auth : AuthHeader) (id : String)
    (call : Moderation) :
    (∀ k : Int, (moderate s auth id call).1.statusOf k = s.statusOf k ∨
      (moderate s auth id call).1.statusOf k = some call.target) ∧
    (∀ (d : Claims) (v : Int) (video : Video), adminAuth s auth = .ok d →
      parseIntChars id.toList = some v → s.findVideo v = some video → call.reasonOk = true →
      (moderate s auth id call).2 = 200 ∧
        (moderate s auth id call).1.statusOf v = some call.target) := by
  constructor
  · intro k
    cases call with
    | approve now => exact approveRoute_status now s auth id k
    | reject now reason => exact rejectRoute_status now s auth id reason k
    | unpublish => exact unpublishRoute_status s auth id k
    | approveVideo now => exact approveVideo_status now s id k
    | rejectVideo now reason => exact rejectVideo_status now s id reason k
  · intro d v video hauth hid hv hr
    cases call with
    | approve now =>
      show (approveRoute now s auth id).2.status = 200 ∧
        (approveRoute now s auth id).1.statusOf v = some .APPROVED
      rw [approveRoute_ok now hauth hid hv]
      exact ⟨rfl, statusOf_after_update (approveData now) (approveData_sets now) hv⟩
    | reject now reason =>
      show (rejectRoute now s auth id reason).2.status = 200 ∧
        (rejectRoute now s auth id reason).1.statusOf v = some .REJECTED
      rw [rejectRoute_ok now hauth hid hv hr]
      exact ⟨rfl, statusOf_after_update (rejectData now reason) (rejectData_sets now reason) hv⟩
    | unpublish =>
      show (unpublishRoute s auth id).2.status = 200 ∧
        (unpublishRoute s auth id).1.statusOf v = some .PENDING
      rw [unpublishRoute_ok hauth hid hv]
      exact ⟨rfl, statusOf_after_update unpublishData unpublishData_sets hv⟩
    | approveVideo now =>
      show (approveVideo now s id).2.status = 200 ∧
        (approveVideo now s id).1.statusOf v = some .APPROVED
      rw [approveVideo_ok now hid hv]
      exact ⟨rfl, statusOf_after_update (approveData now) (approveData_sets now) hv⟩
    | rejectVideo now reason =>
      show (rejectVideo now s id reason).2.status = 200 ∧
        (rejectVideo now s id reason).1.statusOf v = some .REJECTED
      rw [rejectVideo_ok now hid hv hr]
      exact ⟨rfl, statusOf_after_update (rejectData now reason) (rejectData_sets now reason) hv⟩

/-- C17, amended, on the scenario store: admin 1 approves the already
approved video 5 (it stays APPROVED) and the answer is 200. -/
theorem moderation_sets_target_witness :
    (moderate moderationStore adminToken "5" (.approve 9)).2 = 200 ∧
    (moderate moderationStore adminToken "5" (.approve 9)).1.statusOf 5 = some .APPROVED :=
  (moderation_sets_target moderationStore adminToken "5" (.approve 9)).2
    { id := some 1, role := some .ADMIN, isAdmin := some true } 5
    { id := 5, userId := 4, status := .APPROVED, approvedAt := some 1 }
    rfl (by decide) (by decide) (by decide)

/-- C18. For a call that passes `adminAuth` on an existing video `v`: approve
answers 200, sets `status` to APPROVED and `approvedAt` to the time of the call
(whatever the status before); reject with the reason `r` answers 200, sets
`status` to REJECTED, `rejectedAt` to the time of the call and
`rejectionReason` to `r`; unpublish answers 200, sets `status` to PENDING and
`approvedAt` to null.  In each case the other fields of the video, the rows of
every other video id and every other table are as before. -/
theorem moderation_effect (now : Int) (s : Store) (auth : AuthHeader) (id : String)
    (d : Claims) (v : Int) (video : Video) (hauth : adminAuth s auth = .ok d)
    (hid : parseIntChars id.toList = some v) (hv : s.findVideo v = some video) :
    approveRoute now s auth id =
      ({ s with videos := s.videos.map (fun x =>
            if x.id = v then { x with status := .APPROVED, approvedAt := some now } else x) },
        .ok { video with status := .APPROVED, approvedAt := some now }) ∧
    (∀ r : String, rejectRoute now s auth id (.str r) =
      ({ s with videos := s.videos.map (fun x =>
            if x.id = v then
              { x with status := .REJECTED, rejectedAt := some now, rejectionReason := some r }
            else x) },
        .ok { video with
              status := .REJECTED, rejectedAt := some now, rejectionReason := some r })) ∧
    unpublishRoute s auth id =
      ({ s with videos := s.videos.map (fun x =>
            if x.id = v then { x with status := .PENDING, approvedAt := none } else x) },
        .ok { video with status := .PENDING, approvedAt := none }) := by
  refine ⟨?_, ?_, ?_⟩
  · rw [approveRoute_ok now hauth hid hv]
    rfl
  · intro r
    rw [rejectRoute_ok now hauth hid hv (show nullableStringOk (.str r) = true from rfl)]
    rfl
  · rw [unpublishRoute_ok hauth hid hv]
    rfl

/-- C18 on the scenario store: admin 1 rejects the approved video 5 at time 9
with the reason "spam"; video 6 is untouched. -/
theorem moderation_effect_witness :
    (rejectRoute 9 moderationStore adminToken "5" (.str "spam")).1.videos =
      [{ id := 5, userId := 4, status := .REJECTED, approvedAt := some 1, rejectedAt := some 9,
         rejectionReason := some "spam" },
       { id := 6, userId := 4 }] := by
  rw [((moderation_effect 9 moderationStore adminToken "5"
    { id := some 1, role := some .ADMIN, isAdmin := some true } 5
    { id := 5, userId := 4, status := .APPROVED, approvedAt := some 1 }
    rfl (by decide) (by decide)).2.1 "spam")]
  decide

/-- C19, the claim fails: video 7 is not in the scenario store, and the approve
call of admin 1 for it is answered 500, not 404. -/
theorem approve_missing_video :
    moderationStore.findVideo 7 = none ∧
    (approveRoute 9 moderationStore adminToken "7").2.status = 500 ∧
    (approveRoute 9 moderationStore adminToken "7").2.status ≠ 404 := by
  decide

/-- C19, amended. A moderation call that passes `adminAuth` and whose path
parameter does not resolve to a video of the store (it parses to no id, or to
the id of no video) is answered 500 and leaves the store unchanged; so is the
same call to the controller functions. -/
theorem moderation_missing_video (s : Store) (auth : AuthHeader) (id : String) (d : Claims)
    (call : Moderation) (hauth : adminAuth s auth = .ok d)
    (hmiss : ∀ v, parseIntChars id.toList = some v → s.findVideo v = none) :
    moderate s auth id call = (s, 500) := by
  cases call with
  | approve now =>
    obtain ⟨e, he⟩ := updateVideo_missing (approveData now) hmiss
    show ((approveRoute now s auth id).1, (approveRoute now s auth id).2.status) = _
    simp only [approveRoute, hauth, he]
    rfl
  | reject now reason =>
    obtain ⟨e, he⟩ := rejectVideoRow_missing now reason hmiss
    show ((rejectRoute now s auth id reason).1, (rejectRoute now s auth id reason).2.status) = _
    simp only [rejectRoute, hauth, he]
    rfl
  | unpublish =>
    obtain ⟨e, he⟩ := updateVideo_missing unpublishData hmiss
    show ((unpublishRoute s auth id).1, (unpublishRoute s auth id).2.status) = _
    simp only [unpublishRoute, hauth, he]
    rfl
  | approveVideo now =>
    obtain ⟨e, he⟩ := updateVideo_missing (approveData now) hmiss
    show ((approveVideo now s id).1, (approveVideo now s id).2.status) = _
    simp only [approveVideo, he]
    rfl
  | rejectVideo now reason =>
    obtain ⟨e, he⟩ := rejectVideoRow_missing now reason hmiss
    show ((rejectVideo now s id reason).1, (rejectVideo now s id reason).2.status) = _
    simp only [rejectVideo, he]
    rfl

/-- C19, amended, on the scenario store: the unpublish call of admin 1 for the
missing video 7. -/
theorem moderation_missing_video_witness :
    moderate moderationStore adminToken "7" .unpublish = (moderationStore, 500) :=
  moderation_missing_video moderationStore adminToken "7"
    { id := some 1, role := some .ADMIN, isAdmin := some true } .unpublish rfl
    (by
      intro v hv
      have h7 : parseIntChars "7".toList = some 7 := by decide
      rw [h7] at hv
      cases hv
      decide)

/-- C20, the claim fails: user 3 of the scenario store has role USER (in the
store and in the token) and the `isAdmin` flag set; the approve call with the
token of user 3 on the pending video 6 is answered 200 and the video is
APPROVED afterwards. -/
theorem approve_by_flagged_user :
    (moderationStore.findUser 3).map (fun u => u.role) = some .USER ∧
    moderationStore.statusOf 6 = some .PENDING ∧
    (approveRoute 9 moderationStore flaggedUserToken "6").2.status = 200 ∧
    (approveRoute 9 moderationStore flaggedUserToken "6").1.statusOf 6 = some .APPROVED := by
  decide

/-- C20, amended. For every store, every path parameter and every valid token
whose payload names a user id: if the store has no user of that id, or the
user's `isAdmin` flag is false, the approve route answers 403 and leaves the
store, so the status and `approvedAt` of every video, unchanged.  The role, in
the token or in the store, is not consulted. -/
theorem approve_requires_isAdmin (now : Int) (s : Store) (id : String) (d : Claims)
    (k : Int) (hid : d.id = some k)
    (hflag : s.findUser k = none ∨ ∃ u, s.findUser k = some u ∧ u.isAdmin = false) :
    (approveRoute now s (.valid d) id).2 = .adminRequired ∧
    (approveRoute now s (.valid d) id).2.status = 403 ∧
    (approveRoute now s (.valid d) id).1 = s := by
  have hauth : adminAuth s (.valid d) = .error .adminRequired := by
    rcases hflag with h | ⟨u, h, hu⟩
    · simp only [adminAuth, hid, h]
    · simp only [adminAuth, hid, h, hu]
      rfl
  have h : approveRoute now s (.valid d) id = (s, .adminRequired) := by
    simp only [approveRoute, hauth]
  rw [h]
  exact ⟨rfl, rfl, rfl⟩

/-- C20, amended, on the scenario store: user 4, whose `isAdmin` flag is
false, is refused. -/
theorem approve_requires_isAdmin_witness :
    (approveRoute 9 moderationStore plainUserToken "6").2 = .adminRequired ∧
    (approveRoute 9 moderationStore plainUserToken "6").2.status = 403 ∧
    (approveRoute 9 moderationStore plainUserToken "6").1 = moderationStore :=
  approve_requires_isAdmin 9 moderationStore "6"
    { id := some 4, role := some .USER, isAdmin := some false } 4 rfl
    (Or.inr ⟨{ id := 4 }, by decide, rfl⟩)

/-! ## Facts about the two authentication middlewares -/

/-- C29. In the middleware of middleware/auth.js a valid token whose live user
row has `isBanned` set is answered with the 403 "Account suspended", whatever
the method, the path and the role of the user: the outcome is never `.ok`, so
`next` is not called and `req.user` is not set. -/
theorem banned_user_suspended (s : Store) (decoded : Claims) (id : Int) (user : User)
    (method path : String) (hid : decoded.subject = some id)
    (hu : s.findUser id = some user) (hb : user.isBanned = true) :
    authMiddleware s (.valid decoded) method path = .error .suspended ∧
      AuthResp.suspended.status = 403 ∧
      ∀ u, authMiddleware s (.valid decoded) method path ≠ .ok u := by
  have h : authMiddleware s (.valid decoded) method path = .error .suspended := by
    simp only [authMiddleware, hid, hu, hb, if_true]
  refine ⟨h, rfl, ?_⟩
  intro u hu1
  rw [h] at hu1
  cases hu1

theorem banned_user_suspended_witness :
    authMiddleware bannedStore superAdminToken "GET" "/admin/users" = .error .suspended ∧
      AuthResp.suspended.status = 403 ∧
      ∀ u, authMiddleware bannedStore superAdminToken "GET" "/admin/users" ≠ .ok u :=
  banned_user_suspended bannedStore { id := some 2, role := some .SUPER_ADMIN, isAdmin := some true }
    2 { id := 2, role := .SUPER_ADMIN, isAdmin := true, isBanned := true } "GET" "/admin/users"
    rfl rfl rfl

/-- C21, the code at the failing input: user 4 of the scenario store is not
banned, has `isAdmin` false and the role USER.  The PATCH request of user 4 for
/api/videos/6/approve passes the middleware, which reads the path `/6/approve`,
the controller answers 200, and video 6 is APPROVED. -/
theorem plain_user_approves :
    moderationStore.findUser 4 = some { id := 4, role := .USER, isAdmin := false } ∧
      moderationStore.statusOf 6 = some .PENDING ∧
      (patchApprove 100 moderationStore plainUserToken "6").2.status = 200 ∧
      (patchApprove 100 moderationStore plainUserToken "6").1.statusOf 6 = some .APPROVED ∧
      (patchReject 100 moderationStore plainUserToken "6" (.str "no")).2.status = 200 ∧
      (patchReject 100 moderationStore plainUserToken "6" (.str "no")).1.statusOf 6 =
        some .REJECTED := by
  refine ⟨rfl, rfl, ?_, ?_, ?_, ?_⟩ <;> decide

/-- C25, the code at the failing input: admin 1 of the scenario store is
banned.  The `adminAuth` of server.js lets the token of admin 1 through, the
approve route answers 200 and video 6 is APPROVED. -/
theorem banned_admin_approves :
    (bannedStore.findUser 1).map (fun u => u.isBanned) = some true ∧
      adminAuth bannedStore adminToken =
        .ok { id := some 1, role := some .ADMIN, isAdmin := some true } ∧
      (approveRoute 100 bannedStore adminToken "6").2.status = 200 ∧
      (approveRoute 100 bannedStore adminToken "6").1.statusOf 6 = some .APPROVED := by
  refine ⟨rfl, rfl, ?_, ?_⟩ <;> decide

/-! ## Facts about the user administration -/

/-- C22, the code at the failing inputs: the flags of the scenario store agree
with the roles.  The update of user 4 to the role ADMIN by admin 1 answers 200
and leaves `isAdmin` false; the registration with `isAdmin: 'true'` and no role
answers 201 and stores the role USER with `isAdmin` true; the admin
registration with the role USER by super admin 2 answers 201 and stores
`isAdmin` true.  After each of them the flags no longer agree. -/
theorem flag_disagrees_with_role :
    staffStore.flagsAgree = true ∧
      (updateUserRoute staffStore adminToken "4"
        { firstName := .str "U", lastName := .str "V", email := .str "u@x",
          role := .str "ADMIN" }).2.status = 200 ∧
      (updateUserRoute staffStore adminToken "4"
        { firstName := .str "U", lastName := .str "V", email := .str "u@x",
          role := .str "ADMIN" }).1.findUser 4 =
        some { id := 4, role := .ADMIN, isAdmin := false, email := "u@x" } ∧
      (updateUserRoute staffStore adminToken "4"
        { firstName := .str "U", lastName := .str "V", email := .str "u@x",
          role := .str "ADMIN" }).1.flagsAgree = false ∧
      (registerHandler staffStore
        { firstName := .str "N", lastName := .str "M", email := .str "n@x",
          password := .str "pw", isAdmin := .str "true" }).2 =
        .created { id := 5, role := .USER, isAdmin := true, email := "n@x" } ∧
      (registerHandler staffStore
        { firstName := .str "N", lastName := .str "M", email := .str "n@x",
          password := .str "pw", isAdmin := .str "true" }).1.flagsAgree = false ∧
      (adminRegisterRoute staffStore superAdminToken
        { firstName := .str "N", lastName := .str "M", email := .str "n@x",
          password := .str "pw", role := .str "USER" }).2 =
        .created { id := 5, role := .USER, isAdmin := true, email := "n@x" } ∧
      (adminRegisterRoute staffStore superAdminToken
        { firstName := .str "N", lastName := .str "M", email := .str "n@x",
          password := .str "pw", role := .str "USER" }).1.flagsAgree = false := by
  refine ⟨?_, ?_, ?_, ?_, ?_, ?_, ?_, ?_⟩ <;> decide

theorem adminAuth_valid {s : Store} {decoded : Claims} {a : Int} {actor : User}
    (hid : decoded.id = some a) (hu : s.findUser a = some actor) :
    adminAuth s (.valid decoded) =
      if !actor.isAdmin then .error .adminRequired else .ok decoded := by
  simp only [adminAuth, hid, hu]

/-- The promotion writes the role and the flag together, so it keeps the
agreement of flags and roles. -/
theorem promoteRoute_flagsAgree (s : Store) (auth : AuthHeader) (userId : JsVal)
    (h : s.flagsAgree = true) : (promoteRoute s auth userId).1.flagsAgree = true := by
  unfold promoteRoute
  split
  · exact h
  · split
    · exact h
    · split
      · exact h
      · split
        · split
          · exact h
          · simp only [Store.flagsAgree, List.all_eq_true, List.mem_map] at h ⊢
            rintro u ⟨x, hx, rfl⟩
            split
            · rfl
            · exact h x hx
        · exact h

theorem five_fields (a b c d e : Bool) :
    (!a || !b || !c || !d || !e) = !(a && b && c && d && e) := by
  cases a <;> cases b <;> cases c <;> cases d <;> cases e <;> rfl

theorem deleteAdminRoute_gate {s : Store} {decoded : Claims} {a : Int} {actor : User}
    (hid : decoded.id = some a) (hu : s.findUser a = some actor)
    (hr : actor.role ≠ .SUPER_ADMIN) (id : String) :
    (deleteAdminRoute s (.valid decoded) id).1 = s ∧
      (deleteAdminRoute s (.valid decoded) id).2.status = 403 := by
  have h2 : decoded.id.bind s.findUser = some actor := by rw [hid]; exact hu
  unfold deleteAdminRoute
  rw [adminAuth_valid hid hu]
  cases hadm : actor.isAdmin with
  | false => exact ⟨rfl, rfl⟩
  | true =>
    simp only [Bool.not_true, Bool.false_eq_true, if_false, h2]
    rw [if_pos hr]
    exact ⟨rfl, rfl⟩

theorem adminRegisterRoute_gate {s : Store} {decoded : Claims} {a : Int} {actor : User}
    (hid : decoded.id = some a) (hu : s.findUser a = some actor)
    (hr : actor.role ≠ .SUPER_ADMIN) (b : RegisterBody) :
    (adminRegisterRoute s (.valid decoded) b).1 = s ∧
      (b.complete = true → (adminRegisterRoute s (.valid decoded) b).2.status = 403) ∧
      (b.complete = false →
        (adminRegisterRoute s (.valid decoded) b).2.status =
          if actor.isAdmin then 400 else 403) := by
  have h2 : decoded.id.bind s.findUser = some actor := by rw [hid]; exact hu
  have h1 : (!b.firstName.truthy || !b.lastName.truthy || !b.email.truthy ||
      !b.password.truthy || !b.role.truthy) = !b.complete :=
    five_fields _ _ _ _ _
  unfold adminRegisterRoute
  rw [adminAuth_valid hid hu, h1]
  cases hadm : actor.isAdmin with
  | false => exact ⟨rfl, fun _ => rfl, fun _ => rfl⟩
  | true =>
    simp only [Bool.not_true, Bool.false_eq_true, if_false]
    cases hc : b.complete with
    | false => exact ⟨rfl, fun h => Bool.noConfusion h, fun _ => rfl⟩
    | true =>
      simp only [Bool.not_true, Bool.false_eq_true, if_false, h2]
      rw [if_pos hr]
      exact ⟨rfl, fun _ => rfl, fun h => Bool.noConfusion h⟩

theorem promoteRoute_gate {s : Store} {decoded : Claims} {a : Int} {actor : User}
    (hid : decoded.id = some a) (hu : s.findUser a = some actor)
    (hr : decoded.role ≠ some .SUPER_ADMIN) (userId : JsVal) :
    (promoteRoute s (.valid decoded) userId).1 = s ∧
      (promoteRoute s (.valid decoded) userId).2.status = 403 := by
  unfold promoteRoute
  rw [adminAuth_valid hid hu]
  cases hadm : actor.isAdmin with
  | false => exact ⟨rfl, rfl⟩
  | true =>
    simp only [Bool.not_true, Bool.false_eq_true, if_false]
    rw [if_pos hr]
    exact ⟨rfl, rfl⟩

/-- C23, the claim fails: admin 1 of the scenario store has the stored role
ADMIN.  With a token that still carries the role SUPER_ADMIN the promotion of
user 4 answers 200 and user 4 becomes a super admin; and an admin registration
by admin 1 without the fields answers 400, not 403. -/
theorem stale_token_promotes :
    (staffStore.findUser 1).map (fun u => u.role) = some .ADMIN ∧
      (promoteRoute staffStore staleToken (.str "4")).2.status = 200 ∧
      ((promoteRoute staffStore staleToken (.str "4")).1.findUser 4).map (fun u => u.role) =
        some .SUPER_ADMIN ∧
      (adminRegisterRoute staffStore adminToken {}).2.status = 400 := by
  refine ⟨?_, ?_, ?_, ?_⟩ <;> decide

/-- C23, amended.  For a valid token that names a stored user: when the stored
role of that user is not SUPER_ADMIN, DELETE /api/admin/admins/:id answers 403,
and POST /api/admin/register answers 403 when its five fields are given (and
400 or 403 otherwise); when the role the token carries is not SUPER_ADMIN,
POST /promote-to-super answers 403.  In each case the store is as before. -/
theorem super_admin_gate (s : Store) (decoded : Claims) (a : Int) (actor : User)
    (hid : decoded.id = some a) (hu : s.findUser a = some actor) :
    (actor.role ≠ .SUPER_ADMIN →
      (∀ id, (deleteAdminRoute s (.valid decoded) id).1 = s ∧
        (deleteAdminRoute s (.valid decoded) id).2.status = 403) ∧
      (∀ b, (adminRegisterRoute s (.valid decoded) b).1 = s ∧
        (b.complete = true → (adminRegisterRoute s (.valid decoded) b).2.status = 403) ∧
        (b.complete = false →
          (adminRegisterRoute s (.valid decoded) b).2.status =
            if actor.isAdmin then 400 else 403))) ∧
    (decoded.role ≠ some .SUPER_ADMIN →
      ∀ userId, (promoteRoute s (.valid decoded) userId).1 = s ∧
        (promoteRoute s (.valid decoded) userId).2.status = 403) :=
  ⟨fun hr => ⟨deleteAdminRoute_gate hid hu hr, adminRegisterRoute_gate hid hu hr⟩,
   promoteRoute_gate hid hu⟩

theorem super_admin_gate_witness :
    ((deleteAdminRoute staffStore adminToken "4").1 = staffStore ∧
      (deleteAdminRoute staffStore adminToken "4").2.status = 403) ∧
    ((promoteRoute staffStore adminToken (.str "4")).1 = staffStore ∧
      (promoteRoute staffStore adminToken (.str "4")).2.status = 403) :=
  ⟨((super_admin_gate staffStore { id := some 1, role := some .ADMIN, isAdmin := some true } 1
      { id := 1, role := .ADMIN, isAdmin := true, email := "a@x" } rfl rfl).1
      (by decide)).1 "4",
   (super_admin_gate staffStore { id := some 1, role := some .ADMIN, isAdmin := some true } 1
      { id := 1, role := .ADMIN, isAdmin := true, email := "a@x" } rfl rfl).2
      (by decide) (.str "4")⟩

/-- C24, the code at the failing input: user 4 of the scenario store has the
role USER.  The DELETE request of super admin 2 for /api/admin/admins/4 answers
200 and the row of user 4 is gone. -/
theorem delete_admin_removes_plain_user :
    (staffStore.findUser 4).map (fun u => u.role) = some .USER ∧
      (deleteAdminRoute staffStore superAdminToken "4").2.status = 200 ∧
      (deleteAdminRoute staffStore superAdminToken "4").1.findUser 4 = none ∧
      (deleteAdminRoute staffStore superAdminToken "4").1.users.map (fun u => u.id) = [1, 2] := by
  refine ⟨?_, ?_, ?_, ?_⟩ <;> decide

/-! ## Facts about the detail view, the upload and the listings -/

/-- C26. For a GET /api/videos/:id whose id is a number naming `v` and whose
`userId` is absent or valid: when video `v` exists the answer is 200, and the
store afterwards is the store before with `views` of the row of `v` increased
by 1, every other field of that row, every other video and every other table
as before; when no video has the id the answer is 404 and the store is as
before. -/
theorem detail_counts_one_view (s : Store) (id : String) (userId : JsVal) (v : Int)
    (u : Option Int) (hne : id.toList ≠ []) (hnum : stringToNumber id.toList ≠ .nan)
    (hv : parseIntChars id.toList = some v) (hu : (idArg userId).check = some u) :
    (∀ video, s.findVideo v = some video →
      (videoDetail s id userId).2.status = 200 ∧
      (videoDetail s id userId).1 =
        { s with videos := s.videos.map (fun x =>
            if x.id = v then { x with views := x.views + 1 } else x) } ∧
      (videoDetail s id userId).1.findVideo v =
        some { video with views := video.views + 1 }) ∧
    (s.findVideo v = none →
      (videoDetail s id userId).2.status = 404 ∧ (videoDetail s id userId).1 = s) := by
  have h0 : ¬ (id.toList = [] ∨ stringToNumber id.toList = .nan) := fun h => h.elim hne hnum
  refine ⟨?_, ?_⟩
  · intro video hfind
    have hd1 : (videoDetail s id userId).1 =
        { s with videos := s.videos.map (fun x => if x.id = v then countView x else x) } := by
      simp only [videoDetail, if_neg h0, hv, hu, hfind, updateVideo_ok countView hfind]
    have hd2 : (videoDetail s id userId).2.status = 200 := by
      simp only [videoDetail, if_neg h0, hv, hu, hfind, updateVideo_ok countView hfind,
        DetailResp.status]
    refine ⟨hd2, ?_, ?_⟩
    · rw [hd1]
      rfl
    · rw [hd1]
      exact findVideo_updated (fun _ => rfl) hfind
  · intro hfind
    constructor
    · simp only [videoDetail, if_neg h0, hv, hu, hfind, DetailResp.status]
    · simp only [videoDetail, if_neg h0, hv, hu, hfind]

theorem detail_counts_one_view_witness :
    (videoDetail moderationStore "5" .undefined).2.status = 200 ∧
      (videoDetail moderationStore "5" .undefined).1.findVideo 5 =
        some { id := 5, userId := 4, status := .APPROVED, approvedAt := some 1, views := 1 } ∧
      (videoDetail moderationStore "7" .undefined).2.status = 404 :=
  ⟨((detail_counts_one_view moderationStore "5" .undefined 5 none (by decide) (by decide)
      (by decide) rfl).1 { id := 5, userId := 4, status := .APPROVED, approvedAt := some 1 }
      (by decide)).1,
   ((detail_counts_one_view moderationStore "5" .undefined 5 none (by decide) (by decide)
      (by decide) rfl).1 { id := 5, userId := 4, status := .APPROVED, approvedAt := some 1 }
      (by decide)).2.2,
   ((detail_counts_one_view moderationStore "7" .undefined 7 none (by decide) (by decide)
      (by decide) rfl).2 (by decide)).1⟩

/-- C27, the code at the failing inputs: an upload with a thumbnail and no
video file answers 400 and the thumbnail is still on the disk; an upload with
both files and an unparseable release date answers 400 and both files are still
on the disk.  Only the upload whose datastore write fails (here for the missing
title) answers 500 with both files removed. -/
theorem rejected_upload_keeps_files :
    (uploadVideo 100 staffStore ["uploads/t.png"] thumbnailOnly).2.2.status = 400 ∧
      (uploadVideo 100 staffStore ["uploads/t.png"] thumbnailOnly).2.1 = ["uploads/t.png"] ∧
      (uploadVideo 100 staffStore ["uploads/t.png", "uploads/v.mp4"] undatedUpload).2.2.status =
        400 ∧
      (uploadVideo 100 staffStore ["uploads/t.png", "uploads/v.mp4"] undatedUpload).2.1 =
        ["uploads/t.png", "uploads/v.mp4"] ∧
      (uploadVideo 100 staffStore ["uploads/t.png", "uploads/v.mp4"] untitledUpload).2.2.status =
        500 ∧
      (uploadVideo 100 staffStore ["uploads/t.png", "uploads/v.mp4"] untitledUpload).2.1 = [] ∧
      (uploadVideo 100 staffStore ["uploads/t.png", "uploads/v.mp4"] titledUpload).2.2.status =
        201 := by
  refine ⟨?_, ?_, ?_, ?_, ?_, ?_, ?_⟩ <;> decide

theorem mem_getPremiumVideos (now : Int) (s : Store) (v : Video) :
    v ∈ getPremiumVideos now s ↔
      v ∈ s.videos ∧ v.status = .APPROVED ∧ now - 2592000000 ≤ v.createdAt := by
  simp only [getPremiumVideos, thirtyDaysAgo, List.mem_filter, Bool.and_eq_true,
    decide_eq_true_eq]
  constructor
  · rintro ⟨h1, h2, h3⟩
    exact ⟨h1, h3, by omega⟩
  · rintro ⟨h1, h2, h3⟩
    exact ⟨h1, by omega, h2⟩

theorem mem_getTrendingVideos (now : Int) (s : Store) (v : Video) :
    v ∈ getTrendingVideos now s ↔
      v ∈ s.videos ∧ v.status = .APPROVED ∧ v.createdAt < now - 2592000000 := by
  simp only [getTrendingVideos, thirtyDaysAgo, List.mem_filter, Bool.and_eq_true,
    decide_eq_true_eq]
  constructor
  · rintro ⟨h1, h2, h3⟩
    exact ⟨h1, h3, by omega⟩
  · rintro ⟨h1, h2, h3⟩
    exact ⟨h1, by omega, h2⟩

/-- C28. At every instant `now` (in milliseconds) the premium listing holds
exactly the videos that are APPROVED and created at `now` − 30 days or later,
the trending listing exactly the videos that are APPROVED and created before
`now` − 30 days; so a video is in one of the two listings exactly when it is
APPROVED (no PENDING or REJECTED video is in either), and no video is in both. -/
theorem listings_split_approved (now : Int) (s : Store) :
    (∀ v, v ∈ getPremiumVideos now s ↔
      v ∈ s.videos ∧ v.status = .APPROVED ∧ now - 2592000000 ≤ v.createdAt) ∧
    (∀ v, v ∈ getTrendingVideos now s ↔
      v ∈ s.videos ∧ v.status = .APPROVED ∧ v.createdAt < now - 2592000000) ∧
    (∀ v, (v ∈ getPremiumVideos now s ∨ v ∈ getTrendingVideos now s) ↔
      v ∈ s.videos ∧ v.status = .APPROVED) ∧
    (∀ v, ¬ (v ∈ getPremiumVideos now s ∧ v ∈ getTrendingVideos now s)) := by
  refine ⟨mem_getPremiumVideos now s, mem_getTrendingVideos now s, ?_, ?_⟩
  · intro v
    rw [mem_getPremiumVideos, mem_getTrendingVideos]
    constructor
    · rintro (⟨h1, h2, _⟩ | ⟨h1, h2, _⟩) <;> exact ⟨h1, h2⟩
    · rintro ⟨h1, h2⟩
      by_cases h : now - 2592000000 ≤ v.createdAt
      · exact Or.inl ⟨h1, h2, h⟩
      · exact Or.inr ⟨h1, h2, by omega⟩
  · intro v
    rw [mem_getPremiumVideos, mem_getTrendingVideos]
    rintro ⟨⟨_, _, h3⟩, ⟨_, _, h4⟩⟩
    omega

/-- The listings on the scenario store at the instant 3000000000: video 1 is
premium, video 2 trending, the pending and the rejected video are in neither. -/
theorem listings_on_scenario :
    (getPremiumVideos 3000000000 listingStore).map (fun v => v.id) = [1] ∧
      (getTrendingVideos 3000000000 listingStore).map (fun v => v.id) = [2] := by
  decide

/-! ## Facts about the stamps of the moderation -/

theorem approveData_stamped (now : Int) (x : Video) : (approveData now x).stamped :=
  ⟨fun _ h => Option.noConfusion h, fun h => VideoStatus.noConfusion h,
   fun h => VideoStatus.noConfusion h⟩

theorem rejectData_stamped (now : Int) (reason : JsVal) (x : Video) :
    (rejectData now reason x).stamped :=
  ⟨fun h => VideoStatus.noConfusion h, fun _ h => Option.noConfusion h,
   fun h => VideoStatus.noConfusion h⟩

theorem unpublishData_stamped (x : Video) : (unpublishData x).stamped :=
  ⟨fun h => VideoStatus.noConfusion h, fun h => VideoStatus.noConfusion h, fun _ => rfl⟩

theorem countView_stamped (x : Video) (h : x.stamped) : (countView x).stamped := h

theorem updateVideo_stamped {s s1 : Store} {id : Option Int} {data : Video → Video}
    {w : Video} (hd : ∀ x, x.stamped → (data x).stamped)
    (h : s.updateVideo id data = .ok (s1, w)) (hs : s.stamped) : s1.stamped := by
  unfold Store.updateVideo at h
  split at h
  · cases h
  · rename_i k
    split at h
    · cases h
    · cases h
      intro v hv
      obtain ⟨x, hx, rfl⟩ := List.mem_map.mp hv
      split
      · exact hd x (hs x hx)
      · exact hs x hx

theorem rejectVideoRow_stamped {s s1 : Store} {now : Int} {id : Option Int} {reason : JsVal}
    {w : Video} (h : s.rejectVideoRow now id reason = .ok (s1, w)) (hs : s.stamped) :
    s1.stamped := by
  unfold Store.rejectVideoRow at h
  split at h
  · exact updateVideo_stamped (fun x _ => rejectData_stamped now reason x) h hs
  · cases h

theorem approveRoute_stamped (now : Int) {s : Store} (auth : AuthHeader) (id : String)
    (hs : s.stamped) : (approveRoute now s auth id).1.stamped := by
  unfold approveRoute
  split
  · exact hs
  · split
    · exact hs
    · rename_i h
      exact updateVideo_stamped (fun x _ => approveData_stamped now x) h hs

theorem rejectRoute_stamped (now : Int) {s : Store} (auth : AuthHeader) (id : String)
    (reason : JsVal) (hs : s.stamped) : (rejectRoute now s auth id reason).1.stamped := by
  unfold rejectRoute
  split
  · exact hs
  · split
    · exact hs
    · rename_i h
      exact rejectVideoRow_stamped h hs

theorem unpublishRoute_stamped {s : Store} (auth : AuthHeader) (id : String)
    (hs : s.stamped) : (unpublishRoute s auth id).1.stamped := by
  unfold unpublishRoute
  split
  · exact hs
  · split
    · exact hs
    · rename_i h
      exact updateVideo_stamped (fun x _ => unpublishData_stamped x) h hs

theorem approveVideo_stamped (now : Int) {s : Store} (videoId : String) (hs : s.stamped) :
    (approveVideo now s videoId).1.stamped := by
  unfold approveVideo
  split
  · exact hs
  · rename_i h
    exact updateVideo_stamped (fun x _ => approveData_stamped now x) h hs

theorem rejectVideo_stamped (now : Int) {s : Store} (videoId : String) (reason : JsVal)
    (hs : s.stamped) : (rejectVideo now s videoId reason).1.stamped := by
  unfold rejectVideo
  split
  · exact hs
  · rename_i h
    exact rejectVideoRow_stamped h hs

theorem moderate_stamped {s : Store} (auth : AuthHeader) (id : String) (call : Moderation)
    (hs : s.stamped) : (moderate s auth id call).1.stamped := by
  cases call with
  | approve now => exact approveRoute_stamped now auth id hs
  | reject now reason => exact rejectRoute_stamped now auth id reason hs
  | unpublish => exact unpublishRoute_stamped auth id hs
  | approveVideo now => exact approveVideo_stamped now id hs
  | rejectVideo now reason => exact rejectVideo_stamped now id reason hs

theorem patchApprove_stamped (now : Int) {s : Store} (auth : AuthHeader) (id : String)
    (hs : s.stamped) : (patchApprove now s auth id).1.stamped := by
  unfold patchApprove
  split
  · exact hs
  · exact approveVideo_stamped now id hs

theorem patchReject_stamped (now : Int) {s : Store} (auth : AuthHeader) (id : String)
    (reason : JsVal) (hs : s.stamped) : (patchReject now s auth id reason).1.stamped := by
  unfold patchReject
  split
  · exact hs
  · exact rejectVideo_stamped now id reason hs

theorem videoDetail_stamped {s : Store} (id : String) (userId : JsVal) (hs : s.stamped) :
    (videoDetail s id userId).1.stamped := by
  unfold videoDetail
  split
  · exact hs
  · split
    · split
      · exact hs
      · dsimp only
        split
        · exact hs
        · rename_i h
          exact updateVideo_stamped countView_stamped h hs
    · exact hs

/-- The row an upload creates is PENDING with both stamps null. -/
theorem createVideo_row {s s1 : Store} {now : Int} {r : UploadRequest} {w : Video}
    (h : s.createVideo now r = .ok (s1, w)) :
    s1.videos = s.videos ++ [w] ∧ w.status = .PENDING ∧ w.approvedAt = none ∧
      w.rejectedAt = none := by
  unfold Store.createVideo at h
  split at h
  · cases h
  · split at h
    · split at h
      · cases h
      · cases h
        exact ⟨rfl, rfl, rfl, rfl⟩
    · cases h

theorem uploadVideo_stamped (now : Int) {s : Store} (disk : List String) (r : UploadRequest)
    (hs : s.stamped) : (uploadVideo now s disk r).1.stamped := by
  unfold uploadVideo
  split
  · exact hs
  · split
    · exact hs
    · split
      · rename_i h
        obtain ⟨hv, hst, ha, _⟩ := createVideo_row h
        intro v hmem
        rw [hv] at hmem
        rcases List.mem_append.mp hmem with h1 | h1
        · exact hs v h1
        · rw [List.mem_singleton.mp h1]
          refine ⟨fun h2 => ?_, fun h2 => ?_, fun _ => ha⟩
          · rw [hst] at h2
            cases h2
          · rw [hst] at h2
            cases h2
      · exact hs

theorem applyCall_stamped {s : Store} (c : VideoCall) (hs : s.stamped) :
    (applyCall s c).stamped := by
  cases c with
  | upload now disk r => exact uploadVideo_stamped now disk r hs
  | moderation auth id call => exact moderate_stamped auth id call hs
  | patchApprove now auth id => exact patchApprove_stamped now auth id hs
  | patchReject now auth id reason => exact patchReject_stamped now auth id reason hs
  | detail id userId => exact videoDetail_stamped id userId hs

theorem applyCalls_stamped (calls : List VideoCall) :
    ∀ {s : Store}, s.stamped → (applyCalls s calls).stamped := by
  induction calls with
  | nil => exact fun hs => hs
  | cons c cs ih => exact fun hs => ih (applyCall_stamped c hs)

/-- C30. From a store whose videos are as an upload creates them (PENDING,
`approvedAt` and `rejectedAt` null), after any sequence of uploads, approve,
reject and unpublish calls (of server.js, of the controller and of the router)
and detail views: every APPROVED video has a non-null `approvedAt`, every
REJECTED video a non-null `rejectedAt`, and every PENDING video a null
`approvedAt`. -/
theorem stamps_follow_status (s : Store) (calls : List VideoCall)
    (h0 : ∀ v ∈ s.videos, v.status = .PENDING ∧ v.approvedAt = none ∧ v.rejectedAt = none) :
    ∀ v ∈ (applyCalls s calls).videos,
      (v.status = .APPROVED → v.approvedAt ≠ none) ∧
      (v.status = .REJECTED → v.rejectedAt ≠ none) ∧
      (v.status = .PENDING → v.approvedAt = none) := by
  have hs : s.stamped := by
    intro v hv
    obtain ⟨h1, h2, _⟩ := h0 v hv
    refine ⟨fun h => ?_, fun h => ?_, fun _ => h2⟩
    · rw [h1] at h
      cases h
    · rw [h1] at h
      cases h
  exact applyCalls_stamped calls hs

theorem stamps_follow_status_witness :
    (applyCalls uploadedStore stampCalls).videos =
      [{ id := 6, userId := 4 },
       { id := 7, userId := 4, status := .APPROVED, approvedAt := some 12,
         rejectedAt := some 11, rejectionReason := some "no", createdAt := 5 }] ∧
    (some 12 : Option Int) ≠ none :=
  ⟨by decide,
   (stamps_follow_status uploadedStore stampCalls (by decide)
      { id := 7, userId := 4, status := .APPROVED, approvedAt := some 12,
        rejectedAt := some 11, rejectionReason := some "no", createdAt := 5 }
      (by decide)).1 rfl⟩

end Soldout
